import Mathlib

/-!
# Account activation and login of the SSO service

A shallow embedding of the authentication flows of `isaqueveras/sso`:

* `application/auth/auth_business.go` (flag based variant: `CreateAccount`, `Activation`,
  `Login`),
* `internal/application/auth/business.go` (role based variant: `Register`, `Activation`,
  `Login`),
* the repositories `infrastructure/persistencie/auth/postgres/auth.go` (`PGAuth`),
  `internal/infrastructure/persistencie/auth/postgres/user.go` (`PGUser`) and
  `internal/infrastructure/user/postgres.go` (`pgUser`, behind `repoUser` of the role based
  variant),
* the error constructors of `internal/domain/auth/errors.go`.

Every business function opens one transaction, issues repository calls on it and returns after
the deferred `Rollback`.  A run is a pure function of the system it starts in (`Sys`: durable
rows, clock, injected driver failures, outcomes of the pure helpers) and yields an `Outcome`:
the returned value or error, the durable rows after the call, and the log of calls issued.

Go pointers are `Option`; a panic is the result `Error.nilDeref`; identifiers (`uuid.UUID`, and the strings holding them in the role
based variant) are natural numbers; instants are integers counting microseconds.
-/

namespace SSO

/-! ## Errors -/

abbrev UUID := Nat

abbrev Time := Int

/-- The `*oops.Error` value built by `oops.NewError(message, code)`; the message is kept as the
key handed to `i18n.Value`. -/
structure OopsError where
  Message : String
  Code : Nat
deriving DecidableEq, Repr

/-- Error values that flow through the business functions. -/
inductive Error where
  /-- a typed error built by a constructor of package `domain` -/
  | oops (e : OopsError)
  /-- the sentinel `sql.ErrNoRows` -/
  | errNoRows
  /-- any other failure of the driver, the signer, the mailer or a helper -/
  | other (tag : Nat)
  /-- a nil pointer dereference: the call panics after its deferred `Rollback` -/
  | nilDeref
deriving DecidableEq, Repr

def StatusBadRequest : Nat := 400

def StatusForbidden : Nat := 403

def StatusNotFound : Nat := 404

def ErrUserExists : Error :=
  .oops ⟨"errors.handling.err_user_exists", StatusBadRequest⟩

def ErrNotHavePermissionActiveAccount : Error :=
  .oops ⟨"errors.handling.err_not_have_permission_active_account", StatusBadRequest⟩

def ErrTokenIsNotValid : Error :=
  .oops ⟨"errors.handling.err_token_is_not_valid", StatusBadRequest⟩

def ErrNotHavePermissionLogin : Error :=
  .oops ⟨"errors.handling.err_not_have_permission_login", StatusBadRequest⟩

def ErrUserNotExists : Error :=
  .oops ⟨"errors.handling.err_user_not_exists", StatusNotFound⟩

def ErrEmailOrPasswordIsNotValid : Error :=
  .oops ⟨"errors.handling.err_email_or_password_is_not_valid", StatusBadRequest⟩

def ErrUserBlockedTemporarily : Error :=
  .oops ⟨"errors.handling.err_user_blocked_temporarily", StatusForbidden⟩

/-- Modelled from the spec: `domain.ErrOTPTokenInvalid` is used by `Login` but its constructor is
not in the sources; the spec lists `OTPTokenInvalid` among the domain rule violations, which
carry a stable code and a message. -/
def ErrOTPTokenInvalid : Error :=
  .oops ⟨"errors.handling.err_otp_token_invalid", StatusBadRequest⟩

/-- Modelled from the spec: package `oops` is not in the sources; `oops.Err` wraps an error for
propagation ("opaque propagated errors") and keeps which error it is.  Package `domain` imports
`oops`, so whatever the wrapping adds it cannot turn a driver error into one of the errors the
constructors of `domain` build. -/
def oops.Err (e : Error) : Error := e

/-- Modelled from the spec: type `oops.Error` is not in the sources; the code of a domain error
is the second argument of `oops.NewError`, "a stable code and human-readable message"; the
other errors carry none. -/
def Error.code : Error → Option Nat
  | .oops e => some e.Code
  | _ => none

/-! ## Rows -/

/-- Roles of the role based variant (package `roles`, not in the sources, only its names). -/
inductive Role where
  | ReadActivationToken
  | ReadSession
  | CreateSession
  | DeleteSession
  | extra (n : Nat)
deriving DecidableEq, Repr

/-- A row of table `users`: the columns read by `PGUser.Get`, written by `PGAuth.AddAttempts`
and `PGUser.Disable`, and the `roles`, `about`, `avatar`, `phone_number`, `created_at` columns
the role based variant reads. -/
structure UserRow where
  id : UUID
  email : String
  password : String
  first_name : String
  last_name : String
  flag : Nat
  key : String
  active : Bool
  level : Nat
  otp : Option String
  attempts : Nat
  last_failure : Option Time
  roles : List Role
  about : Option String
  avatar : Option String
  phone_number : Option String
  created_at : Time
  updated_at : Option Time
deriving DecidableEq, Repr

/-- A row of table `activate_account_tokens`. -/
structure TokenRow where
  id : UUID
  user_id : Option UUID
  used : Bool
  expires_at : Time
  created_at : Time
deriving DecidableEq, Repr

/-- A row of the sessions table. -/
structure SessionRow where
  id : UUID
  user_id : Option UUID
  client_ip : Option String
  user_agent : Option String
  created_at : Time
deriving DecidableEq, Repr

structure DB where
  users : List UserRow
  tokens : List TokenRow
  sessions : List SessionRow
deriving DecidableEq, Repr

/-! ## Calls, the system and the open transaction -/

/-- The calls a business function issues on its collaborators, with their arguments. -/
inductive Call where
  | NewTransaction
  | Commit
  | Rollback
  | GetActivateAccountToken (id : Option UUID)
  | MarkTokenAsUsed (id : Option UUID)
  | CreateAccessToken (userID : Option UUID)
  | AddAttempts (userID : Option UUID)
  | UserGet (id : Option UUID) (email : Option String)
  | FlagSet (userID : Option UUID) (flag : Nat)
  | SessionCreate (userID : Option UUID) (clientIP userAgent : Option String)
  | NewUserAuthToken (userID sessionID : Option UUID)
  | ComparePasswords (password : Option String)
  | ValidateToken (otp : Option String)
  | GetUser (id : Option UUID) (email : Option String)
  | RemoveRoles (userID : Option UUID) (roles : List Role)
  | AddRoles (userID : Option UUID) (roles : List Role)
  | RepoLogin (email : Option String)
  | AddNumberFailedAttempts (userID : Option UUID)
  | Prepare
  | Exist (email : Option String)
  | FormatValuesInUp
  | CreateAccount (email : Option String)
  | SendMailActivationAccount (email : Option String) (token : Option UUID)
  | FindByEmailUserExists (email : Option String)
  | TypeConverter
  | Register (email : Option String)
  | Disable (userUUID : Option UUID)
deriving DecidableEq, Repr

/-- One entry of the call log: the call and the error it returned, if any. -/
structure Event where
  call : Call
  err : Option Error
deriving DecidableEq, Repr

/-- Record `domain.User` of the flag based variant (fields as scanned by `PGUser.Get` and read by
`Login`). -/
structure User where
  ID : Option UUID
  Email : Option String
  Password : Option String
  FirstName : Option String
  LastName : Option String
  Flag : Option Nat
  Key : Option String
  Active : Option Bool
  Level : Option Nat
  OTPToken : Option String
  Blocked : Option Bool
  OTPEnable : Option Bool
  OTPSetUp : Option Bool
  CreatedAt : Option Time
deriving DecidableEq, Repr

/-- Record `domainUser.User` of the role based variant (the fields `Activation` and `Login` read). -/
structure LegacyUser where
  ID : Option UUID
  Email : Option String
  FirstName : Option String
  LastName : Option String
  Roles : Option (List Role)
  About : Option String
  Avatar : Option String
  PhoneNumber : Option String
  TokenKey : Option String
  CreatedAt : Option Time
  IsActive : Option Bool
  BlockedTemporarily : Option Bool
  UserType : Option Nat
deriving DecidableEq, Repr

/-- Record `domain.CreateAccount`: the registration input of the flag based variant. -/
structure CreateAccount where
  FirstName : Option String
  LastName : Option String
  Email : Option String
  Password : Option String
deriving DecidableEq, Repr

/-- Record `RegisterRequest`: the registration input of the role based variant. -/
structure RegisterRequest where
  FirstName : Option String
  LastName : Option String
  Email : Option String
  Password : Option String
  Roles : Option (List Role)
deriving DecidableEq, Repr

/-- What a run depends on besides its input. -/
structure Sys where
  /-- the durable rows -/
  db : DB
  /-- the instant of the call: `NOW()` of the transaction and `time.Now()` -/
  now : Time
  /-- injected driver failures: the tag of the error a call fails with -/
  fail : Call → Option Nat
  /-- the identifier the database generates for the row a call inserts -/
  newID : Call → UUID
  /-- the flag constants of package `domain`, whose declarations are not in the sources -/
  FlagEnabledAccount : Nat
  FlagOTPEnable : Nat
  FlagOTPSetup : Nat
  /-- helper `in.ComparePasswords(hash, key)`: supplied password, stored hash, key -/
  comparePasswords : Option String → Option String → Option String → Option Error
  /-- helper `utils.ValidateToken(secret, code)` -/
  validateToken : Option String → Option String → Option Error
  /-- signer `tokens.NewUserAuthToken(user, sessionID)` of the flag based variant -/
  sign : User → Option UUID → Except Nat String
  /-- signer `tokens.NewUserAuthToken(cfg, user, sessionID)` of the role based variant -/
  signLegacy : LegacyUser → Option UUID → Except Nat String
  /-- method `in.Prepare()` of `domain.CreateAccount`: the validation error, or the input as the
  normalisation leaves it -/
  prepare : CreateAccount → Except Error CreateAccount
  /-- helper `utils.FormatValuesInUp(input)` with the column defaults of table `users`: the
  failure of the formatting, or the row the insert stores (under the id the database
  generates) -/
  userRow : CreateAccount → Except Nat UserRow
  /-- method `in.Prepare()` of `RegisterRequest` -/
  prepareRequest : RegisterRequest → Except Error RegisterRequest
  /-- the row `repo.Register` stores for a request (under the generated id and with the roles
  of the request) -/
  requestRow : RegisterRequest → UserRow

/-- The open transaction of a run. -/
structure Tx where
  /-- rows as seen inside the transaction -/
  view : DB
  /-- rows that survive the call -/
  durable : DB
  /-- committed or rolled back -/
  closed : Bool
  log : List Event
deriving DecidableEq, Repr

deriving instance DecidableEq for Except

/-- What a run leaves behind. -/
structure Outcome (α : Type) where
  result : Except Error α
  db : DB
  log : List Event

def Tx.record (t : Tx) (c : Call) (err : Option Error) : Tx :=
  { t with log := t.log ++ [⟨c, err⟩] }

/-- Function `postgres.NewTransaction(ctx, false)`: opens the transaction on the durable rows. -/
def NewTransaction (s : Sys) : Except Error Tx :=
  match s.fail .NewTransaction with
  | some n => .error (.other n)
  | none => .ok { view := s.db, durable := s.db, closed := false, log := [⟨.NewTransaction, none⟩] }

/-- Method `tx.Commit()`: makes the view durable, or fails and leaves the durable rows alone. -/
def Commit (s : Sys) (t : Tx) : Option Error × Tx :=
  match s.fail .Commit with
  | some n => (some (.other n), t.record .Commit (some (.other n)))
  | none => (none, { t.record .Commit none with durable := t.view, closed := true })

/-- The deferred `tx.Rollback()`: discards the view unless the transaction is closed. -/
def Rollback (t : Tx) : Tx :=
  if t.closed then t.record .Rollback none
  else { t.record .Rollback none with view := t.durable, closed := true }

/-- A run that could not open its transaction. -/
def Outcome.notOpened (s : Sys) (e : Error) : Outcome α :=
  ⟨.error (oops.Err e), s.db, [⟨.NewTransaction, some e⟩]⟩

/-- Return from a business function: run the deferred `Rollback`, keep the durable rows. -/
def Outcome.finish (r : Except Error α × Tx) : Outcome α :=
  ⟨r.1, (Rollback r.2).durable, (Rollback r.2).log⟩

/-- Driver level `QueryRow(...).Scan(...)`: an injected failure, `sql.ErrNoRows`, or the row. -/
def queryRow (s : Sys) (t : Tx) (c : Call) (row : Option α) : Except Error α × Tx :=
  match s.fail c with
  | some n => (.error (.other n), t.record c (some (.other n)))
  | none =>
    match row with
    | some r => (.ok r, t.record c none)
    | none => (.error .errNoRows, t.record c (some .errNoRows))

/-- Driver level `Exec()` of an `UPDATE` or `INSERT`: an injected failure, or the change applied
to the view. -/
def exec (s : Sys) (t : Tx) (c : Call) (f : DB → DB) : Option Error × Tx :=
  match s.fail c with
  | some n => (some (.other n), t.record c (some (.other n)))
  | none => (none, { t.record c none with view := f t.view })

/-! ## Repository `PGAuth` (infrastructure/persistencie/auth/postgres/auth.go) -/

def thirtyMinutes : Time := 30 * 60 * 1000000

def fiveMinutes : Time := 5 * 60 * 1000000

/-- Record `domain.ActivateAccount` (fields as scanned by `GetActivateAccountToken`). -/
structure ActivateAccount where
  ID : Option UUID
  UserID : Option UUID
  Used : Option Bool
  Valid : Option Bool
  ExpiresAt : Option Time
  CreatedAt : Option Time
deriving DecidableEq, Repr

/-- Modelled from the spec: the method `ActivateAccount.IsValid` is not in the sources; a token
is not valid "if absent, already used, or expired", so it is valid when the scanned `used` is
false and the scanned `expires_at >= now()` is true. -/
def ActivateAccount.IsValid (a : ActivateAccount) : Bool :=
  a.Used == some false && a.Valid == some true

/-- Method `PGAuth.CreateAccount`: formats the input into columns and values, inserts the row into
`users` and returns the generated id; a failure of the formatting returns before the insert. -/
def PGAuth.CreateAccount (s : Sys) (t : Tx) (input : CreateAccount) :
    Option UUID × Option Error × Tx :=
  match s.userRow input with
  | .error n => (none, some (oops.Err (.other n)), t.record .FormatValuesInUp (some (.other n)))
  | .ok row =>
    let c := Call.CreateAccount input.Email
    match exec s (t.record .FormatValuesInUp none) c
        (fun d => { d with users := d.users ++ [{ row with id := s.newID c }] }) with
    | (some err, t1) => (none, some (oops.Err err), t1)
    | (none, t1) => (some (s.newID c), none, t1)

/-- Method `PGAuth.CreateAccessToken`: inserts a token row expiring `30*time.Minute` after
`time.Now()` and returns its generated id (columns `used` and `created_at` take their defaults,
false and the instant of the insert). -/
def PGAuth.CreateAccessToken (s : Sys) (t : Tx) (userID : Option UUID) :
    Option UUID × Option Error × Tx :=
  let c := Call.CreateAccessToken userID
  let row : TokenRow :=
    { id := s.newID c, user_id := userID, used := false,
      expires_at := s.now + thirtyMinutes, created_at := s.now }
  match exec s t c (fun d => { d with tokens := d.tokens ++ [row] }) with
  | (some err, t1) => (none, some (oops.Err err), t1)
  | (none, t1) => (some row.id, none, t1)

/-- Method `PGAuth.GetActivateAccountToken`: scans `user_id, used, expires_at >= now(), expires_at,
created_at` of the row with `id = data.ID` into `data`.  The named result `err` holds whatever
`Scan` returned: it is wrapped when it is neither nil nor `sql.ErrNoRows`, and returned as it
is otherwise. -/
def PGAuth.GetActivateAccountToken (s : Sys) (t : Tx) (data : ActivateAccount) :
    Option Error × ActivateAccount × Tx :=
  let row := t.view.tokens.find? (fun r => data.ID == some r.id)
  match queryRow s t (.GetActivateAccountToken data.ID) row with
  | (.ok r, t1) =>
    (none,
     { data with
        UserID := r.user_id, Used := some r.used, Valid := some (decide (r.expires_at ≥ s.now)),
        ExpiresAt := some r.expires_at, CreatedAt := some r.created_at },
     t1)
  | (.error err, t1) =>
    if err ≠ .errNoRows then (some (oops.Err err), data, t1) else (some err, data, t1)

/-- The `UPDATE activate_account_tokens SET used = true WHERE id = ?` of `MarkTokenAsUsed`. -/
def markUsed (token : Option UUID) (d : DB) : DB :=
  { d with tokens := d.tokens.map (fun r => if token == some r.id then { r with used := true } else r) }

/-- Method `PGAuth.MarkTokenAsUsed`. -/
def PGAuth.MarkTokenAsUsed (s : Sys) (t : Tx) (token : Option UUID) : Option Error × Tx :=
  match exec s t (.MarkTokenAsUsed token) (markUsed token) with
  | (some err, t1) => (some (oops.Err err), t1)
  | (none, t1) => (none, t1)

/-- The `UPDATE users SET attempts = attempts + 1, last_failure = NOW() WHERE id = ?` of
`AddAttempts`. -/
def addAttempt (now : Time) (userID : Option UUID) (d : DB) : DB :=
  { d with users := d.users.map (fun r =>
      if userID == some r.id then { r with attempts := r.attempts + 1, last_failure := some now }
      else r) }

/-- Method `PGAuth.AddAttempts`: as in `GetActivateAccountToken` the named result is wrapped when it is
neither nil nor `sql.ErrNoRows` and returned as it is otherwise. -/
def PGAuth.AddAttempts (s : Sys) (t : Tx) (userID : Option UUID) : Option Error × Tx :=
  match exec s t (.AddAttempts userID) (addAttempt s.now userID) with
  | (some err, t1) => if err ≠ .errNoRows then (some (oops.Err err), t1) else (some err, t1)
  | (none, t1) => (none, t1)

/-! ## Repository `PGUser` (internal/infrastructure/persistencie/auth/postgres/user.go) -/

/-- The column `attempts >= 3 AND (last_failure + '5 minutes') >= NOW() AS blocked` of
`PGUser.Get`, with the three valued `AND` of SQL: a NULL `last_failure` makes the comparison
NULL, and `AND` is FALSE when `attempts >= 3` is FALSE and NULL otherwise. -/
def blockedColumn (attempts : Nat) (last_failure : Option Time) (now : Time) : Option Bool :=
  match last_failure with
  | some lf => some (decide (attempts ≥ 3) && decide (lf + fiveMinutes ≥ now))
  | none => if attempts ≥ 3 then none else some false

/-- The column `(flag & ?) <> 0`. -/
def flagColumn (flag f : Nat) : Bool := (flag &&& f) != 0

def User.empty : User :=
  { ID := none, Email := none, Password := none, FirstName := none, LastName := none,
    Flag := none, Key := none, Active := none, Level := none, OTPToken := none,
    Blocked := none, OTPEnable := none, OTPSetUp := none, CreatedAt := none }

/-- The condition of `PGUser.Get`: equality on `id` with `data.ID`, replaced by equality on
`email` with `data.Email` when the email is set. -/
def PGUser.cond (id : Option UUID) (email : Option String) (r : UserRow) : Bool :=
  match email with
  | some e => r.email == e
  | none => id == some r.id

/-- The `Scan` of `PGUser.Get`: the selected columns of the row `r`, in order `id, email,
password, first_name, last_name, flag, key, active, level, otp`, the `blocked` column and the two
flag columns, written to the fields of `data`. -/
def PGUser.scan (s : Sys) (data : User) (r : UserRow) : User :=
  { data with
    ID := some r.id, Email := some r.email, Password := some r.password,
    FirstName := some r.first_name, LastName := some r.last_name, Flag := some r.flag,
    Key := some r.key, Active := some r.active, Level := some r.level, OTPToken := r.otp,
    Blocked := blockedColumn r.attempts r.last_failure s.now,
    OTPEnable := some (flagColumn r.flag s.FlagOTPEnable),
    OTPSetUp := some (flagColumn r.flag s.FlagOTPSetup) }

/-- Method `PGUser.Get`: the row with `id = data.ID`, or with `email = data.Email` when the email is
set, scanned into `data`; `sql.ErrNoRows` becomes `domain.ErrUserNotExists()`.  When the email
is nil the condition stays `squirrel.Eq{"id": data.ID}`, and with a nil `*uuid.UUID` building
the query calls `Value` through the nil pointer: the call panics before any query is issued. -/
def PGUser.Get (s : Sys) (t : Tx) (data : User) : Option Error × User × Tx :=
  if data.Email = none ∧ data.ID = none then
    (some .nilDeref, data, t.record (.UserGet data.ID data.Email) (some .nilDeref))
  else
  match queryRow s t (.UserGet data.ID data.Email)
      (t.view.users.find? (PGUser.cond data.ID data.Email)) with
  | (.ok r, t1) => (none, PGUser.scan s data r, t1)
  | (.error err, t1) =>
    if err = .errNoRows then (some ErrUserNotExists, data, t1) else (some (oops.Err err), data, t1)

/-- The column `COUNT(id) > 0` of the rows of `users` with `email = ?`. -/
def emailTaken (d : DB) (email : Option String) : Bool :=
  d.users.any (fun r => email == some r.email)

/-- Method `PGUser.Exist`: scans `COUNT(id) > 0` of the rows with that email; `sql.ErrNoRows`
becomes `domain.ErrUserNotExists()`, another error of `Scan` is wrapped, and a true count
returns `domain.ErrUserExists()`. -/
def PGUser.Exist (s : Sys) (t : Tx) (email : Option String) : Option Error × Tx :=
  match queryRow s t (.Exist email) (some (some (emailTaken t.view email))) with
  | (.error err, t1) =>
    if err = .errNoRows then (some ErrUserNotExists, t1) else (some (oops.Err err), t1)
  | (.ok found, t1) => if found == some true then (some ErrUserExists, t1) else (none, t1)

/-- The update of `PGUser.Disable`: `UPDATE users SET active = false, updated_at = NOW()` on the
rows with `id = ? AND active = true`. -/
def disable (now : Time) (userUUID : Option UUID) (d : DB) : DB :=
  { d with users := d.users.map (fun r =>
      if userUUID == some r.id && r.active then { r with active := false, updated_at := some now }
      else r) }

/-- The rows `RETURNING id` of `PGUser.Disable` yields: the ids of the rows it updates. -/
def disabled (userUUID : Option UUID) (d : DB) : List UUID :=
  (d.users.filter (fun r => userUUID == some r.id && r.active)).map UserRow.id

/-- Method `PGUser.Disable`: runs the update and scans the first returned id; every error of
`Scan`, `sql.ErrNoRows` when no row was updated included, is wrapped and returned.  With a nil
`userUUID` building `squirrel.Eq{"id": userUUID, "active": true}` calls `Value` through the nil
`*uuid.UUID`: the call panics before any statement is issued. -/
def PGUser.Disable (s : Sys) (t : Tx) (userUUID : Option UUID) : Option Error × Tx :=
  if userUUID = none then
    (some .nilDeref, t.record (.Disable userUUID) (some .nilDeref))
  else
  match s.fail (.Disable userUUID) with
  | some n => (some (oops.Err (.other n)), t.record (.Disable userUUID) (some (.other n)))
  | none =>
    match (disabled userUUID t.view).head? with
    | some _ =>
      (none, { t.record (.Disable userUUID) none with view := disable s.now userUUID t.view })
    | none =>
      (some (oops.Err .errNoRows),
       { t.record (.Disable userUUID) (some .errNoRows) with
         view := disable s.now userUUID t.view })

/-- Modelled from the spec: the methods of `domain.User` are not in the sources.  `HasFlag` is the
membership check of the bitmask ("bit membership checks are the sole authorization gate"). -/
def User.HasFlag (u : User) (flag : Nat) : Bool :=
  match u.Flag with
  | some f => flagColumn f flag
  | none => false

/-- Modelled from the spec: `User.IsActive` is not in the sources; it reads the scanned `active`
column ("active flag"). -/
def User.IsActive (u : User) : Bool := u.Active == some true

/-- Modelled from the spec: `User.IsBlocked` is not in the sources; it reads the scanned `blocked`
column ("temporarily blocked"). -/
def User.IsBlocked (u : User) : Bool := u.Blocked == some true

/-- Modelled from the spec: `User.OTPConfigured` is not in the sources; the second factor is
configured when both the OTP-enabled and the OTP-configured bits are scanned as set (the same
conjunction `PGAuth.LoginSteps` selects). -/
def User.OTPConfigured (u : User) : Bool := u.OTPEnable == some true && u.OTPSetUp == some true

/-! ## Collaborators of the flag based variant that are not in the sources -/

/-- The update of `FlagRepo.Set`: the flag is added to the bitmask of the user. -/
def setFlag (userID : Option UUID) (flag : Nat) (d : DB) : DB :=
  { d with users := d.users.map (fun r =>
      if userID == some r.id then { r with flag := r.flag ||| flag } else r) }

/-- Modelled from the spec: the flag repository (`infra.NewFlagRepo`) is not in the sources;
`Set(userID, flag)` adds the flag to the user's bitmask (`AddRoles(set, roles...) -> set'`). -/
def FlagRepo.Set (s : Sys) (t : Tx) (userID : Option UUID) (flag : Nat) : Option Error × Tx :=
  match exec s t (.FlagSet userID flag) (setFlag userID flag) with
  | (some err, t1) => (some (oops.Err err), t1)
  | (none, t1) => (none, t1)

/-- Modelled from the spec: the session repository is not in the sources;
`CreateSession(user-id, client-ip, user-agent) -> session-id` inserts one session row and
returns its generated id. -/
def SessionRepository.Create (s : Sys) (t : Tx) (userID : Option UUID)
    (clientIP userAgent : Option String) : Option UUID × Option Error × Tx :=
  let c := Call.SessionCreate userID clientIP userAgent
  let row : SessionRow :=
    { id := s.newID c, user_id := userID, client_ip := clientIP, user_agent := userAgent,
      created_at := s.now }
  match exec s t c (fun d => { d with sessions := d.sessions ++ [row] }) with
  | (some err, t1) => (none, some (oops.Err err), t1)
  | (none, t1) => (some row.id, none, t1)

/-- Function `tokens.NewUserAuthToken(user, sessionID)`: the signer is a collaborator; the call is logged
with the user id and the session id it is issued for. -/
def NewUserAuthToken (s : Sys) (t : Tx) (user : User) (sessionID : Option UUID) :
    Except Error String × Tx :=
  match s.sign user sessionID with
  | .error n => (.error (.other n), t.record (.NewUserAuthToken user.ID sessionID) (some (.other n)))
  | .ok tok => (.ok tok, t.record (.NewUserAuthToken user.ID sessionID) none)

/-- Modelled from the spec: the mail gateway behind `repoAuth.SendMailActivationAccount` is not in
the sources; `SendActivationEmail(to-address, token-id) -> ok/error` writes no row. -/
def SendMailActivationAccount (s : Sys) (t : Tx) (email : Option String)
    (token : Option UUID) : Option Error × Tx :=
  match exec s t (.SendMailActivationAccount email token) id with
  | (some err, t1) => (some (oops.Err err), t1)
  | (none, t1) => (none, t1)

/-- Modelled from the spec: `Prepare` of `domain.CreateAccount` is not in the sources; "validate
input shape and normalize (trim/lowercase email, hash password) — fails with `ValidationError`
on malformed input".  The call is logged. -/
def Prepare (s : Sys) (t : Tx) (inp : CreateAccount) : Except Error CreateAccount × Tx :=
  match s.prepare inp with
  | .error err => (.error err, t.record .Prepare (some err))
  | .ok inp1 => (.ok inp1, t.record .Prepare none)

/-- Record `domain.Login`: the login input. -/
structure LoginInput where
  Email : Option String
  Password : Option String
  ClientIP : Option String
  UserAgent : Option String
  OTP : Option String
deriving DecidableEq, Repr

/-- Method `in.ComparePasswords(hash, key)`: a pure helper, logged. -/
def ComparePasswords (s : Sys) (t : Tx) (password hash key : Option String) :
    Option Error × Tx :=
  (s.comparePasswords password hash key,
   t.record (.ComparePasswords password) (s.comparePasswords password hash key))

/-- Function `utils.ValidateToken(secret, code)`: a pure helper, logged. -/
def ValidateToken (s : Sys) (t : Tx) (secret otp : Option String) : Option Error × Tx :=
  (s.validateToken secret otp, t.record (.ValidateToken otp) (s.validateToken secret otp))

/-- Record `domain.Session`: the session descriptor returned by `Login`. -/
structure Session where
  SessionID : Option UUID
  Level : Option Nat
  UserID : Option UUID
  Email : Option String
  FirstName : Option String
  LastName : Option String
  CreatedAt : Option Time
  Token : Option String
  RawData : List (String × String)
deriving DecidableEq, Repr

/-! ## Business functions of application/auth/auth_business.go -/

namespace application

/-- Body of `Activation` between the opening of the transaction and the return. -/
def Activation.body (s : Sys) (tx : Tx) (token : Option UUID) : Except Error Unit × Tx :=
  let activeToken : ActivateAccount :=
    { ID := token, UserID := none, Used := none, Valid := none, ExpiresAt := none,
      CreatedAt := none }
  match PGAuth.GetActivateAccountToken s tx activeToken with
  | (some err, _, t1) => (.error (oops.Err err), t1)
  | (none, activeToken, t1) =>
    if !activeToken.IsValid then (.error (oops.Err ErrTokenIsNotValid), t1) else
    match PGUser.Get s t1 { User.empty with ID := activeToken.UserID } with
    | (some err, _, t2) => (.error (oops.Err err), t2)
    | (none, user, t2) =>
      match FlagRepo.Set s t2 user.ID s.FlagEnabledAccount with
      | (some err, t3) => (.error (oops.Err err), t3)
      | (none, t3) =>
        match PGAuth.MarkTokenAsUsed s t3 activeToken.ID with
        | (some err, t4) => (.error (oops.Err err), t4)
        | (none, t4) =>
          match Commit s t4 with
          | (some err, t5) => (.error (oops.Err err), t5)
          | (none, t5) => (.ok (), t5)

/-- Function `Activation(ctx, token)`. -/
def Activation (s : Sys) (token : Option UUID) : Outcome Unit :=
  match NewTransaction s with
  | .error e => Outcome.notOpened s e
  | .ok tx => Outcome.finish (Activation.body s tx token)

/-- Body of `Login` between the opening of the transaction and the return. -/
def Login.body (s : Sys) (tx : Tx) (inp : LoginInput) : Except Error Session × Tx :=
  match PGUser.Get s tx { User.empty with Email := inp.Email } with
  | (some err, _, t1) => (.error (oops.Err err), t1)
  | (none, user, t1) =>
    if !user.HasFlag s.FlagEnabledAccount then (.error (oops.Err ErrNotHavePermissionLogin), t1) else
    if !user.IsActive then (.error (oops.Err ErrUserNotExists), t1) else
    if user.IsBlocked then (.error (oops.Err ErrUserBlockedTemporarily), t1) else
    match ComparePasswords s t1 inp.Password user.Password user.Key with
    | (some err, t2) =>
      match PGAuth.AddAttempts s t2 user.ID with
      | (some errAttempts, t3) => (.error (oops.Err errAttempts), t3)
      | (none, t3) =>
        match Commit s t3 with
        | (some errAttempts, t4) => (.error (oops.Err errAttempts), t4)
        | (none, t4) => (.error (oops.Err err), t4)
    | (none, t2) =>
      match (if user.OTPConfigured then ValidateToken s t2 user.OTPToken inp.OTP else (none, t2)) with
      | (some _, t3) => (.error (oops.Err ErrOTPTokenInvalid), t3)
      | (none, t3) =>
        match SessionRepository.Create s t3 user.ID inp.ClientIP inp.UserAgent with
        | (_, some err, t4) => (.error (oops.Err err), t4)
        | (sessionID, none, t4) =>
          match NewUserAuthToken s t4 user sessionID with
          | (.error err, t5) => (.error (oops.Err err), t5)
          | (.ok token, t5) =>
            match Commit s t5 with
            | (some err, t6) => (.error (oops.Err err), t6)
            | (none, t6) =>
              (.ok { SessionID := sessionID, Level := user.Level, UserID := user.ID,
                     Email := user.Email, FirstName := user.FirstName,
                     LastName := user.LastName, CreatedAt := user.CreatedAt,
                     Token := some token, RawData := [] },
               t6)

/-- Function `Login(ctx, in)`. -/
def Login (s : Sys) (inp : LoginInput) : Outcome Session :=
  match NewTransaction s with
  | .error e => Outcome.notOpened s e
  | .ok tx => Outcome.finish (Login.body s tx inp)

/-- A sequence of `Login` calls on one store: every call has its own instant, input, helpers and
injected failures, and runs on the rows the call before it left. -/
def LoginSeq (d : DB) : List (Sys × LoginInput) → DB
  | [] => d
  | (s, inp) :: rest => LoginSeq (Login { s with db := d } inp).db rest

/-- Body of `CreateAccount` between the opening of the transaction and the return. -/
def CreateAccount.body (s : Sys) (tx : Tx) (inp : CreateAccount) : Except Error Unit × Tx :=
  match Prepare s tx inp with
  | (.error err, t0) => (.error (oops.Err err), t0)
  | (.ok inp, t0) =>
    match PGUser.Exist s t0 inp.Email with
    | (some err, t1) => (.error (oops.Err err), t1)
    | (none, t1) =>
      match PGAuth.CreateAccount s t1 inp with
      | (_, some err, t2) => (.error (oops.Err err), t2)
      | (userID, none, t2) =>
        match PGAuth.CreateAccessToken s t2 userID with
        | (_, some err, t3) => (.error (oops.Err err), t3)
        | (token, none, t3) =>
          match SendMailActivationAccount s t3 inp.Email token with
          | (some err, t4) => (.error (oops.Err err), t4)
          | (none, t4) =>
            match Commit s t4 with
            | (some err, t5) => (.error (oops.Err err), t5)
            | (none, t5) => (.ok (), t5)

/-- Function `CreateAccount(ctx, in)`. -/
def CreateAccount (s : Sys) (inp : SSO.CreateAccount) : Outcome Unit :=
  match NewTransaction s with
  | .error e => Outcome.notOpened s e
  | .ok tx => Outcome.finish (CreateAccount.body s tx inp)

end application

/-! ## Collaborators of the role based variant

Of the repositories that `internal/application/auth/business.go` calls, the user repository is
`pgUser` of `internal/infrastructure/user/postgres.go`; `auth.New`, `infraRoles` and
`infraSession` are not in the sources and are modelled on the same rows. -/

namespace internal

/-- The record `domain.ActivateAccountToken` returned by `repo.GetActivateAccountToken`. -/
structure ActivateAccountToken where
  ID : Option UUID
  UserID : Option UUID
  Used : Option Bool
  IsValid : Option Bool
deriving DecidableEq, Repr

/-- Modelled from the spec: `repo.GetActivateAccountToken` of the role based variant is not in
the sources; `GetActivationToken(token-id) -> ActivationToken | NotFound` returns the raw
fields of the row with that id plus the precomputed validity flag (`expires_at >= now()`), and
an error when there is no such row or the driver fails. -/
def repo.GetActivateAccountToken (s : Sys) (t : Tx) (token : Option UUID) :
    Except Error ActivateAccountToken × Tx :=
  let row := t.view.tokens.find? (fun r => token == some r.id)
  match queryRow s t (.GetActivateAccountToken token) row with
  | (.ok r, t1) =>
    (.ok { ID := some r.id, UserID := r.user_id, Used := some r.used,
           IsValid := some (decide (r.expires_at ≥ s.now)) },
     t1)
  | (.error err, t1) => (.error (oops.Err err), t1)

/-- Modelled from the spec: `repo.MarkTokenAsUsed` of the role based variant is not in the
sources; `MarkTokenUsed(token-id) -> ok` sets the consumed flag of the token. -/
def repo.MarkTokenAsUsed (s : Sys) (t : Tx) (token : Option UUID) : Option Error × Tx :=
  match exec s t (.MarkTokenAsUsed token) (markUsed token) with
  | (some err, t1) => (some (oops.Err err), t1)
  | (none, t1) => (none, t1)

def LegacyUser.empty : LegacyUser :=
  { ID := none, Email := none, FirstName := none, LastName := none, Roles := none,
    About := none, Avatar := none, PhoneNumber := none, TokenKey := none, CreatedAt := none,
    IsActive := none, BlockedTemporarily := none, UserType := none }

/-- The condition of `getUser`: `squirrel.Eq{"id": data.ID}` when the id is set, else
`squirrel.Eq{"email": data.Email}` when the email is set, else the nil `squirrel.Eq`, which
restricts nothing. -/
def repoUser.cond (id : Option UUID) (email : Option String) (r : UserRow) : Bool :=
  match id with
  | some i => i == r.id
  | none =>
    match email with
    | some e => e == r.email
    | none => true

/-- The `Scan` of `getUser`: of the columns it selects, `id, email, first_name, last_name, roles,
about, avatar, phone_number, token_key, created_at` are the ones `Activation` and `Login`
read.  No column is scanned into `IsActive`, `BlockedTemporarily` or `UserType`, which stay as
they are in `data`. -/
def repoUser.scan (_s : Sys) (data : LegacyUser) (r : UserRow) : LegacyUser :=
  { data with
    ID := some r.id, Email := some r.email, FirstName := some r.first_name,
    LastName := some r.last_name, Roles := some r.roles, About := r.about,
    Avatar := r.avatar, PhoneNumber := r.phone_number, TokenKey := some r.key,
    CreatedAt := some r.created_at }

/-- Method `getUser` of `internal/infrastructure/user/postgres.go`, behind `repoUser.GetUser`:
the first row that meets the condition, scanned into `data`; every error of `Scan`,
`sql.ErrNoRows` included, is wrapped and returned. -/
def repoUser.GetUser (s : Sys) (t : Tx) (data : LegacyUser) : Option Error × LegacyUser × Tx :=
  match queryRow s t (.GetUser data.ID data.Email)
      (t.view.users.find? (repoUser.cond data.ID data.Email)) with
  | (.ok r, t1) => (none, repoUser.scan s data r, t1)
  | (.error err, t1) => (some (oops.Err err), data, t1)

/-- Modelled from the spec: `roles.Exists` of package `roles` is not in the sources;
`HasRole(set, role) -> bool` is membership. -/
def roles.Exists (role : Role) (set : List Role) : Bool := decide (role ∈ set)

/-- The update of `RemoveRoles`: the roles leave the role set of the user. -/
def removeRoles (userID : Option UUID) (rs : List Role) (d : DB) : DB :=
  { d with users := d.users.map (fun r =>
      if userID == some r.id then { r with roles := r.roles.filter (fun x => !decide (x ∈ rs)) }
      else r) }

/-- The update of `AddRoles`: the roles join the role set of the user. -/
def addRoles (userID : Option UUID) (rs : List Role) (d : DB) : DB :=
  { d with users := d.users.map (fun r =>
      if userID == some r.id
      then { r with roles := r.roles ++ rs.filter (fun x => !decide (x ∈ r.roles)) }
      else r) }

/-- Modelled from the spec: the roles repository (`infraRoles`) is not in the sources;
`RemoveRoles(set, roles...) -> set'` on the persisted role set of the user. -/
def repoRoles.RemoveRoles (s : Sys) (t : Tx) (userID : Option UUID) (rs : List Role) :
    Option Error × Tx :=
  match exec s t (.RemoveRoles userID rs) (removeRoles userID rs) with
  | (some err, t1) => (some (oops.Err err), t1)
  | (none, t1) => (none, t1)

/-- Modelled from the spec: the roles repository (`infraRoles`) is not in the sources;
`AddRoles(set, roles...) -> set'` on the persisted role set of the user. -/
def repoRoles.AddRoles (s : Sys) (t : Tx) (userID : Option UUID) (rs : List Role) :
    Option Error × Tx :=
  match exec s t (.AddRoles userID rs) (addRoles userID rs) with
  | (some err, t1) => (some (oops.Err err), t1)
  | (none, t1) => (none, t1)

/-- Modelled from the spec: `repo.Login(email)` of the role based variant is not in the sources;
it loads the password credential of the user with that email, the row `getUser` loads by that
email; a nil email matches no row. -/
def repo.Login (s : Sys) (t : Tx) (email : Option String) : Except Error String × Tx :=
  let row :=
    match email with
    | some e => t.view.users.find? (repoUser.cond none (some e))
    | none => none
  match queryRow s t (.RepoLogin email) row with
  | (.ok r, t1) => (.ok r.password, t1)
  | (.error err, t1) => (.error (oops.Err err), t1)

/-- Modelled from the spec: `repo.AddNumberFailedAttempts` of the role based variant is not in
the sources; `IncrementFailedAttempts(user-id) -> ok` (also stamps last-failure time). -/
def repo.AddNumberFailedAttempts (s : Sys) (t : Tx) (userID : Option UUID) : Option Error × Tx :=
  match exec s t (.AddNumberFailedAttempts userID) (addAttempt s.now userID) with
  | (some err, t1) => (some (oops.Err err), t1)
  | (none, t1) => (none, t1)

/-- Modelled from the spec: the session repository (`infraSession`) is not in the sources;
`CreateSession(user-id, client-ip, user-agent) -> session-id`. -/
def repoSession.Create (s : Sys) (t : Tx) (userID : Option UUID)
    (clientIP userAgent : Option String) : Option UUID × Option Error × Tx :=
  SessionRepository.Create s t userID clientIP userAgent

/-- The call `tokens.NewUserAuthToken(cfg, user, sessionID)`: the signer is a collaborator. -/
def NewUserAuthToken (s : Sys) (t : Tx) (user : LegacyUser) (sessionID : Option UUID) :
    Except Error String × Tx :=
  match s.signLegacy user sessionID with
  | .error n => (.error (.other n), t.record (.NewUserAuthToken user.ID sessionID) (some (.other n)))
  | .ok tok => (.ok tok, t.record (.NewUserAuthToken user.ID sessionID) none)

/-- The record `LoginRequest`. -/
structure LoginRequest where
  Email : Option String
  Password : Option String
  ClientIP : String
  UserAgent : String
deriving DecidableEq, Repr

/-- The record `SessionResponse`. -/
structure SessionResponse where
  SessionID : Option UUID
  Level : Option Nat
  UserID : Option UUID
  Email : Option String
  FirstName : Option String
  LastName : Option String
  Roles : List Role
  About : Option String
  AvatarURL : Option String
  PhoneNumber : Option String
  CreatedAt : Option Time
  Token : Option String
  RawData : List (String × String)
deriving DecidableEq, Repr

/-- Method `findByEmailUserExists` of `internal/infrastructure/user/postgres.go`, behind
`repoUser.FindByEmailUserExists`: scans `COUNT(id) > 0` of the rows with that email; the named
result `err` is wrapped when it is neither nil nor `sql.ErrNoRows`, and returned as it is
otherwise. -/
def repoUser.FindByEmailUserExists (s : Sys) (t : Tx) (email : Option String) :
    Bool × Option Error × Tx :=
  match queryRow s t (.FindByEmailUserExists email) (some (emailTaken t.view email)) with
  | (.ok found, t1) => (found, none, t1)
  | (.error err, t1) =>
    if err ≠ .errNoRows then (false, some (oops.Err err), t1) else (false, some err, t1)

/-- Modelled from the spec: `Prepare` of `RegisterRequest` is not in the sources; "validate input
shape and normalize (trim/lowercase email, hash password) — fails with `ValidationError` on
malformed input".  The call is logged. -/
def Prepare (s : Sys) (t : Tx) (inp : RegisterRequest) : Except Error RegisterRequest × Tx :=
  match s.prepareRequest inp with
  | .error err => (.error err, t.record .Prepare (some err))
  | .ok inp1 => (.ok inp1, t.record .Prepare none)

/-- Modelled from the spec: `conversor.TypeConverter` is not in the sources; it copies the
request into a `domain.Register` and may fail. -/
def TypeConverter (s : Sys) (t : Tx) (inp : RegisterRequest) :
    Except Error RegisterRequest × Tx :=
  match exec s t .TypeConverter id with
  | (some err, t1) => (.error err, t1)
  | (none, t1) => (.ok inp, t1)

/-- Modelled from the spec: `repo.Register` of the role based variant is not in the sources;
`InsertUser(registration-data) -> user-id` inserts one user row with the roles of the data and
returns its generated id. -/
def repo.Register (s : Sys) (t : Tx) (data : RegisterRequest) (roles : List Role) :
    Option UUID × Option Error × Tx :=
  let c := Call.Register data.Email
  match exec s t c
      (fun d => { d with
        users := d.users ++ [{ s.requestRow data with id := s.newID c, roles := roles }] }) with
  | (some err, t1) => (none, some (oops.Err err), t1)
  | (none, t1) => (some (s.newID c), none, t1)

/-- Modelled from the spec: `repo.CreateAccessToken` of the role based variant is not in the
sources; `InsertActivationToken(user-id, ttl) -> token-id` with the thirty minutes of the
flag based variant. -/
def repo.CreateAccessToken (s : Sys) (t : Tx) (userID : Option UUID) :
    Option UUID × Option Error × Tx :=
  PGAuth.CreateAccessToken s t userID

/-- Modelled from the spec: `repo.SendMailActivationAccount` delegates to the mailer, which is
not in the sources; `SendActivationEmail(to-address, token-id) -> ok/error`. -/
def repo.SendMailActivationAccount (s : Sys) (t : Tx) (email : Option String)
    (token : Option UUID) : Option Error × Tx :=
  SSO.SendMailActivationAccount s t email token

/-! ## Business functions of internal/application/auth/business.go -/

/-- The roles of a registration: `ReadActivationToken` when the request names none. -/
def Register.roles (inp : RegisterRequest) : List Role :=
  match inp.Roles with
  | none => [.ReadActivationToken]
  | some rs => rs

/-- Body of `Register` between the opening of the transaction and the return.  The roles are
those of `Register.roles`, handed to `repo.Register` in `data.Roles`; `in.SanitizePassword()`
before `Commit` only clears a field of the input and is left out. -/
def Register.body (s : Sys) (tx : Tx) (inp : RegisterRequest) : Except Error Unit × Tx :=
  match Prepare s tx inp with
  | (.error err, t0) => (.error (oops.Err err), t0)
  | (.ok inp, t0) =>
    let roles := Register.roles inp
    match repoUser.FindByEmailUserExists s t0 inp.Email with
    | (_, some err, t1) => (.error (oops.Err err), t1)
    | (found, none, t1) =>
      if found then (.error (oops.Err ErrUserExists), t1) else
      match TypeConverter s t1 inp with
      | (.error err, t2) => (.error (oops.Err err), t2)
      | (.ok data, t2) =>
        match repo.Register s t2 data roles with
        | (_, some err, t3) => (.error (oops.Err err), t3)
        | (userID, none, t3) =>
          match repo.CreateAccessToken s t3 userID with
          | (_, some err, t4) => (.error (oops.Err err), t4)
          | (accessToken, none, t4) =>
            match repo.SendMailActivationAccount s t4 inp.Email accessToken with
            | (some err, t5) => (.error (oops.Err err), t5)
            | (none, t5) =>
              match Commit s t5 with
              | (some err, t6) => (.error (oops.Err err), t6)
              | (none, t6) => (.ok (), t6)

/-- Function `Register(ctx, in)`. -/
def Register (s : Sys) (inp : RegisterRequest) : Outcome Unit :=
  match NewTransaction s with
  | .error e => Outcome.notOpened s e
  | .ok tx => Outcome.finish (Register.body s tx inp)



/-- The roles `Activation` grants: `rolesSession.Add(ReadSession, CreateSession,
DeleteSession)`. -/
def rolesSession : List Role := [.ReadSession, .CreateSession, .DeleteSession]

/-- Body of `Activation` between the opening of the transaction and the return. -/
def Activation.body (s : Sys) (tx : Tx) (token : Option UUID) : Except Error Unit × Tx :=
  match repo.GetActivateAccountToken s tx token with
  | (.error err, t1) => (.error (oops.Err err), t1)
  | (.ok activeToken, t1) =>
    match activeToken.Used, activeToken.IsValid with
    | none, _ => (.error .nilDeref, t1)
    | some true, _ => (.error (oops.Err ErrTokenIsNotValid), t1)
    | some false, none => (.error .nilDeref, t1)
    | some false, some false => (.error (oops.Err ErrTokenIsNotValid), t1)
    | some false, some true =>
      match repoUser.GetUser s t1 { LegacyUser.empty with ID := activeToken.UserID } with
      | (some err, _, t2) => (.error (oops.Err err), t2)
      | (none, user, t2) =>
        match user.Roles with
        | none => (.error .nilDeref, t2)
        | some userRoles =>
          if !roles.Exists .ReadActivationToken userRoles then
            (.error (oops.Err ErrNotHavePermissionActiveAccount), t2)
          else
          match repoRoles.RemoveRoles s t2 user.ID [.ReadActivationToken] with
          | (some err, t3) => (.error (oops.Err err), t3)
          | (none, t3) =>
            match repoRoles.AddRoles s t3 user.ID rolesSession with
            | (some err, t4) => (.error (oops.Err err), t4)
            | (none, t4) =>
              match repo.MarkTokenAsUsed s t4 activeToken.ID with
              | (some err, t5) => (.error (oops.Err err), t5)
              | (none, t5) =>
                match Commit s t5 with
                | (some err, t6) => (.error (oops.Err err), t6)
                | (none, t6) => (.ok (), t6)

/-- Function `Activation(ctx, token)`. -/
def Activation (s : Sys) (token : Option UUID) : Outcome Unit :=
  match NewTransaction s with
  | .error e => Outcome.notOpened s e
  | .ok tx => Outcome.finish (Activation.body s tx token)

/-- Body of `Login` between the opening of the transaction and the return. -/
def Login.body (s : Sys) (tx : Tx) (inp : LoginRequest) : Except Error SessionResponse × Tx :=
  match repoUser.GetUser s tx { LegacyUser.empty with Email := inp.Email } with
  | (some err, _, t1) => (.error (oops.Err err), t1)
  | (none, user, t1) =>
    if user.IsActive == some false then (.error (oops.Err ErrUserNotExists), t1) else
    if user.BlockedTemporarily == some true then
      (.error (oops.Err ErrUserBlockedTemporarily), t1)
    else
    match repo.Login s t1 inp.Email with
    | (.error _, t2) => (.error (oops.Err ErrUserNotExists), t2)
    | (.ok passw, t2) =>
      match ComparePasswords s t2 inp.Password (some passw) user.TokenKey with
      | (some err, t3) =>
        match repo.AddNumberFailedAttempts s t3 user.ID with
        | (some errAttempts, t4) => (.error (oops.Err errAttempts), t4)
        | (none, t4) =>
          match Commit s t4 with
          | (some errAttempts, t5) => (.error (oops.Err errAttempts), t5)
          | (none, t5) => (.error (oops.Err err), t5)
      | (none, t3) =>
        match user.Roles with
        | none => (.error .nilDeref, t3)
        | some userRoles =>
          if !roles.Exists .CreateSession userRoles then
            (.error (oops.Err ErrNotHavePermissionLogin), t3)
          else
          match repoSession.Create s t3 user.ID (some inp.ClientIP) (some inp.UserAgent) with
          | (_, some err, t4) => (.error (oops.Err err), t4)
          | (sessionID, none, t4) =>
            match NewUserAuthToken s t4 user sessionID with
            | (.error err, t5) => (.error (oops.Err err), t5)
            | (.ok token, t5) =>
              match Commit s t5 with
              | (some err, t6) => (.error (oops.Err err), t6)
              | (none, t6) =>
                (.ok { SessionID := sessionID, Level := user.UserType, UserID := user.ID,
                       Email := user.Email, FirstName := user.FirstName,
                       LastName := user.LastName, Roles := userRoles, About := user.About,
                       AvatarURL := user.Avatar, PhoneNumber := user.PhoneNumber,
                       CreatedAt := user.CreatedAt, Token := some token, RawData := [] },
                 t6)

/-- Function `Login(ctx, in)`. -/
def Login (s : Sys) (inp : LoginRequest) : Outcome SessionResponse :=
  match NewTransaction s with
  | .error e => Outcome.notOpened s e
  | .ok tx => Outcome.finish (Login.body s tx inp)

end internal

/-! ## The lockout predicate of the spec -/

/-- The lockout predicate in the words of the spec: "attempts ≥ a threshold (3) and the elapsed
time since last failure is below a cooldown window (5 minutes)". -/
def specBlocked (attempts : Nat) (last_failure now : Time) : Prop :=
  attempts ≥ 3 ∧ now - last_failure < fiveMinutes

instance (attempts : Nat) (last_failure now : Time) :
    Decidable (specBlocked attempts last_failure now) :=
  inferInstanceAs (Decidable (attempts ≥ 3 ∧ now - last_failure < fiveMinutes))

/-! ## Example systems -/

/-- A registered user who holds `ReadActivationToken` and no flag. -/
def exUser : UserRow :=
  { id := 7, email := "a@x.com", password := "hash", first_name := "A", last_name := "X",
    flag := 0, key := "k", active := true, level := 0, otp := none, attempts := 0,
    last_failure := none, roles := [.ReadActivationToken], about := none, avatar := none,
    phone_number := none, created_at := 0, updated_at := none }

/-- The activation token of `exUser`, issued at instant 0. -/
def exToken : TokenRow :=
  { id := 1, user_id := some 7, used := false, expires_at := thirtyMinutes, created_at := 0 }

/-- A system at instant 0 holding `exUser` and `exToken`, in which no call fails; the password
comparison accepts the stored hash and the one-time code is valid when it equals the secret. -/
def exSys : Sys :=
  { db := ⟨[exUser], [exToken], []⟩, now := 0, fail := fun _ => none, newID := fun _ => 9,
    FlagEnabledAccount := 1, FlagOTPEnable := 2, FlagOTPSetup := 4,
    comparePasswords := fun p h _ =>
      if p = h then none else some ErrEmailOrPasswordIsNotValid,
    validateToken := fun secret otp => if secret = otp then none else some (.other 0),
    sign := fun _ _ => .ok "signed", signLegacy := fun _ _ => .ok "signed",
    prepare := fun inp => if inp.Email = none then .error (.other 400) else .ok inp,
    userRow := fun inp =>
      .ok { exUser with
            email := inp.Email.getD "", password := inp.Password.getD "",
            first_name := inp.FirstName.getD "", last_name := inp.LastName.getD "", roles := [] },
    prepareRequest := fun inp => if inp.Email = none then .error (.other 400) else .ok inp,
    requestRow := fun inp =>
      { exUser with
        email := inp.Email.getD "", password := inp.Password.getD "",
        first_name := inp.FirstName.getD "", last_name := inp.LastName.getD "" } }

/-- The system `exSys` with a failing `Commit`. -/
def exSysCommitFails : Sys :=
  { exSys with fail := fun c => if c = .Commit then some 1 else none }

/-- The system `exSys` whose user holds no role and no flag. -/
def exSysNoRole : Sys :=
  { exSys with db := ⟨[{ exUser with roles := [] }], [exToken], []⟩ }

/-- A system with an enabled user: the user of `exSys` after activation, in both variants. -/
def exSysActive : Sys :=
  { exSys with
    db := ⟨[{ exUser with flag := 1, roles := [.ReadSession, .CreateSession, .DeleteSession] }],
           [{ exToken with used := true }], []⟩ }

/-- The login input of `exUser` with the right password. -/
def exLogin : LoginInput :=
  { Email := some "a@x.com", Password := some "hash", ClientIP := some "10.0.0.1",
    UserAgent := some "agent", OTP := none }

/-- The login request of `exUser` with the right password, role based variant. -/
def exLoginRequest : internal.LoginRequest :=
  { Email := some "a@x.com", Password := some "hash", ClientIP := "10.0.0.1",
    UserAgent := "agent" }

/-- A locked out user: enabled in both variants, three failed attempts, the last one at
instant 0. -/
def exUserBlocked : UserRow :=
  { exUser with
    flag := 1, roles := [.ReadSession, .CreateSession, .DeleteSession], attempts := 3,
    last_failure := some 0 }

/-- A system at instant 0 whose only user is locked out. -/
def exSysBlocked : Sys :=
  { exSys with db := ⟨[exUserBlocked], [], []⟩ }

/-- A system at instant 0 whose only user is locked out and has no flag. -/
def exSysBlockedNoFlag : Sys :=
  { exSys with db := ⟨[{ exUserBlocked with flag := 0 }], [], []⟩ }

/-- A system whose only user is inactive and has no flag. -/
def exSysInactiveNoFlag : Sys :=
  { exSys with db := ⟨[{ exUser with active := false }], [], []⟩ }

/-- A system whose only user is enabled and has the second factor configured with secret
`123456`. -/
def exSysOTP : Sys :=
  { exSys with
    db := ⟨[{ exUser with
              flag := 7, roles := [.ReadSession, .CreateSession, .DeleteSession],
              otp := some "123456" }], [], []⟩ }

/-- The login input of `exUser` with a wrong password. -/
def exLoginWrong : LoginInput :=
  { exLogin with Password := some "guess" }

/-- The login request of `exUser` with a wrong password, role based variant. -/
def exLoginRequestWrong : internal.LoginRequest :=
  { exLoginRequest with Password := some "guess" }

/-- A registration input for a new email. -/
def exCreateAccount : CreateAccount :=
  { FirstName := some "B", LastName := some "Y", Email := some "b@y.com",
    Password := some "pw" }

/-- A registration input for the email of `exUser`. -/
def exCreateAccountTaken : CreateAccount :=
  { exCreateAccount with Email := some "a@x.com" }

/-- A registration request for a new email that names no roles. -/
def exRegisterRequest : RegisterRequest :=
  { FirstName := some "B", LastName := some "Y", Email := some "b@y.com",
    Password := some "pw", Roles := none }

/-- A registration request for the email of `exUser`. -/
def exRegisterRequestTaken : RegisterRequest :=
  { exRegisterRequest with Email := some "a@x.com" }

/-- The system `exSys` with a failing mail gateway. -/
def exSysMailFails : Sys :=
  { exSys with
    fail := fun c =>
      match c with
      | .SendMailActivationAccount _ _ => some 1
      | _ => none }

/-- An open transaction on the rows of `exSys`. -/
def exTx : Tx :=
  { view := exSys.db, durable := exSys.db, closed := false, log := [] }

/-- An open transaction on the rows of `exSysInactiveNoFlag`, whose user is inactive. -/
def exTxInactive : Tx :=
  { exTx with view := exSysInactiveNoFlag.db, durable := exSysInactiveNoFlag.db }

/-- The system `exSysBlocked` one microsecond after the end of the lockout window. -/
def exSysLapsed : Sys :=
  { exSysBlocked with now := fiveMinutes + 1 }

/-- The rows `Login` with a wrong password leaves on `exSysLapsed`, five minutes after that
call. -/
def exSysRearmed : Sys :=
  { exSysLapsed with
    db := (application.Login exSysLapsed exLoginWrong).db, now := 2 * fiveMinutes + 1 }

/-! ## Observations on a run -/

/-- The calls that write rows of the view. -/
def Call.isMutation : Call → Bool
  | .MarkTokenAsUsed _ => true
  | .CreateAccessToken _ => true
  | .AddAttempts _ => true
  | .FlagSet _ _ => true
  | .SessionCreate _ _ _ => true
  | .RemoveRoles _ _ => true
  | .AddRoles _ _ => true
  | .AddNumberFailedAttempts _ => true
  | .CreateAccount _ => true
  | .Register _ => true
  | .Disable _ => true
  | _ => false

/-- The calls issued in a run, in order. -/
def Outcome.calls (o : Outcome α) : List Call := o.log.map Event.call

/-- The writes issued in a run and its `Commit` calls, in order. -/
def Outcome.writes (o : Outcome α) : List Call :=
  o.calls.filter (fun c => c.isMutation || c == .Commit)

/-- The calls that create the session, sign its token and commit. -/
def Call.isSessionStep : Call → Bool
  | .SessionCreate _ _ _ => true
  | .NewUserAuthToken _ _ => true
  | .Commit => true
  | _ => false

/-- The session steps of a run, in order. -/
def Outcome.sessionSteps (o : Outcome α) : List Call := o.calls.filter Call.isSessionStep

/-- The calls that insert the user, insert the activation token, send the email and commit. -/
def Call.isRegistrationStep : Call → Bool
  | .CreateAccount _ => true
  | .Register _ => true
  | .CreateAccessToken _ => true
  | .SendMailActivationAccount _ _ => true
  | .Commit => true
  | _ => false

/-- The registration steps of a run, in order. -/
def Outcome.registrationSteps (o : Outcome α) : List Call :=
  o.calls.filter Call.isRegistrationStep

/-- A run has committed when its log holds a `Commit` that returned no error. -/
def Outcome.committed (o : Outcome α) : Bool := o.log.contains ⟨.Commit, none⟩

/-- The run returned an error. -/
def Outcome.failed (o : Outcome α) : Bool :=
  match o.result with
  | .error _ => true
  | .ok _ => false

/-! ## Symbolic execution

Each business function is straight-line code with early returns: a run is fixed by which call
fails first, which rows the lookups find and what the helpers answer.  The lemmas below list
the paths with the returned value, the durable rows and the call log of each. -/

/-- Symbolic execution of `application.Activation`: a run follows one of thirteen paths,
fixed by the injected failures and the rows found. -/
theorem application_Activation_paths (s : Sys) (token : Option UUID) {P : Prop}
    (hOpen : ∀ n,
      s.fail .NewTransaction = some n →
      application.Activation s token =
        ⟨.error (.other n), s.db,
        [⟨.NewTransaction, some (.other n)⟩]⟩ → P)
    (hTokenFail : ∀ n,
      s.fail .NewTransaction = none →
      s.fail (.GetActivateAccountToken token) = some n →
      application.Activation s token =
        ⟨.error (.other n), s.db,
        [⟨.NewTransaction, none⟩, ⟨.GetActivateAccountToken token, some (.other n)⟩,
          ⟨.Rollback, none⟩]⟩ → P)
    (hTokenMiss :
      s.fail .NewTransaction = none →
      s.fail (.GetActivateAccountToken token) = none →
      s.db.tokens.find? (fun r => token == some r.id) = none →
      application.Activation s token =
        ⟨.error .errNoRows, s.db,
        [⟨.NewTransaction, none⟩, ⟨.GetActivateAccountToken token, some .errNoRows⟩,
          ⟨.Rollback, none⟩]⟩ → P)
    (hUsed : ∀ r,
      s.fail .NewTransaction = none →
      s.fail (.GetActivateAccountToken token) = none →
      s.db.tokens.find? (fun r => token == some r.id) = some r →
      r.used = true →
      application.Activation s token =
        ⟨.error ErrTokenIsNotValid, s.db,
        [⟨.NewTransaction, none⟩, ⟨.GetActivateAccountToken token, none⟩, ⟨.Rollback, none⟩]⟩ → P)
    (hExpired : ∀ r,
      s.fail .NewTransaction = none →
      s.fail (.GetActivateAccountToken token) = none →
      s.db.tokens.find? (fun r => token == some r.id) = some r →
      r.used = false →
      ¬ (s.now ≤ r.expires_at) →
      application.Activation s token =
        ⟨.error ErrTokenIsNotValid, s.db,
        [⟨.NewTransaction, none⟩, ⟨.GetActivateAccountToken token, none⟩, ⟨.Rollback, none⟩]⟩ → P)
    (hPanic : ∀ r,
      s.fail .NewTransaction = none →
      s.fail (.GetActivateAccountToken token) = none →
      s.db.tokens.find? (fun r => token == some r.id) = some r →
      r.used = false →
      s.now ≤ r.expires_at →
      r.user_id = none →
      application.Activation s token =
        ⟨.error .nilDeref, s.db,
        [⟨.NewTransaction, none⟩, ⟨.GetActivateAccountToken token, none⟩,
          ⟨.UserGet r.user_id none, some .nilDeref⟩, ⟨.Rollback, none⟩]⟩ → P)
    (hUserFail : ∀ r n,
      s.fail .NewTransaction = none →
      s.fail (.GetActivateAccountToken token) = none →
      s.db.tokens.find? (fun r => token == some r.id) = some r →
      r.used = false →
      s.now ≤ r.expires_at →
      ¬ (r.user_id = none) →
      s.fail (.UserGet r.user_id none) = some n →
      application.Activation s token =
        ⟨.error (.other n), s.db,
        [⟨.NewTransaction, none⟩, ⟨.GetActivateAccountToken token, none⟩,
          ⟨.UserGet r.user_id none, some (.other n)⟩, ⟨.Rollback, none⟩]⟩ → P)
    (hUserMiss : ∀ r,
      s.fail .NewTransaction = none →
      s.fail (.GetActivateAccountToken token) = none →
      s.db.tokens.find? (fun r => token == some r.id) = some r →
      r.used = false →
      s.now ≤ r.expires_at →
      ¬ (r.user_id = none) →
      s.fail (.UserGet r.user_id none) = none →
      s.db.users.find? (PGUser.cond r.user_id none) = none →
      application.Activation s token =
        ⟨.error ErrUserNotExists, s.db,
        [⟨.NewTransaction, none⟩, ⟨.GetActivateAccountToken token, none⟩,
          ⟨.UserGet r.user_id none, some .errNoRows⟩, ⟨.Rollback, none⟩]⟩ → P)
    (hFlagFail : ∀ r u n,
      s.fail .NewTransaction = none →
      s.fail (.GetActivateAccountToken token) = none →
      s.db.tokens.find? (fun r => token == some r.id) = some r →
      r.used = false →
      s.now ≤ r.expires_at →
      ¬ (r.user_id = none) →
      s.fail (.UserGet r.user_id none) = none →
      s.db.users.find? (PGUser.cond r.user_id none) = some u →
      s.fail (.FlagSet (some u.id) s.FlagEnabledAccount) = some n →
      application.Activation s token =
        ⟨.error (.other n), s.db,
        [⟨.NewTransaction, none⟩, ⟨.GetActivateAccountToken token, none⟩,
          ⟨.UserGet r.user_id none, none⟩,
          ⟨.FlagSet (some u.id) s.FlagEnabledAccount, some (.other n)⟩, ⟨.Rollback, none⟩]⟩ → P)
    (hMarkFail : ∀ r u n,
      s.fail .NewTransaction = none →
      s.fail (.GetActivateAccountToken token) = none →
      s.db.tokens.find? (fun r => token == some r.id) = some r →
      r.used = false →
      s.now ≤ r.expires_at →
      ¬ (r.user_id = none) →
      s.fail (.UserGet r.user_id none) = none →
      s.db.users.find? (PGUser.cond r.user_id none) = some u →
      s.fail (.FlagSet (some u.id) s.FlagEnabledAccount) = none →
      s.fail (.MarkTokenAsUsed token) = some n →
      application.Activation s token =
        ⟨.error (.other n), s.db,
        [⟨.NewTransaction, none⟩, ⟨.GetActivateAccountToken token, none⟩,
          ⟨.UserGet r.user_id none, none⟩, ⟨.FlagSet (some u.id) s.FlagEnabledAccount, none⟩,
          ⟨.MarkTokenAsUsed token, some (.other n)⟩, ⟨.Rollback, none⟩]⟩ → P)
    (hCommitFail : ∀ r u n,
      s.fail .NewTransaction = none →
      s.fail (.GetActivateAccountToken token) = none →
      s.db.tokens.find? (fun r => token == some r.id) = some r →
      r.used = false →
      s.now ≤ r.expires_at →
      ¬ (r.user_id = none) →
      s.fail (.UserGet r.user_id none) = none →
      s.db.users.find? (PGUser.cond r.user_id none) = some u →
      s.fail (.FlagSet (some u.id) s.FlagEnabledAccount) = none →
      s.fail (.MarkTokenAsUsed token) = none →
      s.fail .Commit = some n →
      application.Activation s token =
        ⟨.error (.other n), s.db,
        [⟨.NewTransaction, none⟩, ⟨.GetActivateAccountToken token, none⟩,
          ⟨.UserGet r.user_id none, none⟩, ⟨.FlagSet (some u.id) s.FlagEnabledAccount, none⟩,
          ⟨.MarkTokenAsUsed token, none⟩, ⟨.Commit, some (.other n)⟩, ⟨.Rollback, none⟩]⟩ → P)
    (hDone : ∀ r u,
      s.fail .NewTransaction = none →
      s.fail (.GetActivateAccountToken token) = none →
      s.db.tokens.find? (fun r => token == some r.id) = some r →
      r.used = false →
      s.now ≤ r.expires_at →
      ¬ (r.user_id = none) →
      s.fail (.UserGet r.user_id none) = none →
      s.db.users.find? (PGUser.cond r.user_id none) = some u →
      s.fail (.FlagSet (some u.id) s.FlagEnabledAccount) = none →
      s.fail (.MarkTokenAsUsed token) = none →
      s.fail .Commit = none →
      application.Activation s token =
        ⟨.ok (), markUsed token (setFlag (some u.id) s.FlagEnabledAccount s.db),
        [⟨.NewTransaction, none⟩, ⟨.GetActivateAccountToken token, none⟩,
          ⟨.UserGet r.user_id none, none⟩, ⟨.FlagSet (some u.id) s.FlagEnabledAccount, none⟩,
          ⟨.MarkTokenAsUsed token, none⟩, ⟨.Commit, none⟩, ⟨.Rollback, none⟩]⟩ → P) :
    P := by
  cases h0 : s.fail .NewTransaction with
  | some n =>
    refine hOpen n h0 ?_
    simp [application.Activation, application.Activation.body, NewTransaction, Outcome.notOpened,
      Outcome.finish, PGAuth.GetActivateAccountToken, queryRow, exec, Tx.record, Rollback, Commit,
      oops.Err, ActivateAccount.IsValid, PGUser.Get, PGUser.scan, User.empty, FlagRepo.Set,
      PGAuth.MarkTokenAsUsed, h0]
  | none =>
  cases h1 : s.fail (.GetActivateAccountToken token) with
  | some n =>
    refine hTokenFail n h0 h1 ?_
    simp [application.Activation, application.Activation.body, NewTransaction, Outcome.notOpened,
      Outcome.finish, PGAuth.GetActivateAccountToken, queryRow, exec, Tx.record, Rollback, Commit,
      oops.Err, ActivateAccount.IsValid, PGUser.Get, PGUser.scan, User.empty, FlagRepo.Set,
      PGAuth.MarkTokenAsUsed, h0, h1]
  | none =>
  cases h2 : s.db.tokens.find? (fun r => token == some r.id) with
  | none =>
    refine hTokenMiss h0 h1 h2 ?_
    simp [application.Activation, application.Activation.body, NewTransaction, Outcome.notOpened,
      Outcome.finish, PGAuth.GetActivateAccountToken, queryRow, exec, Tx.record, Rollback, Commit,
      oops.Err, ActivateAccount.IsValid, PGUser.Get, PGUser.scan, User.empty, FlagRepo.Set,
      PGAuth.MarkTokenAsUsed, h0, h1, h2]
  | some r =>
  cases h3 : r.used with
  | true =>
    refine hUsed r h0 h1 h2 h3 ?_
    simp [application.Activation, application.Activation.body, NewTransaction, Outcome.notOpened,
      Outcome.finish, PGAuth.GetActivateAccountToken, queryRow, exec, Tx.record, Rollback, Commit,
      oops.Err, ActivateAccount.IsValid, PGUser.Get, PGUser.scan, User.empty, FlagRepo.Set,
      PGAuth.MarkTokenAsUsed, h0, h1, h2, h3]
  | false =>
  by_cases h4 : s.now ≤ r.expires_at
  swap
  ·
      refine hExpired r h0 h1 h2 h3 h4 ?_
      simp [application.Activation, application.Activation.body, NewTransaction, Outcome.notOpened,
        Outcome.finish, PGAuth.GetActivateAccountToken, queryRow, exec, Tx.record, Rollback, Commit,
        oops.Err, ActivateAccount.IsValid, PGUser.Get, PGUser.scan, User.empty, FlagRepo.Set,
        PGAuth.MarkTokenAsUsed, h0, h1, h2, h3, h4]
  ·
    by_cases h5 : r.user_id = none
    ·
        refine hPanic r h0 h1 h2 h3 h4 h5 ?_
        simp [application.Activation, application.Activation.body, NewTransaction, Outcome.notOpened,
          Outcome.finish, PGAuth.GetActivateAccountToken, queryRow, exec, Tx.record, Rollback, Commit,
          oops.Err, ActivateAccount.IsValid, PGUser.Get, PGUser.scan, User.empty, FlagRepo.Set,
          PGAuth.MarkTokenAsUsed, h0, h1, h2, h3, h4, h5]
    ·
      cases h6 : s.fail (.UserGet r.user_id none) with
      | some n =>
        refine hUserFail r n h0 h1 h2 h3 h4 h5 h6 ?_
        simp [application.Activation, application.Activation.body, NewTransaction, Outcome.notOpened,
          Outcome.finish, PGAuth.GetActivateAccountToken, queryRow, exec, Tx.record, Rollback, Commit,
          oops.Err, ActivateAccount.IsValid, PGUser.Get, PGUser.scan, User.empty, FlagRepo.Set,
          PGAuth.MarkTokenAsUsed, h0, h1, h2, h3, h4, h5, h6]
      | none =>
      cases h7 : s.db.users.find? (PGUser.cond r.user_id none) with
      | none =>
        refine hUserMiss r h0 h1 h2 h3 h4 h5 h6 h7 ?_
        simp [application.Activation, application.Activation.body, NewTransaction, Outcome.notOpened,
          Outcome.finish, PGAuth.GetActivateAccountToken, queryRow, exec, Tx.record, Rollback, Commit,
          oops.Err, ActivateAccount.IsValid, PGUser.Get, PGUser.scan, User.empty, FlagRepo.Set,
          PGAuth.MarkTokenAsUsed, h0, h1, h2, h3, h4, h5, h6, h7]
      | some u =>
      cases h8 : s.fail (.FlagSet (some u.id) s.FlagEnabledAccount) with
      | some n =>
        refine hFlagFail r u n h0 h1 h2 h3 h4 h5 h6 h7 h8 ?_
        simp [application.Activation, application.Activation.body, NewTransaction, Outcome.notOpened,
          Outcome.finish, PGAuth.GetActivateAccountToken, queryRow, exec, Tx.record, Rollback, Commit,
          oops.Err, ActivateAccount.IsValid, PGUser.Get, PGUser.scan, User.empty, FlagRepo.Set,
          PGAuth.MarkTokenAsUsed, h0, h1, h2, h3, h4, h5, h6, h7, h8]
      | none =>
      cases h9 : s.fail (.MarkTokenAsUsed token) with
      | some n =>
        refine hMarkFail r u n h0 h1 h2 h3 h4 h5 h6 h7 h8 h9 ?_
        simp [application.Activation, application.Activation.body, NewTransaction, Outcome.notOpened,
          Outcome.finish, PGAuth.GetActivateAccountToken, queryRow, exec, Tx.record, Rollback, Commit,
          oops.Err, ActivateAccount.IsValid, PGUser.Get, PGUser.scan, User.empty, FlagRepo.Set,
          PGAuth.MarkTokenAsUsed, h0, h1, h2, h3, h4, h5, h6, h7, h8, h9]
      | none =>
      cases h10 : s.fail .Commit with
      | some n =>
        refine hCommitFail r u n h0 h1 h2 h3 h4 h5 h6 h7 h8 h9 h10 ?_
        simp [application.Activation, application.Activation.body, NewTransaction, Outcome.notOpened,
          Outcome.finish, PGAuth.GetActivateAccountToken, queryRow, exec, Tx.record, Rollback, Commit,
          oops.Err, ActivateAccount.IsValid, PGUser.Get, PGUser.scan, User.empty, FlagRepo.Set,
          PGAuth.MarkTokenAsUsed, h0, h1, h2, h3, h4, h5, h6, h7, h8, h9, h10]
      | none =>
        refine hDone r u h0 h1 h2 h3 h4 h5 h6 h7 h8 h9 h10 ?_
        simp [application.Activation, application.Activation.body, NewTransaction, Outcome.notOpened,
          Outcome.finish, PGAuth.GetActivateAccountToken, queryRow, exec, Tx.record, Rollback, Commit,
          oops.Err, ActivateAccount.IsValid, PGUser.Get, PGUser.scan, User.empty, FlagRepo.Set,
          PGAuth.MarkTokenAsUsed, h0, h1, h2, h3, h4, h5, h6, h7, h8, h9, h10]

/-- Symbolic execution of `application.Login`: a run follows one of nineteen paths, fixed by
the injected failures, the row found and the outcomes of the helpers. -/
theorem application_Login_paths (s : Sys) (inp : LoginInput) {P : Prop}
    (hOpen : ∀ n,
      s.fail .NewTransaction = some n →
      application.Login s inp =
        ⟨.error (.other n), s.db,
        [⟨.NewTransaction, some (.other n)⟩]⟩ → P)
    (hPanic :
      s.fail .NewTransaction = none →
      inp.Email = none →
      application.Login s inp =
        ⟨.error .nilDeref, s.db,
        [⟨.NewTransaction, none⟩, ⟨.UserGet none inp.Email, some .nilDeref⟩, ⟨.Rollback, none⟩]⟩ → P)
    (hUserFail : ∀ n,
      s.fail .NewTransaction = none →
      ¬ (inp.Email = none) →
      s.fail (.UserGet none inp.Email) = some n →
      application.Login s inp =
        ⟨.error (.other n), s.db,
        [⟨.NewTransaction, none⟩, ⟨.UserGet none inp.Email, some (.other n)⟩, ⟨.Rollback, none⟩]⟩ → P)
    (hUserMiss :
      s.fail .NewTransaction = none →
      ¬ (inp.Email = none) →
      s.fail (.UserGet none inp.Email) = none →
      s.db.users.find? (PGUser.cond none inp.Email) = none →
      application.Login s inp =
        ⟨.error ErrUserNotExists, s.db,
        [⟨.NewTransaction, none⟩, ⟨.UserGet none inp.Email, some .errNoRows⟩, ⟨.Rollback, none⟩]⟩ → P)
    (hNoFlag : ∀ u,
      s.fail .NewTransaction = none →
      ¬ (inp.Email = none) →
      s.fail (.UserGet none inp.Email) = none →
      s.db.users.find? (PGUser.cond none inp.Email) = some u →
      flagColumn u.flag s.FlagEnabledAccount = false →
      application.Login s inp =
        ⟨.error ErrNotHavePermissionLogin, s.db,
        [⟨.NewTransaction, none⟩, ⟨.UserGet none inp.Email, none⟩, ⟨.Rollback, none⟩]⟩ → P)
    (hInactive : ∀ u,
      s.fail .NewTransaction = none →
      ¬ (inp.Email = none) →
      s.fail (.UserGet none inp.Email) = none →
      s.db.users.find? (PGUser.cond none inp.Email) = some u →
      flagColumn u.flag s.FlagEnabledAccount = true →
      u.active = false →
      application.Login s inp =
        ⟨.error ErrUserNotExists, s.db,
        [⟨.NewTransaction, none⟩, ⟨.UserGet none inp.Email, none⟩, ⟨.Rollback, none⟩]⟩ → P)
    (hBlocked : ∀ u,
      s.fail .NewTransaction = none →
      ¬ (inp.Email = none) →
      s.fail (.UserGet none inp.Email) = none →
      s.db.users.find? (PGUser.cond none inp.Email) = some u →
      flagColumn u.flag s.FlagEnabledAccount = true →
      u.active = true →
      blockedColumn u.attempts u.last_failure s.now = some true →
      application.Login s inp =
        ⟨.error ErrUserBlockedTemporarily, s.db,
        [⟨.NewTransaction, none⟩, ⟨.UserGet none inp.Email, none⟩, ⟨.Rollback, none⟩]⟩ → P)
    (hAttemptFail : ∀ u err n,
      s.fail .NewTransaction = none →
      ¬ (inp.Email = none) →
      s.fail (.UserGet none inp.Email) = none →
      s.db.users.find? (PGUser.cond none inp.Email) = some u →
      flagColumn u.flag s.FlagEnabledAccount = true →
      u.active = true →
      ¬ (blockedColumn u.attempts u.last_failure s.now = some true) →
      s.comparePasswords inp.Password (some u.password) (some u.key) = some err →
      s.fail (.AddAttempts (some u.id)) = some n →
      application.Login s inp =
        ⟨.error (.other n), s.db,
        [⟨.NewTransaction, none⟩, ⟨.UserGet none inp.Email, none⟩,
          ⟨.ComparePasswords inp.Password, some err⟩, ⟨.AddAttempts (some u.id), some (.other n)⟩,
          ⟨.Rollback, none⟩]⟩ → P)
    (hAttemptCommitFail : ∀ u err n,
      s.fail .NewTransaction = none →
      ¬ (inp.Email = none) →
      s.fail (.UserGet none inp.Email) = none →
      s.db.users.find? (PGUser.cond none inp.Email) = some u →
      flagColumn u.flag s.FlagEnabledAccount = true →
      u.active = true →
      ¬ (blockedColumn u.attempts u.last_failure s.now = some true) →
      s.comparePasswords inp.Password (some u.password) (some u.key) = some err →
      s.fail (.AddAttempts (some u.id)) = none →
      s.fail .Commit = some n →
      application.Login s inp =
        ⟨.error (.other n), s.db,
        [⟨.NewTransaction, none⟩, ⟨.UserGet none inp.Email, none⟩,
          ⟨.ComparePasswords inp.Password, some err⟩, ⟨.AddAttempts (some u.id), none⟩,
          ⟨.Commit, some (.other n)⟩, ⟨.Rollback, none⟩]⟩ → P)
    (hMismatch : ∀ u err,
      s.fail .NewTransaction = none →
      ¬ (inp.Email = none) →
      s.fail (.UserGet none inp.Email) = none →
      s.db.users.find? (PGUser.cond none inp.Email) = some u →
      flagColumn u.flag s.FlagEnabledAccount = true →
      u.active = true →
      ¬ (blockedColumn u.attempts u.last_failure s.now = some true) →
      s.comparePasswords inp.Password (some u.password) (some u.key) = some err →
      s.fail (.AddAttempts (some u.id)) = none →
      s.fail .Commit = none →
      application.Login s inp =
        ⟨.error err, addAttempt s.now (some u.id) s.db,
        [⟨.NewTransaction, none⟩, ⟨.UserGet none inp.Email, none⟩,
          ⟨.ComparePasswords inp.Password, some err⟩, ⟨.AddAttempts (some u.id), none⟩,
          ⟨.Commit, none⟩, ⟨.Rollback, none⟩]⟩ → P)
    (hSessionFail : ∀ u n,
      s.fail .NewTransaction = none →
      ¬ (inp.Email = none) →
      s.fail (.UserGet none inp.Email) = none →
      s.db.users.find? (PGUser.cond none inp.Email) = some u →
      flagColumn u.flag s.FlagEnabledAccount = true →
      u.active = true →
      ¬ (blockedColumn u.attempts u.last_failure s.now = some true) →
      s.comparePasswords inp.Password (some u.password) (some u.key) = none →
      ¬ (flagColumn u.flag s.FlagOTPEnable = true ∧ flagColumn u.flag s.FlagOTPSetup = true) →
      s.fail (.SessionCreate (some u.id) inp.ClientIP inp.UserAgent) = some n →
      application.Login s inp =
        ⟨.error (.other n), s.db,
        [⟨.NewTransaction, none⟩, ⟨.UserGet none inp.Email, none⟩,
          ⟨.ComparePasswords inp.Password, none⟩,
          ⟨.SessionCreate (some u.id) inp.ClientIP inp.UserAgent, some (.other n)⟩,
          ⟨.Rollback, none⟩]⟩ → P)
    (hSignFail : ∀ u n,
      s.fail .NewTransaction = none →
      ¬ (inp.Email = none) →
      s.fail (.UserGet none inp.Email) = none →
      s.db.users.find? (PGUser.cond none inp.Email) = some u →
      flagColumn u.flag s.FlagEnabledAccount = true →
      u.active = true →
      ¬ (blockedColumn u.attempts u.last_failure s.now = some true) →
      s.comparePasswords inp.Password (some u.password) (some u.key) = none →
      ¬ (flagColumn u.flag s.FlagOTPEnable = true ∧ flagColumn u.flag s.FlagOTPSetup = true) →
      s.fail (.SessionCreate (some u.id) inp.ClientIP inp.UserAgent) = none →
      s.sign (PGUser.scan s { User.empty with Email := inp.Email } u)
        (some (s.newID (.SessionCreate (some u.id) inp.ClientIP inp.UserAgent))) = .error n →
      application.Login s inp =
        ⟨.error (.other n), s.db,
        [⟨.NewTransaction, none⟩, ⟨.UserGet none inp.Email, none⟩,
          ⟨.ComparePasswords inp.Password, none⟩,
          ⟨.SessionCreate (some u.id) inp.ClientIP inp.UserAgent, none⟩,
          ⟨.NewUserAuthToken (some u.id) (some (s.newID (.SessionCreate (some u.id) inp.ClientIP inp.UserAgent))), some (.other n)⟩,
          ⟨.Rollback, none⟩]⟩ → P)
    (hCommitFail : ∀ u tok n,
      s.fail .NewTransaction = none →
      ¬ (inp.Email = none) →
      s.fail (.UserGet none inp.Email) = none →
      s.db.users.find? (PGUser.cond none inp.Email) = some u →
      flagColumn u.flag s.FlagEnabledAccount = true →
      u.active = true →
      ¬ (blockedColumn u.attempts u.last_failure s.now = some true) →
      s.comparePasswords inp.Password (some u.password) (some u.key) = none →
      ¬ (flagColumn u.flag s.FlagOTPEnable = true ∧ flagColumn u.flag s.FlagOTPSetup = true) →
      s.fail (.SessionCreate (some u.id) inp.ClientIP inp.UserAgent) = none →
      s.sign (PGUser.scan s { User.empty with Email := inp.Email } u)
        (some (s.newID (.SessionCreate (some u.id) inp.ClientIP inp.UserAgent))) = .ok tok →
      s.fail .Commit = some n →
      application.Login s inp =
        ⟨.error (.other n), s.db,
        [⟨.NewTransaction, none⟩, ⟨.UserGet none inp.Email, none⟩,
          ⟨.ComparePasswords inp.Password, none⟩,
          ⟨.SessionCreate (some u.id) inp.ClientIP inp.UserAgent, none⟩,
          ⟨.NewUserAuthToken (some u.id) (some (s.newID (.SessionCreate (some u.id) inp.ClientIP inp.UserAgent))), none⟩,
          ⟨.Commit, some (.other n)⟩, ⟨.Rollback, none⟩]⟩ → P)
    (hDone : ∀ u tok,
      s.fail .NewTransaction = none →
      ¬ (inp.Email = none) →
      s.fail (.UserGet none inp.Email) = none →
      s.db.users.find? (PGUser.cond none inp.Email) = some u →
      flagColumn u.flag s.FlagEnabledAccount = true →
      u.active = true →
      ¬ (blockedColumn u.attempts u.last_failure s.now = some true) →
      s.comparePasswords inp.Password (some u.password) (some u.key) = none →
      ¬ (flagColumn u.flag s.FlagOTPEnable = true ∧ flagColumn u.flag s.FlagOTPSetup = true) →
      s.fail (.SessionCreate (some u.id) inp.ClientIP inp.UserAgent) = none →
      s.sign (PGUser.scan s { User.empty with Email := inp.Email } u)
        (some (s.newID (.SessionCreate (some u.id) inp.ClientIP inp.UserAgent))) = .ok tok →
      s.fail .Commit = none →
      application.Login s inp =
        ⟨.ok
          { SessionID := some (s.newID (.SessionCreate (some u.id) inp.ClientIP inp.UserAgent)),
            Level := some u.level, UserID := some u.id, Email := some u.email,
            FirstName := some u.first_name, LastName := some u.last_name,
            CreatedAt := none, Token := some tok, RawData := [] },
        { s.db with
          sessions := s.db.sessions ++
            [{ id := s.newID (.SessionCreate (some u.id) inp.ClientIP inp.UserAgent),
               user_id := some u.id, client_ip := inp.ClientIP,
               user_agent := inp.UserAgent, created_at := s.now }] },
        [⟨.NewTransaction, none⟩, ⟨.UserGet none inp.Email, none⟩,
          ⟨.ComparePasswords inp.Password, none⟩,
          ⟨.SessionCreate (some u.id) inp.ClientIP inp.UserAgent, none⟩,
          ⟨.NewUserAuthToken (some u.id) (some (s.newID (.SessionCreate (some u.id) inp.ClientIP inp.UserAgent))), none⟩,
          ⟨.Commit, none⟩, ⟨.Rollback, none⟩]⟩ → P)
    (hOTPInvalid : ∀ u e,
      s.fail .NewTransaction = none →
      ¬ (inp.Email = none) →
      s.fail (.UserGet none inp.Email) = none →
      s.db.users.find? (PGUser.cond none inp.Email) = some u →
      flagColumn u.flag s.FlagEnabledAccount = true →
      u.active = true →
      ¬ (blockedColumn u.attempts u.last_failure s.now = some true) →
      s.comparePasswords inp.Password (some u.password) (some u.key) = none →
      flagColumn u.flag s.FlagOTPEnable = true ∧ flagColumn u.flag s.FlagOTPSetup = true →
      s.validateToken u.otp inp.OTP = some e →
      application.Login s inp =
        ⟨.error ErrOTPTokenInvalid, s.db,
        [⟨.NewTransaction, none⟩, ⟨.UserGet none inp.Email, none⟩,
          ⟨.ComparePasswords inp.Password, none⟩, ⟨.ValidateToken inp.OTP, some e⟩,
          ⟨.Rollback, none⟩]⟩ → P)
    (hSessionFailOTP : ∀ u n,
      s.fail .NewTransaction = none →
      ¬ (inp.Email = none) →
      s.fail (.UserGet none inp.Email) = none →
      s.db.users.find? (PGUser.cond none inp.Email) = some u →
      flagColumn u.flag s.FlagEnabledAccount = true →
      u.active = true →
      ¬ (blockedColumn u.attempts u.last_failure s.now = some true) →
      s.comparePasswords inp.Password (some u.password) (some u.key) = none →
      flagColumn u.flag s.FlagOTPEnable = true ∧ flagColumn u.flag s.FlagOTPSetup = true →
      s.validateToken u.otp inp.OTP = none →
      s.fail (.SessionCreate (some u.id) inp.ClientIP inp.UserAgent) = some n →
      application.Login s inp =
        ⟨.error (.other n), s.db,
        [⟨.NewTransaction, none⟩, ⟨.UserGet none inp.Email, none⟩,
          ⟨.ComparePasswords inp.Password, none⟩, ⟨.ValidateToken inp.OTP, none⟩,
          ⟨.SessionCreate (some u.id) inp.ClientIP inp.UserAgent, some (.other n)⟩,
          ⟨.Rollback, none⟩]⟩ → P)
    (hSignFailOTP : ∀ u n,
      s.fail .NewTransaction = none →
      ¬ (inp.Email = none) →
      s.fail (.UserGet none inp.Email) = none →
      s.db.users.find? (PGUser.cond none inp.Email) = some u →
      flagColumn u.flag s.FlagEnabledAccount = true →
      u.active = true →
      ¬ (blockedColumn u.attempts u.last_failure s.now = some true) →
      s.comparePasswords inp.Password (some u.password) (some u.key) = none →
      flagColumn u.flag s.FlagOTPEnable = true ∧ flagColumn u.flag s.FlagOTPSetup = true →
      s.validateToken u.otp inp.OTP = none →
      s.fail (.SessionCreate (some u.id) inp.ClientIP inp.UserAgent) = none →
      s.sign (PGUser.scan s { User.empty with Email := inp.Email } u)
        (some (s.newID (.SessionCreate (some u.id) inp.ClientIP inp.UserAgent))) = .error n →
      application.Login s inp =
        ⟨.error (.other n), s.db,
        [⟨.NewTransaction, none⟩, ⟨.UserGet none inp.Email, none⟩,
          ⟨.ComparePasswords inp.Password, none⟩, ⟨.ValidateToken inp.OTP, none⟩,
          ⟨.SessionCreate (some u.id) inp.ClientIP inp.UserAgent, none⟩,
          ⟨.NewUserAuthToken (some u.id) (some (s.newID (.SessionCreate (some u.id) inp.ClientIP inp.UserAgent))), some (.other n)⟩,
          ⟨.Rollback, none⟩]⟩ → P)
    (hCommitFailOTP : ∀ u tok n,
      s.fail .NewTransaction = none →
      ¬ (inp.Email = none) →
      s.fail (.UserGet none inp.Email) = none →
      s.db.users.find? (PGUser.cond none inp.Email) = some u →
      flagColumn u.flag s.FlagEnabledAccount = true →
      u.active = true →
      ¬ (blockedColumn u.attempts u.last_failure s.now = some true) →
      s.comparePasswords inp.Password (some u.password) (some u.key) = none →
      flagColumn u.flag s.FlagOTPEnable = true ∧ flagColumn u.flag s.FlagOTPSetup = true →
      s.validateToken u.otp inp.OTP = none →
      s.fail (.SessionCreate (some u.id) inp.ClientIP inp.UserAgent) = none →
      s.sign (PGUser.scan s { User.empty with Email := inp.Email } u)
        (some (s.newID (.SessionCreate (some u.id) inp.ClientIP inp.UserAgent))) = .ok tok →
      s.fail .Commit = some n →
      application.Login s inp =
        ⟨.error (.other n), s.db,
        [⟨.NewTransaction, none⟩, ⟨.UserGet none inp.Email, none⟩,
          ⟨.ComparePasswords inp.Password, none⟩, ⟨.ValidateToken inp.OTP, none⟩,
          ⟨.SessionCreate (some u.id) inp.ClientIP inp.UserAgent, none⟩,
          ⟨.NewUserAuthToken (some u.id) (some (s.newID (.SessionCreate (some u.id) inp.ClientIP inp.UserAgent))), none⟩,
          ⟨.Commit, some (.other n)⟩, ⟨.Rollback, none⟩]⟩ → P)
    (hDoneOTP : ∀ u tok,
      s.fail .NewTransaction = none →
      ¬ (inp.Email = none) →
      s.fail (.UserGet none inp.Email) = none →
      s.db.users.find? (PGUser.cond none inp.Email) = some u →
      flagColumn u.flag s.FlagEnabledAccount = true →
      u.active = true →
      ¬ (blockedColumn u.attempts u.last_failure s.now = some true) →
      s.comparePasswords inp.Password (some u.password) (some u.key) = none →
      flagColumn u.flag s.FlagOTPEnable = true ∧ flagColumn u.flag s.FlagOTPSetup = true →
      s.validateToken u.otp inp.OTP = none →
      s.fail (.SessionCreate (some u.id) inp.ClientIP inp.UserAgent) = none →
      s.sign (PGUser.scan s { User.empty with Email := inp.Email } u)
        (some (s.newID (.SessionCreate (some u.id) inp.ClientIP inp.UserAgent))) = .ok tok →
      s.fail .Commit = none →
      application.Login s inp =
        ⟨.ok
          { SessionID := some (s.newID (.SessionCreate (some u.id) inp.ClientIP inp.UserAgent)),
            Level := some u.level, UserID := some u.id, Email := some u.email,
            FirstName := some u.first_name, LastName := some u.last_name,
            CreatedAt := none, Token := some tok, RawData := [] },
        { s.db with
          sessions := s.db.sessions ++
            [{ id := s.newID (.SessionCreate (some u.id) inp.ClientIP inp.UserAgent),
               user_id := some u.id, client_ip := inp.ClientIP,
               user_agent := inp.UserAgent, created_at := s.now }] },
        [⟨.NewTransaction, none⟩, ⟨.UserGet none inp.Email, none⟩,
          ⟨.ComparePasswords inp.Password, none⟩, ⟨.ValidateToken inp.OTP, none⟩,
          ⟨.SessionCreate (some u.id) inp.ClientIP inp.UserAgent, none⟩,
          ⟨.NewUserAuthToken (some u.id) (some (s.newID (.SessionCreate (some u.id) inp.ClientIP inp.UserAgent))), none⟩,
          ⟨.Commit, none⟩, ⟨.Rollback, none⟩]⟩ → P) :
    P := by
  cases h0 : s.fail .NewTransaction with
  | some n =>
    refine hOpen n h0 ?_
    simp [application.Login, application.Login.body, NewTransaction, Outcome.notOpened,
      Outcome.finish, queryRow, exec, Tx.record, Rollback, Commit, oops.Err, PGUser.Get,
      PGUser.scan, User.empty, User.HasFlag, User.IsActive, User.IsBlocked, User.OTPConfigured,
      ComparePasswords, ValidateToken, PGAuth.AddAttempts, SessionRepository.Create,
      NewUserAuthToken, h0]
  | none =>
  by_cases h1 : inp.Email = none
  ·
      refine hPanic h0 h1 ?_
      simp [application.Login, application.Login.body, NewTransaction, Outcome.notOpened,
        Outcome.finish, queryRow, exec, Tx.record, Rollback, Commit, oops.Err, PGUser.Get,
        PGUser.scan, User.empty, User.HasFlag, User.IsActive, User.IsBlocked, User.OTPConfigured,
        ComparePasswords, ValidateToken, PGAuth.AddAttempts, SessionRepository.Create,
        NewUserAuthToken, h0, h1]
  ·
    cases h2 : s.fail (.UserGet none inp.Email) with
    | some n =>
      refine hUserFail n h0 h1 h2 ?_
      simp [application.Login, application.Login.body, NewTransaction, Outcome.notOpened,
        Outcome.finish, queryRow, exec, Tx.record, Rollback, Commit, oops.Err, PGUser.Get,
        PGUser.scan, User.empty, User.HasFlag, User.IsActive, User.IsBlocked, User.OTPConfigured,
        ComparePasswords, ValidateToken, PGAuth.AddAttempts, SessionRepository.Create,
        NewUserAuthToken, h0, h1, h2]
    | none =>
    cases h3 : s.db.users.find? (PGUser.cond none inp.Email) with
    | none =>
      refine hUserMiss h0 h1 h2 h3 ?_
      simp [application.Login, application.Login.body, NewTransaction, Outcome.notOpened,
        Outcome.finish, queryRow, exec, Tx.record, Rollback, Commit, oops.Err, PGUser.Get,
        PGUser.scan, User.empty, User.HasFlag, User.IsActive, User.IsBlocked, User.OTPConfigured,
        ComparePasswords, ValidateToken, PGAuth.AddAttempts, SessionRepository.Create,
        NewUserAuthToken, h0, h1, h2, h3]
    | some u =>
    cases h4 : flagColumn u.flag s.FlagEnabledAccount with
    | false =>
      refine hNoFlag u h0 h1 h2 h3 h4 ?_
      simp [application.Login, application.Login.body, NewTransaction, Outcome.notOpened,
        Outcome.finish, queryRow, exec, Tx.record, Rollback, Commit, oops.Err, PGUser.Get,
        PGUser.scan, User.empty, User.HasFlag, User.IsActive, User.IsBlocked, User.OTPConfigured,
        ComparePasswords, ValidateToken, PGAuth.AddAttempts, SessionRepository.Create,
        NewUserAuthToken, h0, h1, h2, h3, h4]
    | true =>
    cases h5 : u.active with
    | false =>
      refine hInactive u h0 h1 h2 h3 h4 h5 ?_
      simp [application.Login, application.Login.body, NewTransaction, Outcome.notOpened,
        Outcome.finish, queryRow, exec, Tx.record, Rollback, Commit, oops.Err, PGUser.Get,
        PGUser.scan, User.empty, User.HasFlag, User.IsActive, User.IsBlocked, User.OTPConfigured,
        ComparePasswords, ValidateToken, PGAuth.AddAttempts, SessionRepository.Create,
        NewUserAuthToken, h0, h1, h2, h3, h4, h5]
    | true =>
    by_cases h6 : blockedColumn u.attempts u.last_failure s.now = some true
    ·
        refine hBlocked u h0 h1 h2 h3 h4 h5 h6 ?_
        simp [application.Login, application.Login.body, NewTransaction, Outcome.notOpened,
          Outcome.finish, queryRow, exec, Tx.record, Rollback, Commit, oops.Err, PGUser.Get,
          PGUser.scan, User.empty, User.HasFlag, User.IsActive, User.IsBlocked, User.OTPConfigured,
          ComparePasswords, ValidateToken, PGAuth.AddAttempts, SessionRepository.Create,
          NewUserAuthToken, h0, h1, h2, h3, h4, h5, h6]
    ·
      cases h7 : s.comparePasswords inp.Password (some u.password) (some u.key) with
      | some err =>
        (
          cases h8 : s.fail (.AddAttempts (some u.id)) with
          | some n =>
            refine hAttemptFail u err n h0 h1 h2 h3 h4 h5 h6 h7 h8 ?_
            simp [application.Login, application.Login.body, NewTransaction, Outcome.notOpened,
              Outcome.finish, queryRow, exec, Tx.record, Rollback, Commit, oops.Err, PGUser.Get,
              PGUser.scan, User.empty, User.HasFlag, User.IsActive, User.IsBlocked, User.OTPConfigured,
              ComparePasswords, ValidateToken, PGAuth.AddAttempts, SessionRepository.Create,
              NewUserAuthToken, h0, h1, h2, h3, h4, h5, h6, h7, h8]
          | none =>
          cases h9 : s.fail .Commit with
          | some n =>
            refine hAttemptCommitFail u err n h0 h1 h2 h3 h4 h5 h6 h7 h8 h9 ?_
            simp [application.Login, application.Login.body, NewTransaction, Outcome.notOpened,
              Outcome.finish, queryRow, exec, Tx.record, Rollback, Commit, oops.Err, PGUser.Get,
              PGUser.scan, User.empty, User.HasFlag, User.IsActive, User.IsBlocked, User.OTPConfigured,
              ComparePasswords, ValidateToken, PGAuth.AddAttempts, SessionRepository.Create,
              NewUserAuthToken, h0, h1, h2, h3, h4, h5, h6, h7, h8, h9]
          | none =>
            refine hMismatch u err h0 h1 h2 h3 h4 h5 h6 h7 h8 h9 ?_
            simp [application.Login, application.Login.body, NewTransaction, Outcome.notOpened,
              Outcome.finish, queryRow, exec, Tx.record, Rollback, Commit, oops.Err, PGUser.Get,
              PGUser.scan, User.empty, User.HasFlag, User.IsActive, User.IsBlocked, User.OTPConfigured,
              ComparePasswords, ValidateToken, PGAuth.AddAttempts, SessionRepository.Create,
              NewUserAuthToken, h0, h1, h2, h3, h4, h5, h6, h7, h8, h9]
        )
      | none =>
      by_cases h10 : flagColumn u.flag s.FlagOTPEnable = true ∧ flagColumn u.flag s.FlagOTPSetup = true
      swap
      ·
        cases h11 : s.fail (.SessionCreate (some u.id) inp.ClientIP inp.UserAgent) with
        | some n =>
          refine hSessionFail u n h0 h1 h2 h3 h4 h5 h6 h7 h10 h11 ?_
          simp [application.Login, application.Login.body, NewTransaction, Outcome.notOpened,
            Outcome.finish, queryRow, exec, Tx.record, Rollback, Commit, oops.Err, PGUser.Get,
            PGUser.scan, User.empty, User.HasFlag, User.IsActive, User.IsBlocked, User.OTPConfigured,
            ComparePasswords, ValidateToken, PGAuth.AddAttempts, SessionRepository.Create,
            NewUserAuthToken, h0, h1, h2, h3, h4, h5, h6, h7, h10, h11]
        | none =>
        cases h12 : s.sign (PGUser.scan s { User.empty with Email := inp.Email } u)
              (some (s.newID (.SessionCreate (some u.id) inp.ClientIP inp.UserAgent))) with
        | error n =>
          have h12n := h12
          simp only [application.Login, application.Login.body, NewTransaction, Outcome.notOpened,
            Outcome.finish, queryRow, exec, Tx.record, Rollback, Commit, oops.Err, PGUser.Get,
            PGUser.scan, User.empty, User.HasFlag, User.IsActive, User.IsBlocked, User.OTPConfigured,
            ComparePasswords, ValidateToken, PGAuth.AddAttempts, SessionRepository.Create,
            NewUserAuthToken, h0, h1, h2, h3, h4, h5, h6, h7, h10, h11] at h12n
          refine hSignFail u n h0 h1 h2 h3 h4 h5 h6 h7 h10 h11 h12 ?_
          simp [application.Login, application.Login.body, NewTransaction, Outcome.notOpened,
            Outcome.finish, queryRow, exec, Tx.record, Rollback, Commit, oops.Err, PGUser.Get,
            PGUser.scan, User.empty, User.HasFlag, User.IsActive, User.IsBlocked, User.OTPConfigured,
            ComparePasswords, ValidateToken, PGAuth.AddAttempts, SessionRepository.Create,
            NewUserAuthToken, h0, h1, h2, h3, h4, h5, h6, h7, h10, h11, h12n]
        | ok tok =>
        have h12n := h12
        simp only [application.Login, application.Login.body, NewTransaction, Outcome.notOpened,
          Outcome.finish, queryRow, exec, Tx.record, Rollback, Commit, oops.Err, PGUser.Get, PGUser.scan,
          User.empty, User.HasFlag, User.IsActive, User.IsBlocked, User.OTPConfigured, ComparePasswords,
          ValidateToken, PGAuth.AddAttempts, SessionRepository.Create, NewUserAuthToken, h0, h1, h2, h3,
          h4, h5, h6, h7, h10, h11] at h12n
        cases h13 : s.fail .Commit with
        | some n =>
          refine hCommitFail u tok n h0 h1 h2 h3 h4 h5 h6 h7 h10 h11 h12 h13 ?_
          simp [application.Login, application.Login.body, NewTransaction, Outcome.notOpened,
            Outcome.finish, queryRow, exec, Tx.record, Rollback, Commit, oops.Err, PGUser.Get,
            PGUser.scan, User.empty, User.HasFlag, User.IsActive, User.IsBlocked, User.OTPConfigured,
            ComparePasswords, ValidateToken, PGAuth.AddAttempts, SessionRepository.Create,
            NewUserAuthToken, h0, h1, h2, h3, h4, h5, h6, h7, h10, h11, h12n, h13]
        | none =>
          refine hDone u tok h0 h1 h2 h3 h4 h5 h6 h7 h10 h11 h12 h13 ?_
          simp [application.Login, application.Login.body, NewTransaction, Outcome.notOpened,
            Outcome.finish, queryRow, exec, Tx.record, Rollback, Commit, oops.Err, PGUser.Get,
            PGUser.scan, User.empty, User.HasFlag, User.IsActive, User.IsBlocked, User.OTPConfigured,
            ComparePasswords, ValidateToken, PGAuth.AddAttempts, SessionRepository.Create,
            NewUserAuthToken, h0, h1, h2, h3, h4, h5, h6, h7, h10, h11, h12n, h13]
      ·
        cases h14 : s.validateToken u.otp inp.OTP with
        | some e =>
          refine hOTPInvalid u e h0 h1 h2 h3 h4 h5 h6 h7 h10 h14 ?_
          simp [application.Login, application.Login.body, NewTransaction, Outcome.notOpened,
            Outcome.finish, queryRow, exec, Tx.record, Rollback, Commit, oops.Err, PGUser.Get,
            PGUser.scan, User.empty, User.HasFlag, User.IsActive, User.IsBlocked, User.OTPConfigured,
            ComparePasswords, ValidateToken, PGAuth.AddAttempts, SessionRepository.Create,
            NewUserAuthToken, h0, h1, h2, h3, h4, h5, h6, h7, h10, h14]
        | none =>
        cases h15 : s.fail (.SessionCreate (some u.id) inp.ClientIP inp.UserAgent) with
        | some n =>
          refine hSessionFailOTP u n h0 h1 h2 h3 h4 h5 h6 h7 h10 h14 h15 ?_
          simp [application.Login, application.Login.body, NewTransaction, Outcome.notOpened,
            Outcome.finish, queryRow, exec, Tx.record, Rollback, Commit, oops.Err, PGUser.Get,
            PGUser.scan, User.empty, User.HasFlag, User.IsActive, User.IsBlocked, User.OTPConfigured,
            ComparePasswords, ValidateToken, PGAuth.AddAttempts, SessionRepository.Create,
            NewUserAuthToken, h0, h1, h2, h3, h4, h5, h6, h7, h10, h14, h15]
        | none =>
        cases h16 : s.sign (PGUser.scan s { User.empty with Email := inp.Email } u)
              (some (s.newID (.SessionCreate (some u.id) inp.ClientIP inp.UserAgent))) with
        | error n =>
          have h16n := h16
          simp only [application.Login, application.Login.body, NewTransaction, Outcome.notOpened,
            Outcome.finish, queryRow, exec, Tx.record, Rollback, Commit, oops.Err, PGUser.Get,
            PGUser.scan, User.empty, User.HasFlag, User.IsActive, User.IsBlocked, User.OTPConfigured,
            ComparePasswords, ValidateToken, PGAuth.AddAttempts, SessionRepository.Create,
            NewUserAuthToken, h0, h1, h2, h3, h4, h5, h6, h7, h10, h14, h15] at h16n
          refine hSignFailOTP u n h0 h1 h2 h3 h4 h5 h6 h7 h10 h14 h15 h16 ?_
          simp [application.Login, application.Login.body, NewTransaction, Outcome.notOpened,
            Outcome.finish, queryRow, exec, Tx.record, Rollback, Commit, oops.Err, PGUser.Get,
            PGUser.scan, User.empty, User.HasFlag, User.IsActive, User.IsBlocked, User.OTPConfigured,
            ComparePasswords, ValidateToken, PGAuth.AddAttempts, SessionRepository.Create,
            NewUserAuthToken, h0, h1, h2, h3, h4, h5, h6, h7, h10, h14, h15, h16n]
        | ok tok =>
        have h16n := h16
        simp only [application.Login, application.Login.body, NewTransaction, Outcome.notOpened,
          Outcome.finish, queryRow, exec, Tx.record, Rollback, Commit, oops.Err, PGUser.Get, PGUser.scan,
          User.empty, User.HasFlag, User.IsActive, User.IsBlocked, User.OTPConfigured, ComparePasswords,
          ValidateToken, PGAuth.AddAttempts, SessionRepository.Create, NewUserAuthToken, h0, h1, h2, h3,
          h4, h5, h6, h7, h10, h14, h15] at h16n
        cases h17 : s.fail .Commit with
        | some n =>
          refine hCommitFailOTP u tok n h0 h1 h2 h3 h4 h5 h6 h7 h10 h14 h15 h16 h17 ?_
          simp [application.Login, application.Login.body, NewTransaction, Outcome.notOpened,
            Outcome.finish, queryRow, exec, Tx.record, Rollback, Commit, oops.Err, PGUser.Get,
            PGUser.scan, User.empty, User.HasFlag, User.IsActive, User.IsBlocked, User.OTPConfigured,
            ComparePasswords, ValidateToken, PGAuth.AddAttempts, SessionRepository.Create,
            NewUserAuthToken, h0, h1, h2, h3, h4, h5, h6, h7, h10, h14, h15, h16n, h17]
        | none =>
          refine hDoneOTP u tok h0 h1 h2 h3 h4 h5 h6 h7 h10 h14 h15 h16 h17 ?_
          simp [application.Login, application.Login.body, NewTransaction, Outcome.notOpened,
            Outcome.finish, queryRow, exec, Tx.record, Rollback, Commit, oops.Err, PGUser.Get,
            PGUser.scan, User.empty, User.HasFlag, User.IsActive, User.IsBlocked, User.OTPConfigured,
            ComparePasswords, ValidateToken, PGAuth.AddAttempts, SessionRepository.Create,
            NewUserAuthToken, h0, h1, h2, h3, h4, h5, h6, h7, h10, h14, h15, h16n, h17]

/-- Symbolic execution of `internal.Activation`: a run follows one of fourteen paths, fixed
by the injected failures and the rows found. -/
theorem internal_Activation_paths (s : Sys) (token : Option UUID) {P : Prop}
    (hOpen : ∀ n,
      s.fail .NewTransaction = some n →
      internal.Activation s token =
        ⟨.error (.other n), s.db,
        [⟨.NewTransaction, some (.other n)⟩]⟩ → P)
    (hTokenFail : ∀ n,
      s.fail .NewTransaction = none →
      s.fail (.GetActivateAccountToken token) = some n →
      internal.Activation s token =
        ⟨.error (.other n), s.db,
        [⟨.NewTransaction, none⟩, ⟨.GetActivateAccountToken token, some (.other n)⟩,
          ⟨.Rollback, none⟩]⟩ → P)
    (hTokenMiss :
      s.fail .NewTransaction = none →
      s.fail (.GetActivateAccountToken token) = none →
      s.db.tokens.find? (fun r => token == some r.id) = none →
      internal.Activation s token =
        ⟨.error .errNoRows, s.db,
        [⟨.NewTransaction, none⟩, ⟨.GetActivateAccountToken token, some .errNoRows⟩,
          ⟨.Rollback, none⟩]⟩ → P)
    (hUsed : ∀ r,
      s.fail .NewTransaction = none →
      s.fail (.GetActivateAccountToken token) = none →
      s.db.tokens.find? (fun r => token == some r.id) = some r →
      r.used = true →
      internal.Activation s token =
        ⟨.error ErrTokenIsNotValid, s.db,
        [⟨.NewTransaction, none⟩, ⟨.GetActivateAccountToken token, none⟩, ⟨.Rollback, none⟩]⟩ → P)
    (hExpired : ∀ r,
      s.fail .NewTransaction = none →
      s.fail (.GetActivateAccountToken token) = none →
      s.db.tokens.find? (fun r => token == some r.id) = some r →
      r.used = false →
      ¬ (s.now ≤ r.expires_at) →
      internal.Activation s token =
        ⟨.error ErrTokenIsNotValid, s.db,
        [⟨.NewTransaction, none⟩, ⟨.GetActivateAccountToken token, none⟩, ⟨.Rollback, none⟩]⟩ → P)
    (hUserFail : ∀ r n,
      s.fail .NewTransaction = none →
      s.fail (.GetActivateAccountToken token) = none →
      s.db.tokens.find? (fun r => token == some r.id) = some r →
      r.used = false →
      s.now ≤ r.expires_at →
      s.fail (.GetUser r.user_id none) = some n →
      internal.Activation s token =
        ⟨.error (.other n), s.db,
        [⟨.NewTransaction, none⟩, ⟨.GetActivateAccountToken token, none⟩,
          ⟨.GetUser r.user_id none, some (.other n)⟩, ⟨.Rollback, none⟩]⟩ → P)
    (hUserMiss : ∀ r,
      s.fail .NewTransaction = none →
      s.fail (.GetActivateAccountToken token) = none →
      s.db.tokens.find? (fun r => token == some r.id) = some r →
      r.used = false →
      s.now ≤ r.expires_at →
      s.fail (.GetUser r.user_id none) = none →
      s.db.users.find? (internal.repoUser.cond r.user_id none) = none →
      internal.Activation s token =
        ⟨.error .errNoRows, s.db,
        [⟨.NewTransaction, none⟩, ⟨.GetActivateAccountToken token, none⟩,
          ⟨.GetUser r.user_id none, some .errNoRows⟩, ⟨.Rollback, none⟩]⟩ → P)
    (hNoRole : ∀ r u,
      s.fail .NewTransaction = none →
      s.fail (.GetActivateAccountToken token) = none →
      s.db.tokens.find? (fun r => token == some r.id) = some r →
      r.used = false →
      s.now ≤ r.expires_at →
      s.fail (.GetUser r.user_id none) = none →
      s.db.users.find? (internal.repoUser.cond r.user_id none) = some u →
      ¬ (Role.ReadActivationToken ∈ u.roles) →
      internal.Activation s token =
        ⟨.error ErrNotHavePermissionActiveAccount, s.db,
        [⟨.NewTransaction, none⟩, ⟨.GetActivateAccountToken token, none⟩,
          ⟨.GetUser r.user_id none, none⟩, ⟨.Rollback, none⟩]⟩ → P)
    (hRemoveFail : ∀ r u n,
      s.fail .NewTransaction = none →
      s.fail (.GetActivateAccountToken token) = none →
      s.db.tokens.find? (fun r => token == some r.id) = some r →
      r.used = false →
      s.now ≤ r.expires_at →
      s.fail (.GetUser r.user_id none) = none →
      s.db.users.find? (internal.repoUser.cond r.user_id none) = some u →
      Role.ReadActivationToken ∈ u.roles →
      s.fail (.RemoveRoles (some u.id) [.ReadActivationToken]) = some n →
      internal.Activation s token =
        ⟨.error (.other n), s.db,
        [⟨.NewTransaction, none⟩, ⟨.GetActivateAccountToken token, none⟩,
          ⟨.GetUser r.user_id none, none⟩,
          ⟨.RemoveRoles (some u.id) [.ReadActivationToken], some (.other n)⟩, ⟨.Rollback, none⟩]⟩ → P)
    (hAddFail : ∀ r u n,
      s.fail .NewTransaction = none →
      s.fail (.GetActivateAccountToken token) = none →
      s.db.tokens.find? (fun r => token == some r.id) = some r →
      r.used = false →
      s.now ≤ r.expires_at →
      s.fail (.GetUser r.user_id none) = none →
      s.db.users.find? (internal.repoUser.cond r.user_id none) = some u →
      Role.ReadActivationToken ∈ u.roles →
      s.fail (.RemoveRoles (some u.id) [.ReadActivationToken]) = none →
      s.fail (.AddRoles (some u.id) internal.rolesSession) = some n →
      internal.Activation s token =
        ⟨.error (.other n), s.db,
        [⟨.NewTransaction, none⟩, ⟨.GetActivateAccountToken token, none⟩,
          ⟨.GetUser r.user_id none, none⟩, ⟨.RemoveRoles (some u.id) [.ReadActivationToken], none⟩,
          ⟨.AddRoles (some u.id) internal.rolesSession, some (.other n)⟩, ⟨.Rollback, none⟩]⟩ → P)
    (hMarkFail : ∀ r u n,
      s.fail .NewTransaction = none →
      s.fail (.GetActivateAccountToken token) = none →
      s.db.tokens.find? (fun r => token == some r.id) = some r →
      r.used = false →
      s.now ≤ r.expires_at →
      s.fail (.GetUser r.user_id none) = none →
      s.db.users.find? (internal.repoUser.cond r.user_id none) = some u →
      Role.ReadActivationToken ∈ u.roles →
      s.fail (.RemoveRoles (some u.id) [.ReadActivationToken]) = none →
      s.fail (.AddRoles (some u.id) internal.rolesSession) = none →
      s.fail (.MarkTokenAsUsed (some r.id)) = some n →
      internal.Activation s token =
        ⟨.error (.other n), s.db,
        [⟨.NewTransaction, none⟩, ⟨.GetActivateAccountToken token, none⟩,
          ⟨.GetUser r.user_id none, none⟩, ⟨.RemoveRoles (some u.id) [.ReadActivationToken], none⟩,
          ⟨.AddRoles (some u.id) internal.rolesSession, none⟩,
          ⟨.MarkTokenAsUsed (some r.id), some (.other n)⟩, ⟨.Rollback, none⟩]⟩ → P)
    (hCommitFail : ∀ r u n,
      s.fail .NewTransaction = none →
      s.fail (.GetActivateAccountToken token) = none →
      s.db.tokens.find? (fun r => token == some r.id) = some r →
      r.used = false →
      s.now ≤ r.expires_at →
      s.fail (.GetUser r.user_id none) = none →
      s.db.users.find? (internal.repoUser.cond r.user_id none) = some u →
      Role.ReadActivationToken ∈ u.roles →
      s.fail (.RemoveRoles (some u.id) [.ReadActivationToken]) = none →
      s.fail (.AddRoles (some u.id) internal.rolesSession) = none →
      s.fail (.MarkTokenAsUsed (some r.id)) = none →
      s.fail .Commit = some n →
      internal.Activation s token =
        ⟨.error (.other n), s.db,
        [⟨.NewTransaction, none⟩, ⟨.GetActivateAccountToken token, none⟩,
          ⟨.GetUser r.user_id none, none⟩, ⟨.RemoveRoles (some u.id) [.ReadActivationToken], none⟩,
          ⟨.AddRoles (some u.id) internal.rolesSession, none⟩, ⟨.MarkTokenAsUsed (some r.id), none⟩,
          ⟨.Commit, some (.other n)⟩, ⟨.Rollback, none⟩]⟩ → P)
    (hDone : ∀ r u,
      s.fail .NewTransaction = none →
      s.fail (.GetActivateAccountToken token) = none →
      s.db.tokens.find? (fun r => token == some r.id) = some r →
      r.used = false →
      s.now ≤ r.expires_at →
      s.fail (.GetUser r.user_id none) = none →
      s.db.users.find? (internal.repoUser.cond r.user_id none) = some u →
      Role.ReadActivationToken ∈ u.roles →
      s.fail (.RemoveRoles (some u.id) [.ReadActivationToken]) = none →
      s.fail (.AddRoles (some u.id) internal.rolesSession) = none →
      s.fail (.MarkTokenAsUsed (some r.id)) = none →
      s.fail .Commit = none →
      internal.Activation s token =
        ⟨.ok (),
        markUsed (some r.id) (internal.addRoles (some u.id) internal.rolesSession
          (internal.removeRoles (some u.id) [.ReadActivationToken] s.db)),
        [⟨.NewTransaction, none⟩, ⟨.GetActivateAccountToken token, none⟩,
          ⟨.GetUser r.user_id none, none⟩, ⟨.RemoveRoles (some u.id) [.ReadActivationToken], none⟩,
          ⟨.AddRoles (some u.id) internal.rolesSession, none⟩, ⟨.MarkTokenAsUsed (some r.id), none⟩,
          ⟨.Commit, none⟩, ⟨.Rollback, none⟩]⟩ → P) :
    P := by
  cases h0 : s.fail .NewTransaction with
  | some n =>
    refine hOpen n h0 ?_
    simp [internal.Activation, internal.Activation.body, NewTransaction, Outcome.notOpened,
      Outcome.finish, internal.repo.GetActivateAccountToken, queryRow, exec, Tx.record, Rollback,
      Commit, oops.Err, internal.repoUser.GetUser, internal.repoUser.scan,
      internal.LegacyUser.empty, internal.roles.Exists, internal.repoRoles.RemoveRoles,
      internal.repoRoles.AddRoles, internal.repo.MarkTokenAsUsed, h0]
  | none =>
  cases h1 : s.fail (.GetActivateAccountToken token) with
  | some n =>
    refine hTokenFail n h0 h1 ?_
    simp [internal.Activation, internal.Activation.body, NewTransaction, Outcome.notOpened,
      Outcome.finish, internal.repo.GetActivateAccountToken, queryRow, exec, Tx.record, Rollback,
      Commit, oops.Err, internal.repoUser.GetUser, internal.repoUser.scan,
      internal.LegacyUser.empty, internal.roles.Exists, internal.repoRoles.RemoveRoles,
      internal.repoRoles.AddRoles, internal.repo.MarkTokenAsUsed, h0, h1]
  | none =>
  cases h2 : s.db.tokens.find? (fun r => token == some r.id) with
  | none =>
    refine hTokenMiss h0 h1 h2 ?_
    simp [internal.Activation, internal.Activation.body, NewTransaction, Outcome.notOpened,
      Outcome.finish, internal.repo.GetActivateAccountToken, queryRow, exec, Tx.record, Rollback,
      Commit, oops.Err, internal.repoUser.GetUser, internal.repoUser.scan,
      internal.LegacyUser.empty, internal.roles.Exists, internal.repoRoles.RemoveRoles,
      internal.repoRoles.AddRoles, internal.repo.MarkTokenAsUsed, h0, h1, h2]
  | some r =>
  cases h3 : r.used with
  | true =>
    refine hUsed r h0 h1 h2 h3 ?_
    simp [internal.Activation, internal.Activation.body, NewTransaction, Outcome.notOpened,
      Outcome.finish, internal.repo.GetActivateAccountToken, queryRow, exec, Tx.record, Rollback,
      Commit, oops.Err, internal.repoUser.GetUser, internal.repoUser.scan,
      internal.LegacyUser.empty, internal.roles.Exists, internal.repoRoles.RemoveRoles,
      internal.repoRoles.AddRoles, internal.repo.MarkTokenAsUsed, h0, h1, h2, h3]
  | false =>
  by_cases h4 : s.now ≤ r.expires_at
  swap
  ·
      refine hExpired r h0 h1 h2 h3 h4 ?_
      simp [internal.Activation, internal.Activation.body, NewTransaction, Outcome.notOpened,
        Outcome.finish, internal.repo.GetActivateAccountToken, queryRow, exec, Tx.record, Rollback,
        Commit, oops.Err, internal.repoUser.GetUser, internal.repoUser.scan,
        internal.LegacyUser.empty, internal.roles.Exists, internal.repoRoles.RemoveRoles,
        internal.repoRoles.AddRoles, internal.repo.MarkTokenAsUsed, h0, h1, h2, h3, h4]
  ·
    cases h5 : s.fail (.GetUser r.user_id none) with
    | some n =>
      refine hUserFail r n h0 h1 h2 h3 h4 h5 ?_
      simp [internal.Activation, internal.Activation.body, NewTransaction, Outcome.notOpened,
        Outcome.finish, internal.repo.GetActivateAccountToken, queryRow, exec, Tx.record, Rollback,
        Commit, oops.Err, internal.repoUser.GetUser, internal.repoUser.scan,
        internal.LegacyUser.empty, internal.roles.Exists, internal.repoRoles.RemoveRoles,
        internal.repoRoles.AddRoles, internal.repo.MarkTokenAsUsed, h0, h1, h2, h3, h4, h5]
    | none =>
    cases h6 : s.db.users.find? (internal.repoUser.cond r.user_id none) with
    | none =>
      refine hUserMiss r h0 h1 h2 h3 h4 h5 h6 ?_
      simp [internal.Activation, internal.Activation.body, NewTransaction, Outcome.notOpened,
        Outcome.finish, internal.repo.GetActivateAccountToken, queryRow, exec, Tx.record, Rollback,
        Commit, oops.Err, internal.repoUser.GetUser, internal.repoUser.scan,
        internal.LegacyUser.empty, internal.roles.Exists, internal.repoRoles.RemoveRoles,
        internal.repoRoles.AddRoles, internal.repo.MarkTokenAsUsed, h0, h1, h2, h3, h4, h5, h6]
    | some u =>
    by_cases h7 : Role.ReadActivationToken ∈ u.roles
    swap
    ·
        refine hNoRole r u h0 h1 h2 h3 h4 h5 h6 h7 ?_
        simp [internal.Activation, internal.Activation.body, NewTransaction, Outcome.notOpened,
          Outcome.finish, internal.repo.GetActivateAccountToken, queryRow, exec, Tx.record, Rollback,
          Commit, oops.Err, internal.repoUser.GetUser, internal.repoUser.scan,
          internal.LegacyUser.empty, internal.roles.Exists, internal.repoRoles.RemoveRoles,
          internal.repoRoles.AddRoles, internal.repo.MarkTokenAsUsed, h0, h1, h2, h3, h4, h5, h6, h7]
    ·
      cases h8 : s.fail (.RemoveRoles (some u.id) [.ReadActivationToken]) with
      | some n =>
        refine hRemoveFail r u n h0 h1 h2 h3 h4 h5 h6 h7 h8 ?_
        simp [internal.Activation, internal.Activation.body, NewTransaction, Outcome.notOpened,
          Outcome.finish, internal.repo.GetActivateAccountToken, queryRow, exec, Tx.record, Rollback,
          Commit, oops.Err, internal.repoUser.GetUser, internal.repoUser.scan,
          internal.LegacyUser.empty, internal.roles.Exists, internal.repoRoles.RemoveRoles,
          internal.repoRoles.AddRoles, internal.repo.MarkTokenAsUsed, h0, h1, h2, h3, h4, h5, h6, h7,
          h8]
      | none =>
      cases h9 : s.fail (.AddRoles (some u.id) internal.rolesSession) with
      | some n =>
        refine hAddFail r u n h0 h1 h2 h3 h4 h5 h6 h7 h8 h9 ?_
        simp [internal.Activation, internal.Activation.body, NewTransaction, Outcome.notOpened,
          Outcome.finish, internal.repo.GetActivateAccountToken, queryRow, exec, Tx.record, Rollback,
          Commit, oops.Err, internal.repoUser.GetUser, internal.repoUser.scan,
          internal.LegacyUser.empty, internal.roles.Exists, internal.repoRoles.RemoveRoles,
          internal.repoRoles.AddRoles, internal.repo.MarkTokenAsUsed, h0, h1, h2, h3, h4, h5, h6, h7,
          h8, h9]
      | none =>
      cases h10 : s.fail (.MarkTokenAsUsed (some r.id)) with
      | some n =>
        refine hMarkFail r u n h0 h1 h2 h3 h4 h5 h6 h7 h8 h9 h10 ?_
        simp [internal.Activation, internal.Activation.body, NewTransaction, Outcome.notOpened,
          Outcome.finish, internal.repo.GetActivateAccountToken, queryRow, exec, Tx.record, Rollback,
          Commit, oops.Err, internal.repoUser.GetUser, internal.repoUser.scan,
          internal.LegacyUser.empty, internal.roles.Exists, internal.repoRoles.RemoveRoles,
          internal.repoRoles.AddRoles, internal.repo.MarkTokenAsUsed, h0, h1, h2, h3, h4, h5, h6, h7,
          h8, h9, h10]
      | none =>
      cases h11 : s.fail .Commit with
      | some n =>
        refine hCommitFail r u n h0 h1 h2 h3 h4 h5 h6 h7 h8 h9 h10 h11 ?_
        simp [internal.Activation, internal.Activation.body, NewTransaction, Outcome.notOpened,
          Outcome.finish, internal.repo.GetActivateAccountToken, queryRow, exec, Tx.record, Rollback,
          Commit, oops.Err, internal.repoUser.GetUser, internal.repoUser.scan,
          internal.LegacyUser.empty, internal.roles.Exists, internal.repoRoles.RemoveRoles,
          internal.repoRoles.AddRoles, internal.repo.MarkTokenAsUsed, h0, h1, h2, h3, h4, h5, h6, h7,
          h8, h9, h10, h11]
      | none =>
        refine hDone r u h0 h1 h2 h3 h4 h5 h6 h7 h8 h9 h10 h11 ?_
        simp [internal.Activation, internal.Activation.body, NewTransaction, Outcome.notOpened,
          Outcome.finish, internal.repo.GetActivateAccountToken, queryRow, exec, Tx.record, Rollback,
          Commit, oops.Err, internal.repoUser.GetUser, internal.repoUser.scan,
          internal.LegacyUser.empty, internal.roles.Exists, internal.repoRoles.RemoveRoles,
          internal.repoRoles.AddRoles, internal.repo.MarkTokenAsUsed, h0, h1, h2, h3, h4, h5, h6, h7,
          h8, h9, h10, h11]

/-- Symbolic execution of `internal.Login`: a run follows one of seventeen paths, fixed by
the injected failures, the row found and the outcomes of the helpers.  `getUser` scans
no column into `IsActive` or `BlockedTemporarily`, so the two guards on them never
fire; with a nil email it loads the first row and `repo.Login` finds none. -/
theorem internal_Login_paths (s : Sys) (inp : internal.LoginRequest) {P : Prop}
    (hOpen : ∀ n,
      s.fail .NewTransaction = some n →
      internal.Login s inp =
        ⟨.error (.other n), s.db,
        [⟨.NewTransaction, some (.other n)⟩]⟩ → P)
    (hNilUserFail : ∀ n,
      s.fail .NewTransaction = none →
      inp.Email = none →
      s.fail (.GetUser none none) = some n →
      internal.Login s inp =
        ⟨.error (.other n), s.db,
        [⟨.NewTransaction, none⟩, ⟨.GetUser none none, some (.other n)⟩, ⟨.Rollback, none⟩]⟩ → P)
    (hNilUserMiss :
      s.fail .NewTransaction = none →
      inp.Email = none →
      s.fail (.GetUser none none) = none →
      s.db.users.find? (internal.repoUser.cond none none) = none →
      internal.Login s inp =
        ⟨.error .errNoRows, s.db,
        [⟨.NewTransaction, none⟩, ⟨.GetUser none none, some .errNoRows⟩, ⟨.Rollback, none⟩]⟩ → P)
    (hNilRepoLoginFail : ∀ u n,
      s.fail .NewTransaction = none →
      inp.Email = none →
      s.fail (.GetUser none none) = none →
      s.db.users.find? (internal.repoUser.cond none none) = some u →
      s.fail (.RepoLogin none) = some n →
      internal.Login s inp =
        ⟨.error ErrUserNotExists, s.db,
        [⟨.NewTransaction, none⟩, ⟨.GetUser none none, none⟩, ⟨.RepoLogin none, some (.other n)⟩,
          ⟨.Rollback, none⟩]⟩ → P)
    (hNilRepoLoginMiss : ∀ u,
      s.fail .NewTransaction = none →
      inp.Email = none →
      s.fail (.GetUser none none) = none →
      s.db.users.find? (internal.repoUser.cond none none) = some u →
      s.fail (.RepoLogin none) = none →
      internal.Login s inp =
        ⟨.error ErrUserNotExists, s.db,
        [⟨.NewTransaction, none⟩, ⟨.GetUser none none, none⟩, ⟨.RepoLogin none, some .errNoRows⟩,
          ⟨.Rollback, none⟩]⟩ → P)
    (hUserFail : ∀ e n,
      s.fail .NewTransaction = none →
      inp.Email = some e →
      s.fail (.GetUser none (some e)) = some n →
      internal.Login s inp =
        ⟨.error (.other n), s.db,
        [⟨.NewTransaction, none⟩, ⟨.GetUser none (some e), some (.other n)⟩, ⟨.Rollback, none⟩]⟩ → P)
    (hUserMiss : ∀ e,
      s.fail .NewTransaction = none →
      inp.Email = some e →
      s.fail (.GetUser none (some e)) = none →
      s.db.users.find? (internal.repoUser.cond none (some e)) = none →
      internal.Login s inp =
        ⟨.error .errNoRows, s.db,
        [⟨.NewTransaction, none⟩, ⟨.GetUser none (some e), some .errNoRows⟩, ⟨.Rollback, none⟩]⟩ → P)
    (hRepoLoginFail : ∀ e u n,
      s.fail .NewTransaction = none →
      inp.Email = some e →
      s.fail (.GetUser none (some e)) = none →
      s.db.users.find? (internal.repoUser.cond none (some e)) = some u →
      s.fail (.RepoLogin (some e)) = some n →
      internal.Login s inp =
        ⟨.error ErrUserNotExists, s.db,
        [⟨.NewTransaction, none⟩, ⟨.GetUser none (some e), none⟩,
          ⟨.RepoLogin (some e), some (.other n)⟩, ⟨.Rollback, none⟩]⟩ → P)
    (hAttemptFail : ∀ e u err n,
      s.fail .NewTransaction = none →
      inp.Email = some e →
      s.fail (.GetUser none (some e)) = none →
      s.db.users.find? (internal.repoUser.cond none (some e)) = some u →
      s.fail (.RepoLogin (some e)) = none →
      s.comparePasswords inp.Password (some u.password) (some u.key) = some err →
      s.fail (.AddNumberFailedAttempts (some u.id)) = some n →
      internal.Login s inp =
        ⟨.error (.other n), s.db,
        [⟨.NewTransaction, none⟩, ⟨.GetUser none (some e), none⟩, ⟨.RepoLogin (some e), none⟩,
          ⟨.ComparePasswords inp.Password, some err⟩,
          ⟨.AddNumberFailedAttempts (some u.id), some (.other n)⟩, ⟨.Rollback, none⟩]⟩ → P)
    (hAttemptCommitFail : ∀ e u err n,
      s.fail .NewTransaction = none →
      inp.Email = some e →
      s.fail (.GetUser none (some e)) = none →
      s.db.users.find? (internal.repoUser.cond none (some e)) = some u →
      s.fail (.RepoLogin (some e)) = none →
      s.comparePasswords inp.Password (some u.password) (some u.key) = some err →
      s.fail (.AddNumberFailedAttempts (some u.id)) = none →
      s.fail .Commit = some n →
      internal.Login s inp =
        ⟨.error (.other n), s.db,
        [⟨.NewTransaction, none⟩, ⟨.GetUser none (some e), none⟩, ⟨.RepoLogin (some e), none⟩,
          ⟨.ComparePasswords inp.Password, some err⟩, ⟨.AddNumberFailedAttempts (some u.id), none⟩,
          ⟨.Commit, some (.other n)⟩, ⟨.Rollback, none⟩]⟩ → P)
    (hMismatch : ∀ e u err,
      s.fail .NewTransaction = none →
      inp.Email = some e →
      s.fail (.GetUser none (some e)) = none →
      s.db.users.find? (internal.repoUser.cond none (some e)) = some u →
      s.fail (.RepoLogin (some e)) = none →
      s.comparePasswords inp.Password (some u.password) (some u.key) = some err →
      s.fail (.AddNumberFailedAttempts (some u.id)) = none →
      s.fail .Commit = none →
      internal.Login s inp =
        ⟨.error err, addAttempt s.now (some u.id) s.db,
        [⟨.NewTransaction, none⟩, ⟨.GetUser none (some e), none⟩, ⟨.RepoLogin (some e), none⟩,
          ⟨.ComparePasswords inp.Password, some err⟩, ⟨.AddNumberFailedAttempts (some u.id), none⟩,
          ⟨.Commit, none⟩, ⟨.Rollback, none⟩]⟩ → P)
    (hNoRole : ∀ e u,
      s.fail .NewTransaction = none →
      inp.Email = some e →
      s.fail (.GetUser none (some e)) = none →
      s.db.users.find? (internal.repoUser.cond none (some e)) = some u →
      s.fail (.RepoLogin (some e)) = none →
      s.comparePasswords inp.Password (some u.password) (some u.key) = none →
      ¬ (Role.CreateSession ∈ u.roles) →
      internal.Login s inp =
        ⟨.error ErrNotHavePermissionLogin, s.db,
        [⟨.NewTransaction, none⟩, ⟨.GetUser none (some e), none⟩, ⟨.RepoLogin (some e), none⟩,
          ⟨.ComparePasswords inp.Password, none⟩, ⟨.Rollback, none⟩]⟩ → P)
    (hSessionFail : ∀ e u n,
      s.fail .NewTransaction = none →
      inp.Email = some e →
      s.fail (.GetUser none (some e)) = none →
      s.db.users.find? (internal.repoUser.cond none (some e)) = some u →
      s.fail (.RepoLogin (some e)) = none →
      s.comparePasswords inp.Password (some u.password) (some u.key) = none →
      Role.CreateSession ∈ u.roles →
      s.fail (.SessionCreate (some u.id) (some inp.ClientIP) (some inp.UserAgent)) = some n →
      internal.Login s inp =
        ⟨.error (.other n), s.db,
        [⟨.NewTransaction, none⟩, ⟨.GetUser none (some e), none⟩, ⟨.RepoLogin (some e), none⟩,
          ⟨.ComparePasswords inp.Password, none⟩,
          ⟨.SessionCreate (some u.id) (some inp.ClientIP) (some inp.UserAgent), some (.other n)⟩,
          ⟨.Rollback, none⟩]⟩ → P)
    (hSignFail : ∀ e u n,
      s.fail .NewTransaction = none →
      inp.Email = some e →
      s.fail (.GetUser none (some e)) = none →
      s.db.users.find? (internal.repoUser.cond none (some e)) = some u →
      s.fail (.RepoLogin (some e)) = none →
      s.comparePasswords inp.Password (some u.password) (some u.key) = none →
      Role.CreateSession ∈ u.roles →
      s.fail (.SessionCreate (some u.id) (some inp.ClientIP) (some inp.UserAgent)) = none →
      s.signLegacy (internal.repoUser.scan s { internal.LegacyUser.empty with Email := some e } u)
        (some (s.newID (.SessionCreate (some u.id) (some inp.ClientIP) (some inp.UserAgent)))) = .error n →
      internal.Login s inp =
        ⟨.error (.other n), s.db,
        [⟨.NewTransaction, none⟩, ⟨.GetUser none (some e), none⟩, ⟨.RepoLogin (some e), none⟩,
          ⟨.ComparePasswords inp.Password, none⟩,
          ⟨.SessionCreate (some u.id) (some inp.ClientIP) (some inp.UserAgent), none⟩,
          ⟨.NewUserAuthToken (some u.id) (some (s.newID (.SessionCreate (some u.id) (some inp.ClientIP) (some inp.UserAgent)))), some (.other n)⟩,
          ⟨.Rollback, none⟩]⟩ → P)
    (hCommitFail : ∀ e u tok n,
      s.fail .NewTransaction = none →
      inp.Email = some e →
      s.fail (.GetUser none (some e)) = none →
      s.db.users.find? (internal.repoUser.cond none (some e)) = some u →
      s.fail (.RepoLogin (some e)) = none →
      s.comparePasswords inp.Password (some u.password) (some u.key) = none →
      Role.CreateSession ∈ u.roles →
      s.fail (.SessionCreate (some u.id) (some inp.ClientIP) (some inp.UserAgent)) = none →
      s.signLegacy (internal.repoUser.scan s { internal.LegacyUser.empty with Email := some e } u)
        (some (s.newID (.SessionCreate (some u.id) (some inp.ClientIP) (some inp.UserAgent)))) = .ok tok →
      s.fail .Commit = some n →
      internal.Login s inp =
        ⟨.error (.other n), s.db,
        [⟨.NewTransaction, none⟩, ⟨.GetUser none (some e), none⟩, ⟨.RepoLogin (some e), none⟩,
          ⟨.ComparePasswords inp.Password, none⟩,
          ⟨.SessionCreate (some u.id) (some inp.ClientIP) (some inp.UserAgent), none⟩,
          ⟨.NewUserAuthToken (some u.id) (some (s.newID (.SessionCreate (some u.id) (some inp.ClientIP) (some inp.UserAgent)))), none⟩,
          ⟨.Commit, some (.other n)⟩, ⟨.Rollback, none⟩]⟩ → P)
    (hDone : ∀ e u tok,
      s.fail .NewTransaction = none →
      inp.Email = some e →
      s.fail (.GetUser none (some e)) = none →
      s.db.users.find? (internal.repoUser.cond none (some e)) = some u →
      s.fail (.RepoLogin (some e)) = none →
      s.comparePasswords inp.Password (some u.password) (some u.key) = none →
      Role.CreateSession ∈ u.roles →
      s.fail (.SessionCreate (some u.id) (some inp.ClientIP) (some inp.UserAgent)) = none →
      s.signLegacy (internal.repoUser.scan s { internal.LegacyUser.empty with Email := some e } u)
        (some (s.newID (.SessionCreate (some u.id) (some inp.ClientIP) (some inp.UserAgent)))) = .ok tok →
      s.fail .Commit = none →
      internal.Login s inp =
        ⟨.ok
          { SessionID := some (s.newID (.SessionCreate (some u.id) (some inp.ClientIP) (some inp.UserAgent))),
            Level := none, UserID := some u.id, Email := some u.email,
            FirstName := some u.first_name, LastName := some u.last_name,
            Roles := u.roles, About := u.about, AvatarURL := u.avatar,
            PhoneNumber := u.phone_number, CreatedAt := some u.created_at,
            Token := some tok, RawData := [] },
        { s.db with
          sessions := s.db.sessions ++
            [{ id := s.newID (.SessionCreate (some u.id) (some inp.ClientIP) (some inp.UserAgent)),
               user_id := some u.id, client_ip := some inp.ClientIP,
               user_agent := some inp.UserAgent, created_at := s.now }] },
        [⟨.NewTransaction, none⟩, ⟨.GetUser none (some e), none⟩, ⟨.RepoLogin (some e), none⟩,
          ⟨.ComparePasswords inp.Password, none⟩,
          ⟨.SessionCreate (some u.id) (some inp.ClientIP) (some inp.UserAgent), none⟩,
          ⟨.NewUserAuthToken (some u.id) (some (s.newID (.SessionCreate (some u.id) (some inp.ClientIP) (some inp.UserAgent)))), none⟩,
          ⟨.Commit, none⟩, ⟨.Rollback, none⟩]⟩ → P) :
    P := by
  cases h0 : s.fail .NewTransaction with
  | some n =>
    refine hOpen n h0 ?_
    simp [internal.Login, internal.Login.body, NewTransaction, Outcome.notOpened, Outcome.finish,
      queryRow, exec, Tx.record, Rollback, Commit, oops.Err, internal.repoUser.GetUser,
      internal.repoUser.scan, internal.LegacyUser.empty, internal.roles.Exists, internal.repo.Login,
      ComparePasswords, internal.repo.AddNumberFailedAttempts, internal.repoSession.Create,
      SessionRepository.Create, internal.NewUserAuthToken, h0]
  | none =>
  cases h1 : inp.Email with
  | none =>
    (
      cases h2 : s.fail (.GetUser none none) with
      | some n =>
        refine hNilUserFail n h0 h1 h2 ?_
        simp [internal.Login, internal.Login.body, NewTransaction, Outcome.notOpened, Outcome.finish,
          queryRow, exec, Tx.record, Rollback, Commit, oops.Err, internal.repoUser.GetUser,
          internal.repoUser.scan, internal.LegacyUser.empty, internal.roles.Exists, internal.repo.Login,
          ComparePasswords, internal.repo.AddNumberFailedAttempts, internal.repoSession.Create,
          SessionRepository.Create, internal.NewUserAuthToken, h0, h1, h2]
      | none =>
      cases h3 : s.db.users.find? (internal.repoUser.cond none none) with
      | none =>
        refine hNilUserMiss h0 h1 h2 h3 ?_
        simp [internal.Login, internal.Login.body, NewTransaction, Outcome.notOpened, Outcome.finish,
          queryRow, exec, Tx.record, Rollback, Commit, oops.Err, internal.repoUser.GetUser,
          internal.repoUser.scan, internal.LegacyUser.empty, internal.roles.Exists, internal.repo.Login,
          ComparePasswords, internal.repo.AddNumberFailedAttempts, internal.repoSession.Create,
          SessionRepository.Create, internal.NewUserAuthToken, h0, h1, h2, h3]
      | some u =>
      cases h4 : s.fail (.RepoLogin none) with
      | some n =>
        refine hNilRepoLoginFail u n h0 h1 h2 h3 h4 ?_
        simp [internal.Login, internal.Login.body, NewTransaction, Outcome.notOpened, Outcome.finish,
          queryRow, exec, Tx.record, Rollback, Commit, oops.Err, internal.repoUser.GetUser,
          internal.repoUser.scan, internal.LegacyUser.empty, internal.roles.Exists, internal.repo.Login,
          ComparePasswords, internal.repo.AddNumberFailedAttempts, internal.repoSession.Create,
          SessionRepository.Create, internal.NewUserAuthToken, h0, h1, h2, h3, h4]
      | none =>
        refine hNilRepoLoginMiss u h0 h1 h2 h3 h4 ?_
        simp [internal.Login, internal.Login.body, NewTransaction, Outcome.notOpened, Outcome.finish,
          queryRow, exec, Tx.record, Rollback, Commit, oops.Err, internal.repoUser.GetUser,
          internal.repoUser.scan, internal.LegacyUser.empty, internal.roles.Exists, internal.repo.Login,
          ComparePasswords, internal.repo.AddNumberFailedAttempts, internal.repoSession.Create,
          SessionRepository.Create, internal.NewUserAuthToken, h0, h1, h2, h3, h4]
    )
  | some e =>
  cases h5 : s.fail (.GetUser none (some e)) with
  | some n =>
    refine hUserFail e n h0 h1 h5 ?_
    simp [internal.Login, internal.Login.body, NewTransaction, Outcome.notOpened, Outcome.finish,
      queryRow, exec, Tx.record, Rollback, Commit, oops.Err, internal.repoUser.GetUser,
      internal.repoUser.scan, internal.LegacyUser.empty, internal.roles.Exists, internal.repo.Login,
      ComparePasswords, internal.repo.AddNumberFailedAttempts, internal.repoSession.Create,
      SessionRepository.Create, internal.NewUserAuthToken, h0, h1, h5]
  | none =>
  cases h6 : s.db.users.find? (internal.repoUser.cond none (some e)) with
  | none =>
    refine hUserMiss e h0 h1 h5 h6 ?_
    simp [internal.Login, internal.Login.body, NewTransaction, Outcome.notOpened, Outcome.finish,
      queryRow, exec, Tx.record, Rollback, Commit, oops.Err, internal.repoUser.GetUser,
      internal.repoUser.scan, internal.LegacyUser.empty, internal.roles.Exists, internal.repo.Login,
      ComparePasswords, internal.repo.AddNumberFailedAttempts, internal.repoSession.Create,
      SessionRepository.Create, internal.NewUserAuthToken, h0, h1, h5, h6]
  | some u =>
  cases h7 : s.fail (.RepoLogin (some e)) with
  | some n =>
    refine hRepoLoginFail e u n h0 h1 h5 h6 h7 ?_
    simp [internal.Login, internal.Login.body, NewTransaction, Outcome.notOpened, Outcome.finish,
      queryRow, exec, Tx.record, Rollback, Commit, oops.Err, internal.repoUser.GetUser,
      internal.repoUser.scan, internal.LegacyUser.empty, internal.roles.Exists, internal.repo.Login,
      ComparePasswords, internal.repo.AddNumberFailedAttempts, internal.repoSession.Create,
      SessionRepository.Create, internal.NewUserAuthToken, h0, h1, h5, h6, h7]
  | none =>
  cases h8 : s.comparePasswords inp.Password (some u.password) (some u.key) with
  | some err =>
    (
      cases h9 : s.fail (.AddNumberFailedAttempts (some u.id)) with
      | some n =>
        refine hAttemptFail e u err n h0 h1 h5 h6 h7 h8 h9 ?_
        simp [internal.Login, internal.Login.body, NewTransaction, Outcome.notOpened, Outcome.finish,
          queryRow, exec, Tx.record, Rollback, Commit, oops.Err, internal.repoUser.GetUser,
          internal.repoUser.scan, internal.LegacyUser.empty, internal.roles.Exists, internal.repo.Login,
          ComparePasswords, internal.repo.AddNumberFailedAttempts, internal.repoSession.Create,
          SessionRepository.Create, internal.NewUserAuthToken, h0, h1, h5, h6, h7, h8, h9]
      | none =>
      cases h10 : s.fail .Commit with
      | some n =>
        refine hAttemptCommitFail e u err n h0 h1 h5 h6 h7 h8 h9 h10 ?_
        simp [internal.Login, internal.Login.body, NewTransaction, Outcome.notOpened, Outcome.finish,
          queryRow, exec, Tx.record, Rollback, Commit, oops.Err, internal.repoUser.GetUser,
          internal.repoUser.scan, internal.LegacyUser.empty, internal.roles.Exists, internal.repo.Login,
          ComparePasswords, internal.repo.AddNumberFailedAttempts, internal.repoSession.Create,
          SessionRepository.Create, internal.NewUserAuthToken, h0, h1, h5, h6, h7, h8, h9, h10]
      | none =>
        refine hMismatch e u err h0 h1 h5 h6 h7 h8 h9 h10 ?_
        simp [internal.Login, internal.Login.body, NewTransaction, Outcome.notOpened, Outcome.finish,
          queryRow, exec, Tx.record, Rollback, Commit, oops.Err, internal.repoUser.GetUser,
          internal.repoUser.scan, internal.LegacyUser.empty, internal.roles.Exists, internal.repo.Login,
          ComparePasswords, internal.repo.AddNumberFailedAttempts, internal.repoSession.Create,
          SessionRepository.Create, internal.NewUserAuthToken, h0, h1, h5, h6, h7, h8, h9, h10]
    )
  | none =>
  by_cases h11 : Role.CreateSession ∈ u.roles
  swap
  ·
      refine hNoRole e u h0 h1 h5 h6 h7 h8 h11 ?_
      simp [internal.Login, internal.Login.body, NewTransaction, Outcome.notOpened, Outcome.finish,
        queryRow, exec, Tx.record, Rollback, Commit, oops.Err, internal.repoUser.GetUser,
        internal.repoUser.scan, internal.LegacyUser.empty, internal.roles.Exists, internal.repo.Login,
        ComparePasswords, internal.repo.AddNumberFailedAttempts, internal.repoSession.Create,
        SessionRepository.Create, internal.NewUserAuthToken, h0, h1, h5, h6, h7, h8, h11]
  ·
    cases h12 : s.fail (.SessionCreate (some u.id) (some inp.ClientIP) (some inp.UserAgent)) with
    | some n =>
      refine hSessionFail e u n h0 h1 h5 h6 h7 h8 h11 h12 ?_
      simp [internal.Login, internal.Login.body, NewTransaction, Outcome.notOpened, Outcome.finish,
        queryRow, exec, Tx.record, Rollback, Commit, oops.Err, internal.repoUser.GetUser,
        internal.repoUser.scan, internal.LegacyUser.empty, internal.roles.Exists, internal.repo.Login,
        ComparePasswords, internal.repo.AddNumberFailedAttempts, internal.repoSession.Create,
        SessionRepository.Create, internal.NewUserAuthToken, h0, h1, h5, h6, h7, h8, h11, h12]
    | none =>
    cases h13 : s.signLegacy (internal.repoUser.scan s { internal.LegacyUser.empty with Email := some e } u)
          (some (s.newID (.SessionCreate (some u.id) (some inp.ClientIP) (some inp.UserAgent)))) with
    | error n =>
      have h13n := h13
      simp only [internal.Login, internal.Login.body, NewTransaction, Outcome.notOpened,
        Outcome.finish, queryRow, exec, Tx.record, Rollback, Commit, oops.Err,
        internal.repoUser.GetUser, internal.repoUser.scan, internal.LegacyUser.empty,
        internal.roles.Exists, internal.repo.Login, ComparePasswords,
        internal.repo.AddNumberFailedAttempts, internal.repoSession.Create, SessionRepository.Create,
        internal.NewUserAuthToken, h0, h1, h5, h6, h7, h8, h11, h12] at h13n
      refine hSignFail e u n h0 h1 h5 h6 h7 h8 h11 h12 h13 ?_
      simp [internal.Login, internal.Login.body, NewTransaction, Outcome.notOpened, Outcome.finish,
        queryRow, exec, Tx.record, Rollback, Commit, oops.Err, internal.repoUser.GetUser,
        internal.repoUser.scan, internal.LegacyUser.empty, internal.roles.Exists, internal.repo.Login,
        ComparePasswords, internal.repo.AddNumberFailedAttempts, internal.repoSession.Create,
        SessionRepository.Create, internal.NewUserAuthToken, h0, h1, h5, h6, h7, h8, h11, h12, h13n]
    | ok tok =>
    have h13n := h13
    simp only [internal.Login, internal.Login.body, NewTransaction, Outcome.notOpened, Outcome.finish,
      queryRow, exec, Tx.record, Rollback, Commit, oops.Err, internal.repoUser.GetUser,
      internal.repoUser.scan, internal.LegacyUser.empty, internal.roles.Exists, internal.repo.Login,
      ComparePasswords, internal.repo.AddNumberFailedAttempts, internal.repoSession.Create,
      SessionRepository.Create, internal.NewUserAuthToken, h0, h1, h5, h6, h7, h8, h11, h12] at h13n
    cases h14 : s.fail .Commit with
    | some n =>
      refine hCommitFail e u tok n h0 h1 h5 h6 h7 h8 h11 h12 h13 h14 ?_
      simp [internal.Login, internal.Login.body, NewTransaction, Outcome.notOpened, Outcome.finish,
        queryRow, exec, Tx.record, Rollback, Commit, oops.Err, internal.repoUser.GetUser,
        internal.repoUser.scan, internal.LegacyUser.empty, internal.roles.Exists, internal.repo.Login,
        ComparePasswords, internal.repo.AddNumberFailedAttempts, internal.repoSession.Create,
        SessionRepository.Create, internal.NewUserAuthToken, h0, h1, h5, h6, h7, h8, h11, h12, h13n,
        h14]
    | none =>
      refine hDone e u tok h0 h1 h5 h6 h7 h8 h11 h12 h13 h14 ?_
      simp [internal.Login, internal.Login.body, NewTransaction, Outcome.notOpened, Outcome.finish,
        queryRow, exec, Tx.record, Rollback, Commit, oops.Err, internal.repoUser.GetUser,
        internal.repoUser.scan, internal.LegacyUser.empty, internal.roles.Exists, internal.repo.Login,
        ComparePasswords, internal.repo.AddNumberFailedAttempts, internal.repoSession.Create,
        SessionRepository.Create, internal.NewUserAuthToken, h0, h1, h5, h6, h7, h8, h11, h12, h13n,
        h14]

/-- Symbolic execution of `application.CreateAccount`: a run follows one of ten paths, fixed
by the injected failures, the validation and the rows found. -/
theorem application_CreateAccount_paths (s : Sys) (inp : CreateAccount) {P : Prop}
    (hOpen : ∀ n,
      s.fail .NewTransaction = some n →
      application.CreateAccount s inp =
        ⟨.error (.other n), s.db,
        [⟨.NewTransaction, some (.other n)⟩]⟩ → P)
    (hInvalid : ∀ e,
      s.fail .NewTransaction = none →
      s.prepare inp = .error e →
      application.CreateAccount s inp =
        ⟨.error e, s.db,
        [⟨.NewTransaction, none⟩, ⟨.Prepare, some e⟩, ⟨.Rollback, none⟩]⟩ → P)
    (hExistFail : ∀ inp1 n,
      s.fail .NewTransaction = none →
      s.prepare inp = .ok inp1 →
      s.fail (.Exist inp1.Email) = some n →
      application.CreateAccount s inp =
        ⟨.error (.other n), s.db,
        [⟨.NewTransaction, none⟩, ⟨.Prepare, none⟩, ⟨.Exist inp1.Email, some (.other n)⟩,
          ⟨.Rollback, none⟩]⟩ → P)
    (hExists : ∀ inp1,
      s.fail .NewTransaction = none →
      s.prepare inp = .ok inp1 →
      s.fail (.Exist inp1.Email) = none →
      emailTaken s.db inp1.Email = true →
      application.CreateAccount s inp =
        ⟨.error ErrUserExists, s.db,
        [⟨.NewTransaction, none⟩, ⟨.Prepare, none⟩, ⟨.Exist inp1.Email, none⟩, ⟨.Rollback, none⟩]⟩ → P)
    (hFormatFail : ∀ inp1 n,
      s.fail .NewTransaction = none →
      s.prepare inp = .ok inp1 →
      s.fail (.Exist inp1.Email) = none →
      emailTaken s.db inp1.Email = false →
      s.userRow inp1 = .error n →
      application.CreateAccount s inp =
        ⟨.error (.other n), s.db,
        [⟨.NewTransaction, none⟩, ⟨.Prepare, none⟩, ⟨.Exist inp1.Email, none⟩,
          ⟨.FormatValuesInUp, some (.other n)⟩, ⟨.Rollback, none⟩]⟩ → P)
    (hInsertFail : ∀ inp1 row n,
      s.fail .NewTransaction = none →
      s.prepare inp = .ok inp1 →
      s.fail (.Exist inp1.Email) = none →
      emailTaken s.db inp1.Email = false →
      s.userRow inp1 = .ok row →
      s.fail (.CreateAccount inp1.Email) = some n →
      application.CreateAccount s inp =
        ⟨.error (.other n), s.db,
        [⟨.NewTransaction, none⟩, ⟨.Prepare, none⟩, ⟨.Exist inp1.Email, none⟩,
          ⟨.FormatValuesInUp, none⟩, ⟨.CreateAccount inp1.Email, some (.other n)⟩,
          ⟨.Rollback, none⟩]⟩ → P)
    (hTokenFail : ∀ inp1 row n,
      s.fail .NewTransaction = none →
      s.prepare inp = .ok inp1 →
      s.fail (.Exist inp1.Email) = none →
      emailTaken s.db inp1.Email = false →
      s.userRow inp1 = .ok row →
      s.fail (.CreateAccount inp1.Email) = none →
      s.fail (.CreateAccessToken (some (s.newID (.CreateAccount inp1.Email)))) = some n →
      application.CreateAccount s inp =
        ⟨.error (.other n), s.db,
        [⟨.NewTransaction, none⟩, ⟨.Prepare, none⟩, ⟨.Exist inp1.Email, none⟩,
          ⟨.FormatValuesInUp, none⟩, ⟨.CreateAccount inp1.Email, none⟩,
          ⟨.CreateAccessToken (some (s.newID (.CreateAccount inp1.Email))), some (.other n)⟩,
          ⟨.Rollback, none⟩]⟩ → P)
    (hMailFail : ∀ inp1 row n,
      s.fail .NewTransaction = none →
      s.prepare inp = .ok inp1 →
      s.fail (.Exist inp1.Email) = none →
      emailTaken s.db inp1.Email = false →
      s.userRow inp1 = .ok row →
      s.fail (.CreateAccount inp1.Email) = none →
      s.fail (.CreateAccessToken (some (s.newID (.CreateAccount inp1.Email)))) = none →
      s.fail (.SendMailActivationAccount inp1.Email
          (some (s.newID (.CreateAccessToken (some (s.newID (.CreateAccount inp1.Email))))))) = some n →
      application.CreateAccount s inp =
        ⟨.error (.other n), s.db,
        [⟨.NewTransaction, none⟩, ⟨.Prepare, none⟩, ⟨.Exist inp1.Email, none⟩,
          ⟨.FormatValuesInUp, none⟩, ⟨.CreateAccount inp1.Email, none⟩,
          ⟨.CreateAccessToken (some (s.newID (.CreateAccount inp1.Email))), none⟩,
          ⟨.SendMailActivationAccount inp1.Email
          (some (s.newID (.CreateAccessToken (some (s.newID (.CreateAccount inp1.Email)))))), some (.other n)⟩,
          ⟨.Rollback, none⟩]⟩ → P)
    (hCommitFail : ∀ inp1 row n,
      s.fail .NewTransaction = none →
      s.prepare inp = .ok inp1 →
      s.fail (.Exist inp1.Email) = none →
      emailTaken s.db inp1.Email = false →
      s.userRow inp1 = .ok row →
      s.fail (.CreateAccount inp1.Email) = none →
      s.fail (.CreateAccessToken (some (s.newID (.CreateAccount inp1.Email)))) = none →
      s.fail (.SendMailActivationAccount inp1.Email
          (some (s.newID (.CreateAccessToken (some (s.newID (.CreateAccount inp1.Email))))))) = none →
      s.fail .Commit = some n →
      application.CreateAccount s inp =
        ⟨.error (.other n), s.db,
        [⟨.NewTransaction, none⟩, ⟨.Prepare, none⟩, ⟨.Exist inp1.Email, none⟩,
          ⟨.FormatValuesInUp, none⟩, ⟨.CreateAccount inp1.Email, none⟩,
          ⟨.CreateAccessToken (some (s.newID (.CreateAccount inp1.Email))), none⟩,
          ⟨.SendMailActivationAccount inp1.Email
          (some (s.newID (.CreateAccessToken (some (s.newID (.CreateAccount inp1.Email)))))), none⟩,
          ⟨.Commit, some (.other n)⟩, ⟨.Rollback, none⟩]⟩ → P)
    (hDone : ∀ inp1 row,
      s.fail .NewTransaction = none →
      s.prepare inp = .ok inp1 →
      s.fail (.Exist inp1.Email) = none →
      emailTaken s.db inp1.Email = false →
      s.userRow inp1 = .ok row →
      s.fail (.CreateAccount inp1.Email) = none →
      s.fail (.CreateAccessToken (some (s.newID (.CreateAccount inp1.Email)))) = none →
      s.fail (.SendMailActivationAccount inp1.Email
          (some (s.newID (.CreateAccessToken (some (s.newID (.CreateAccount inp1.Email))))))) = none →
      s.fail .Commit = none →
      application.CreateAccount s inp =
        ⟨.ok (),
        { s.db with
          users := s.db.users ++ [{ row with id := s.newID (.CreateAccount inp1.Email) }],
          tokens := s.db.tokens ++
            [{ id := s.newID (.CreateAccessToken (some (s.newID (.CreateAccount inp1.Email)))),
               user_id := some (s.newID (.CreateAccount inp1.Email)), used := false,
               expires_at := s.now + thirtyMinutes, created_at := s.now }] },
        [⟨.NewTransaction, none⟩, ⟨.Prepare, none⟩, ⟨.Exist inp1.Email, none⟩,
          ⟨.FormatValuesInUp, none⟩, ⟨.CreateAccount inp1.Email, none⟩,
          ⟨.CreateAccessToken (some (s.newID (.CreateAccount inp1.Email))), none⟩,
          ⟨.SendMailActivationAccount inp1.Email
          (some (s.newID (.CreateAccessToken (some (s.newID (.CreateAccount inp1.Email)))))), none⟩,
          ⟨.Commit, none⟩, ⟨.Rollback, none⟩]⟩ → P) :
    P := by
  cases h0 : s.fail .NewTransaction with
  | some n =>
    refine hOpen n h0 ?_
    simp [application.CreateAccount, application.CreateAccount.body, NewTransaction,
      Outcome.notOpened, Outcome.finish, queryRow, exec, Tx.record, Rollback, Commit, oops.Err,
      Prepare, PGUser.Exist, PGAuth.CreateAccount, PGAuth.CreateAccessToken,
      SendMailActivationAccount, h0]
  | none =>
  cases h1 : s.prepare inp with
  | error e =>
    refine hInvalid e h0 h1 ?_
    simp [application.CreateAccount, application.CreateAccount.body, NewTransaction,
      Outcome.notOpened, Outcome.finish, queryRow, exec, Tx.record, Rollback, Commit, oops.Err,
      Prepare, PGUser.Exist, PGAuth.CreateAccount, PGAuth.CreateAccessToken,
      SendMailActivationAccount, h0, h1]
  | ok inp1 =>
  cases h2 : s.fail (.Exist inp1.Email) with
  | some n =>
    refine hExistFail inp1 n h0 h1 h2 ?_
    simp [application.CreateAccount, application.CreateAccount.body, NewTransaction,
      Outcome.notOpened, Outcome.finish, queryRow, exec, Tx.record, Rollback, Commit, oops.Err,
      Prepare, PGUser.Exist, PGAuth.CreateAccount, PGAuth.CreateAccessToken,
      SendMailActivationAccount, h0, h1, h2]
  | none =>
  cases h3 : emailTaken s.db inp1.Email with
  | true =>
    refine hExists inp1 h0 h1 h2 h3 ?_
    simp [application.CreateAccount, application.CreateAccount.body, NewTransaction,
      Outcome.notOpened, Outcome.finish, queryRow, exec, Tx.record, Rollback, Commit, oops.Err,
      Prepare, PGUser.Exist, PGAuth.CreateAccount, PGAuth.CreateAccessToken,
      SendMailActivationAccount, h0, h1, h2, h3]
  | false =>
  cases h4 : s.userRow inp1 with
  | error n =>
    refine hFormatFail inp1 n h0 h1 h2 h3 h4 ?_
    simp [application.CreateAccount, application.CreateAccount.body, NewTransaction,
      Outcome.notOpened, Outcome.finish, queryRow, exec, Tx.record, Rollback, Commit, oops.Err,
      Prepare, PGUser.Exist, PGAuth.CreateAccount, PGAuth.CreateAccessToken,
      SendMailActivationAccount, h0, h1, h2, h3, h4]
  | ok row =>
  cases h5 : s.fail (.CreateAccount inp1.Email) with
  | some n =>
    refine hInsertFail inp1 row n h0 h1 h2 h3 h4 h5 ?_
    simp [application.CreateAccount, application.CreateAccount.body, NewTransaction,
      Outcome.notOpened, Outcome.finish, queryRow, exec, Tx.record, Rollback, Commit, oops.Err,
      Prepare, PGUser.Exist, PGAuth.CreateAccount, PGAuth.CreateAccessToken,
      SendMailActivationAccount, h0, h1, h2, h3, h4, h5]
  | none =>
  cases h6 : s.fail (.CreateAccessToken (some (s.newID (.CreateAccount inp1.Email)))) with
  | some n =>
    refine hTokenFail inp1 row n h0 h1 h2 h3 h4 h5 h6 ?_
    simp [application.CreateAccount, application.CreateAccount.body, NewTransaction,
      Outcome.notOpened, Outcome.finish, queryRow, exec, Tx.record, Rollback, Commit, oops.Err,
      Prepare, PGUser.Exist, PGAuth.CreateAccount, PGAuth.CreateAccessToken,
      SendMailActivationAccount, h0, h1, h2, h3, h4, h5, h6]
  | none =>
  cases h7 : s.fail (.SendMailActivationAccount inp1.Email
          (some (s.newID (.CreateAccessToken (some (s.newID (.CreateAccount inp1.Email))))))) with
  | some n =>
    refine hMailFail inp1 row n h0 h1 h2 h3 h4 h5 h6 h7 ?_
    simp [application.CreateAccount, application.CreateAccount.body, NewTransaction,
      Outcome.notOpened, Outcome.finish, queryRow, exec, Tx.record, Rollback, Commit, oops.Err,
      Prepare, PGUser.Exist, PGAuth.CreateAccount, PGAuth.CreateAccessToken,
      SendMailActivationAccount, h0, h1, h2, h3, h4, h5, h6, h7]
  | none =>
  cases h8 : s.fail .Commit with
  | some n =>
    refine hCommitFail inp1 row n h0 h1 h2 h3 h4 h5 h6 h7 h8 ?_
    simp [application.CreateAccount, application.CreateAccount.body, NewTransaction,
      Outcome.notOpened, Outcome.finish, queryRow, exec, Tx.record, Rollback, Commit, oops.Err,
      Prepare, PGUser.Exist, PGAuth.CreateAccount, PGAuth.CreateAccessToken,
      SendMailActivationAccount, h0, h1, h2, h3, h4, h5, h6, h7, h8]
  | none =>
    refine hDone inp1 row h0 h1 h2 h3 h4 h5 h6 h7 h8 ?_
    simp [application.CreateAccount, application.CreateAccount.body, NewTransaction,
      Outcome.notOpened, Outcome.finish, queryRow, exec, Tx.record, Rollback, Commit, oops.Err,
      Prepare, PGUser.Exist, PGAuth.CreateAccount, PGAuth.CreateAccessToken,
      SendMailActivationAccount, h0, h1, h2, h3, h4, h5, h6, h7, h8]

/-- Symbolic execution of `internal.Register`: a run follows one of ten paths, fixed by the
injected failures, the validation and the rows found. -/
theorem internal_Register_paths (s : Sys) (inp : RegisterRequest) {P : Prop}
    (hOpen : ∀ n,
      s.fail .NewTransaction = some n →
      internal.Register s inp =
        ⟨.error (.other n), s.db,
        [⟨.NewTransaction, some (.other n)⟩]⟩ → P)
    (hInvalid : ∀ e,
      s.fail .NewTransaction = none →
      s.prepareRequest inp = .error e →
      internal.Register s inp =
        ⟨.error e, s.db,
        [⟨.NewTransaction, none⟩, ⟨.Prepare, some e⟩, ⟨.Rollback, none⟩]⟩ → P)
    (hExistFail : ∀ inp1 n,
      s.fail .NewTransaction = none →
      s.prepareRequest inp = .ok inp1 →
      s.fail (.FindByEmailUserExists inp1.Email) = some n →
      internal.Register s inp =
        ⟨.error (.other n), s.db,
        [⟨.NewTransaction, none⟩, ⟨.Prepare, none⟩,
          ⟨.FindByEmailUserExists inp1.Email, some (.other n)⟩, ⟨.Rollback, none⟩]⟩ → P)
    (hExists : ∀ inp1,
      s.fail .NewTransaction = none →
      s.prepareRequest inp = .ok inp1 →
      s.fail (.FindByEmailUserExists inp1.Email) = none →
      emailTaken s.db inp1.Email = true →
      internal.Register s inp =
        ⟨.error ErrUserExists, s.db,
        [⟨.NewTransaction, none⟩, ⟨.Prepare, none⟩, ⟨.FindByEmailUserExists inp1.Email, none⟩,
          ⟨.Rollback, none⟩]⟩ → P)
    (hConvertFail : ∀ inp1 n,
      s.fail .NewTransaction = none →
      s.prepareRequest inp = .ok inp1 →
      s.fail (.FindByEmailUserExists inp1.Email) = none →
      emailTaken s.db inp1.Email = false →
      s.fail .TypeConverter = some n →
      internal.Register s inp =
        ⟨.error (.other n), s.db,
        [⟨.NewTransaction, none⟩, ⟨.Prepare, none⟩, ⟨.FindByEmailUserExists inp1.Email, none⟩,
          ⟨.TypeConverter, some (.other n)⟩, ⟨.Rollback, none⟩]⟩ → P)
    (hInsertFail : ∀ inp1 n,
      s.fail .NewTransaction = none →
      s.prepareRequest inp = .ok inp1 →
      s.fail (.FindByEmailUserExists inp1.Email) = none →
      emailTaken s.db inp1.Email = false →
      s.fail .TypeConverter = none →
      s.fail (.Register inp1.Email) = some n →
      internal.Register s inp =
        ⟨.error (.other n), s.db,
        [⟨.NewTransaction, none⟩, ⟨.Prepare, none⟩, ⟨.FindByEmailUserExists inp1.Email, none⟩,
          ⟨.TypeConverter, none⟩, ⟨.Register inp1.Email, some (.other n)⟩, ⟨.Rollback, none⟩]⟩ → P)
    (hTokenFail : ∀ inp1 n,
      s.fail .NewTransaction = none →
      s.prepareRequest inp = .ok inp1 →
      s.fail (.FindByEmailUserExists inp1.Email) = none →
      emailTaken s.db inp1.Email = false →
      s.fail .TypeConverter = none →
      s.fail (.Register inp1.Email) = none →
      s.fail (.CreateAccessToken (some (s.newID (.Register inp1.Email)))) = some n →
      internal.Register s inp =
        ⟨.error (.other n), s.db,
        [⟨.NewTransaction, none⟩, ⟨.Prepare, none⟩, ⟨.FindByEmailUserExists inp1.Email, none⟩,
          ⟨.TypeConverter, none⟩, ⟨.Register inp1.Email, none⟩,
          ⟨.CreateAccessToken (some (s.newID (.Register inp1.Email))), some (.other n)⟩,
          ⟨.Rollback, none⟩]⟩ → P)
    (hMailFail : ∀ inp1 n,
      s.fail .NewTransaction = none →
      s.prepareRequest inp = .ok inp1 →
      s.fail (.FindByEmailUserExists inp1.Email) = none →
      emailTaken s.db inp1.Email = false →
      s.fail .TypeConverter = none →
      s.fail (.Register inp1.Email) = none →
      s.fail (.CreateAccessToken (some (s.newID (.Register inp1.Email)))) = none →
      s.fail (.SendMailActivationAccount inp1.Email
          (some (s.newID (.CreateAccessToken (some (s.newID (.Register inp1.Email))))))) = some n →
      internal.Register s inp =
        ⟨.error (.other n), s.db,
        [⟨.NewTransaction, none⟩, ⟨.Prepare, none⟩, ⟨.FindByEmailUserExists inp1.Email, none⟩,
          ⟨.TypeConverter, none⟩, ⟨.Register inp1.Email, none⟩,
          ⟨.CreateAccessToken (some (s.newID (.Register inp1.Email))), none⟩,
          ⟨.SendMailActivationAccount inp1.Email
          (some (s.newID (.CreateAccessToken (some (s.newID (.Register inp1.Email)))))), some (.other n)⟩,
          ⟨.Rollback, none⟩]⟩ → P)
    (hCommitFail : ∀ inp1 n,
      s.fail .NewTransaction = none →
      s.prepareRequest inp = .ok inp1 →
      s.fail (.FindByEmailUserExists inp1.Email) = none →
      emailTaken s.db inp1.Email = false →
      s.fail .TypeConverter = none →
      s.fail (.Register inp1.Email) = none →
      s.fail (.CreateAccessToken (some (s.newID (.Register inp1.Email)))) = none →
      s.fail (.SendMailActivationAccount inp1.Email
          (some (s.newID (.CreateAccessToken (some (s.newID (.Register inp1.Email))))))) = none →
      s.fail .Commit = some n →
      internal.Register s inp =
        ⟨.error (.other n), s.db,
        [⟨.NewTransaction, none⟩, ⟨.Prepare, none⟩, ⟨.FindByEmailUserExists inp1.Email, none⟩,
          ⟨.TypeConverter, none⟩, ⟨.Register inp1.Email, none⟩,
          ⟨.CreateAccessToken (some (s.newID (.Register inp1.Email))), none⟩,
          ⟨.SendMailActivationAccount inp1.Email
          (some (s.newID (.CreateAccessToken (some (s.newID (.Register inp1.Email)))))), none⟩,
          ⟨.Commit, some (.other n)⟩, ⟨.Rollback, none⟩]⟩ → P)
    (hDone : ∀ inp1,
      s.fail .NewTransaction = none →
      s.prepareRequest inp = .ok inp1 →
      s.fail (.FindByEmailUserExists inp1.Email) = none →
      emailTaken s.db inp1.Email = false →
      s.fail .TypeConverter = none →
      s.fail (.Register inp1.Email) = none →
      s.fail (.CreateAccessToken (some (s.newID (.Register inp1.Email)))) = none →
      s.fail (.SendMailActivationAccount inp1.Email
          (some (s.newID (.CreateAccessToken (some (s.newID (.Register inp1.Email))))))) = none →
      s.fail .Commit = none →
      internal.Register s inp =
        ⟨.ok (),
        { s.db with
          users := s.db.users ++
            [{ s.requestRow inp1 with
               id := s.newID (.Register inp1.Email), roles := internal.Register.roles inp1 }],
          tokens := s.db.tokens ++
            [{ id := s.newID (.CreateAccessToken (some (s.newID (.Register inp1.Email)))),
               user_id := some (s.newID (.Register inp1.Email)), used := false,
               expires_at := s.now + thirtyMinutes, created_at := s.now }] },
        [⟨.NewTransaction, none⟩, ⟨.Prepare, none⟩, ⟨.FindByEmailUserExists inp1.Email, none⟩,
          ⟨.TypeConverter, none⟩, ⟨.Register inp1.Email, none⟩,
          ⟨.CreateAccessToken (some (s.newID (.Register inp1.Email))), none⟩,
          ⟨.SendMailActivationAccount inp1.Email
          (some (s.newID (.CreateAccessToken (some (s.newID (.Register inp1.Email)))))), none⟩,
          ⟨.Commit, none⟩, ⟨.Rollback, none⟩]⟩ → P) :
    P := by
  cases h0 : s.fail .NewTransaction with
  | some n =>
    refine hOpen n h0 ?_
    simp [internal.Register, internal.Register.body, NewTransaction, Outcome.notOpened,
      Outcome.finish, queryRow, exec, Tx.record, Rollback, Commit, oops.Err, internal.Prepare,
      internal.repoUser.FindByEmailUserExists, internal.TypeConverter, internal.repo.Register,
      internal.repo.CreateAccessToken, internal.repo.SendMailActivationAccount,
      PGAuth.CreateAccessToken, SendMailActivationAccount, h0]
  | none =>
  cases h1 : s.prepareRequest inp with
  | error e =>
    refine hInvalid e h0 h1 ?_
    simp [internal.Register, internal.Register.body, NewTransaction, Outcome.notOpened,
      Outcome.finish, queryRow, exec, Tx.record, Rollback, Commit, oops.Err, internal.Prepare,
      internal.repoUser.FindByEmailUserExists, internal.TypeConverter, internal.repo.Register,
      internal.repo.CreateAccessToken, internal.repo.SendMailActivationAccount,
      PGAuth.CreateAccessToken, SendMailActivationAccount, h0, h1]
  | ok inp1 =>
  cases h2 : s.fail (.FindByEmailUserExists inp1.Email) with
  | some n =>
    refine hExistFail inp1 n h0 h1 h2 ?_
    simp [internal.Register, internal.Register.body, NewTransaction, Outcome.notOpened,
      Outcome.finish, queryRow, exec, Tx.record, Rollback, Commit, oops.Err, internal.Prepare,
      internal.repoUser.FindByEmailUserExists, internal.TypeConverter, internal.repo.Register,
      internal.repo.CreateAccessToken, internal.repo.SendMailActivationAccount,
      PGAuth.CreateAccessToken, SendMailActivationAccount, h0, h1, h2]
  | none =>
  cases h3 : emailTaken s.db inp1.Email with
  | true =>
    refine hExists inp1 h0 h1 h2 h3 ?_
    simp [internal.Register, internal.Register.body, NewTransaction, Outcome.notOpened,
      Outcome.finish, queryRow, exec, Tx.record, Rollback, Commit, oops.Err, internal.Prepare,
      internal.repoUser.FindByEmailUserExists, internal.TypeConverter, internal.repo.Register,
      internal.repo.CreateAccessToken, internal.repo.SendMailActivationAccount,
      PGAuth.CreateAccessToken, SendMailActivationAccount, h0, h1, h2, h3]
  | false =>
  cases h4 : s.fail .TypeConverter with
  | some n =>
    refine hConvertFail inp1 n h0 h1 h2 h3 h4 ?_
    simp [internal.Register, internal.Register.body, NewTransaction, Outcome.notOpened,
      Outcome.finish, queryRow, exec, Tx.record, Rollback, Commit, oops.Err, internal.Prepare,
      internal.repoUser.FindByEmailUserExists, internal.TypeConverter, internal.repo.Register,
      internal.repo.CreateAccessToken, internal.repo.SendMailActivationAccount,
      PGAuth.CreateAccessToken, SendMailActivationAccount, h0, h1, h2, h3, h4]
  | none =>
  cases h5 : s.fail (.Register inp1.Email) with
  | some n =>
    refine hInsertFail inp1 n h0 h1 h2 h3 h4 h5 ?_
    simp [internal.Register, internal.Register.body, NewTransaction, Outcome.notOpened,
      Outcome.finish, queryRow, exec, Tx.record, Rollback, Commit, oops.Err, internal.Prepare,
      internal.repoUser.FindByEmailUserExists, internal.TypeConverter, internal.repo.Register,
      internal.repo.CreateAccessToken, internal.repo.SendMailActivationAccount,
      PGAuth.CreateAccessToken, SendMailActivationAccount, h0, h1, h2, h3, h4, h5]
  | none =>
  cases h6 : s.fail (.CreateAccessToken (some (s.newID (.Register inp1.Email)))) with
  | some n =>
    refine hTokenFail inp1 n h0 h1 h2 h3 h4 h5 h6 ?_
    simp [internal.Register, internal.Register.body, NewTransaction, Outcome.notOpened,
      Outcome.finish, queryRow, exec, Tx.record, Rollback, Commit, oops.Err, internal.Prepare,
      internal.repoUser.FindByEmailUserExists, internal.TypeConverter, internal.repo.Register,
      internal.repo.CreateAccessToken, internal.repo.SendMailActivationAccount,
      PGAuth.CreateAccessToken, SendMailActivationAccount, h0, h1, h2, h3, h4, h5, h6]
  | none =>
  cases h7 : s.fail (.SendMailActivationAccount inp1.Email
          (some (s.newID (.CreateAccessToken (some (s.newID (.Register inp1.Email))))))) with
  | some n =>
    refine hMailFail inp1 n h0 h1 h2 h3 h4 h5 h6 h7 ?_
    simp [internal.Register, internal.Register.body, NewTransaction, Outcome.notOpened,
      Outcome.finish, queryRow, exec, Tx.record, Rollback, Commit, oops.Err, internal.Prepare,
      internal.repoUser.FindByEmailUserExists, internal.TypeConverter, internal.repo.Register,
      internal.repo.CreateAccessToken, internal.repo.SendMailActivationAccount,
      PGAuth.CreateAccessToken, SendMailActivationAccount, h0, h1, h2, h3, h4, h5, h6, h7]
  | none =>
  cases h8 : s.fail .Commit with
  | some n =>
    refine hCommitFail inp1 n h0 h1 h2 h3 h4 h5 h6 h7 h8 ?_
    simp [internal.Register, internal.Register.body, NewTransaction, Outcome.notOpened,
      Outcome.finish, queryRow, exec, Tx.record, Rollback, Commit, oops.Err, internal.Prepare,
      internal.repoUser.FindByEmailUserExists, internal.TypeConverter, internal.repo.Register,
      internal.repo.CreateAccessToken, internal.repo.SendMailActivationAccount,
      PGAuth.CreateAccessToken, SendMailActivationAccount, h0, h1, h2, h3, h4, h5, h6, h7, h8]
  | none =>
    refine hDone inp1 h0 h1 h2 h3 h4 h5 h6 h7 h8 ?_
    simp [internal.Register, internal.Register.body, NewTransaction, Outcome.notOpened,
      Outcome.finish, queryRow, exec, Tx.record, Rollback, Commit, oops.Err, internal.Prepare,
      internal.repoUser.FindByEmailUserExists, internal.TypeConverter, internal.repo.Register,
      internal.repo.CreateAccessToken, internal.repo.SendMailActivationAccount,
      PGAuth.CreateAccessToken, SendMailActivationAccount, h0, h1, h2, h3, h4, h5, h6, h7, h8]


/-! ## Lookups -/

/-- A token found by its id carries that id. -/
theorem find_token_id {token : Option UUID} {l : List TokenRow} {r : TokenRow}
    (h : l.find? (fun r => token == some r.id) = some r) : token = some r.id := by
  simpa using List.find?_some h

/-- After `markUsed token`, the lookup of `token` finds the same row with `used` set. -/
theorem find_markUsed (token : Option UUID) (d : DB) :
    (markUsed token d).tokens.find? (fun r => token == some r.id) =
      (d.tokens.find? (fun r => token == some r.id)).map (fun r => { r with used := true }) := by
  simp only [markUsed]
  induction d.tokens with
  | nil => rfl
  | cons a l ih =>
    simp only [List.map_cons, List.find?_cons]
    by_cases h : token = some a.id
    · simp [h]
    · have hb : (token == some a.id) = false := by simpa using h
      simp only [hb, Bool.false_eq_true, if_false]
      exact ih

/-- No row meets the condition of `PGUser.Get` when neither the id nor the email is set. -/
theorem find_cond_none (l : List UserRow) : l.find? (PGUser.cond none none) = none := by
  simp [List.find?_eq_none, PGUser.cond]

/-! ## Activation -/

/-- C1, as stated, fails: in the run of the role based `Activation` on `exSysCommitFails` every
call up to `MarkTokenAsUsed` succeeds and `Commit` fails, so the run returns an error although
`Commit` was called. -/
theorem Activation_error_after_commit_call :
    (internal.Activation exSysCommitFails (some 1)).failed = true ∧
    Call.Commit ∈ (internal.Activation exSysCommitFails (some 1)).calls := by
  decide

/-- C1 (amended): `Activation` is atomic.  In every run of the role based `Activation` that
returns an error no `Commit` succeeds (`Commit` is called at most once), and the durable rows
are those before the call: neither the role removal, nor the role grant, nor the used mark is
persisted.  In every run that returns success the writes issued are exactly
`RemoveRoles(ReadActivationToken)`, `AddRoles(ReadSession, CreateSession, DeleteSession)`,
`MarkTokenAsUsed(token)` and one `Commit`, in that order, no call returned an error, and the
durable rows are the rows before the call with these three updates applied together.  The flag
based `Activation` is atomic in the same way, with the single grant `Set(FlagEnabledAccount)`
in place of the two role updates. -/
theorem Activation_atomic (s : Sys) (token : Option UUID) :
    ((internal.Activation s token).failed = true →
        (internal.Activation s token).committed = false ∧
        (internal.Activation s token).calls.count .Commit ≤ 1 ∧
        (internal.Activation s token).db = s.db) ∧
    ((internal.Activation s token).failed = false →
        ∃ uid,
          (internal.Activation s token).writes =
            [.RemoveRoles uid [.ReadActivationToken],
             .AddRoles uid [.ReadSession, .CreateSession, .DeleteSession],
             .MarkTokenAsUsed token, .Commit] ∧
          (∀ ev ∈ (internal.Activation s token).log, ev.err = none) ∧
          (internal.Activation s token).db =
            markUsed token
              (internal.addRoles uid [.ReadSession, .CreateSession, .DeleteSession]
                (internal.removeRoles uid [.ReadActivationToken] s.db))) ∧
    ((application.Activation s token).failed = true →
        (application.Activation s token).committed = false ∧
        (application.Activation s token).calls.count .Commit ≤ 1 ∧
        (application.Activation s token).db = s.db) ∧
    ((application.Activation s token).failed = false →
        ∃ uid,
          (application.Activation s token).writes =
            [.FlagSet uid s.FlagEnabledAccount, .MarkTokenAsUsed token, .Commit] ∧
          (∀ ev ∈ (application.Activation s token).log, ev.err = none) ∧
          (application.Activation s token).db =
            markUsed token (setFlag uid s.FlagEnabledAccount s.db)) := by
  refine ⟨?_, ?_, ?_, ?_⟩
  · apply internal_Activation_paths s token
    all_goals intros
    all_goals simp_all [Outcome.failed, Outcome.committed, Outcome.calls]
  · apply internal_Activation_paths s token
    all_goals intros
    all_goals simp_all [Outcome.failed, Outcome.calls, Outcome.writes, Call.isMutation,
      internal.rolesSession]
    case hDone r u _ _ h _ _ _ _ _ _ _ _ _ _ =>
      rw [find_token_id h]
      simp
  · apply application_Activation_paths s token
    all_goals intros
    all_goals simp_all [Outcome.failed, Outcome.committed, Outcome.calls]
  · apply application_Activation_paths s token
    all_goals intros
    all_goals simp_all [Outcome.failed, Outcome.calls, Outcome.writes, Call.isMutation]

/-- Witness of C1: the role based `Activation` of `exToken` on `exSys` succeeds; its writes are
the two role updates, the used mark and one `Commit`, and its durable rows carry the three
updates. -/
theorem Activation_atomic_witness :
    (internal.Activation exSys (some 1)).failed = false ∧
    ∃ uid,
      (internal.Activation exSys (some 1)).writes =
        [.RemoveRoles uid [.ReadActivationToken],
         .AddRoles uid [.ReadSession, .CreateSession, .DeleteSession],
         .MarkTokenAsUsed (some 1), .Commit] ∧
      (∀ ev ∈ (internal.Activation exSys (some 1)).log, ev.err = none) ∧
      (internal.Activation exSys (some 1)).db =
        markUsed (some 1)
          (internal.addRoles uid [.ReadSession, .CreateSession, .DeleteSession]
            (internal.removeRoles uid [.ReadActivationToken] exSys.db)) :=
  ⟨by decide, (Activation_atomic exSys (some 1)).2.1 (by decide)⟩

/-- C2 (defect in the code): for a token id with no row, `PGAuth.GetActivateAccountToken`
returns `sql.ErrNoRows` in its named result, so the flag based `Activation` returns that error
at its first check; the error is not `TokenNotValid`.  As the claim says, no write is issued
and the durable rows are unchanged. -/
theorem Activation_absent_token (s : Sys) (token : Option UUID)
    (hOpen : s.fail .NewTransaction = none)
    (hGet : s.fail (.GetActivateAccountToken token) = none)
    (hAbsent : s.db.tokens.find? (fun r => token == some r.id) = none) :
    (application.Activation s token).result = .error .errNoRows ∧
    (application.Activation s token).result ≠ .error ErrTokenIsNotValid ∧
    (application.Activation s token).writes = [] ∧
    (application.Activation s token).db = s.db := by
  apply application_Activation_paths s token
  all_goals intros
  all_goals rename_i heq
  all_goals simp_all [Outcome.calls, Outcome.writes, Call.isMutation, ErrTokenIsNotValid]

/-- Witness of C2: token id 2 has no row in `exSys`. -/
theorem Activation_absent_token_witness :
    exSys.db.tokens.find? (fun r => some 2 == some r.id) = none ∧
    (application.Activation exSys (some 2)).result = .error .errNoRows ∧
    (application.Activation exSys (some 2)).result ≠ .error ErrTokenIsNotValid ∧
    (application.Activation exSys (some 2)).writes = [] ∧
    (application.Activation exSys (some 2)).db = exSys.db :=
  ⟨by decide, Activation_absent_token exSys (some 2) (by decide) (by decide) (by decide)⟩

/-- The part of C2 that holds, flag based variant: a token that is found and is used or
expired makes `Activation` fail with `TokenNotValid` without any write. -/
theorem application_Activation_used_or_expired (s : Sys) (token : Option UUID) (r : TokenRow)
    (hOpen : s.fail .NewTransaction = none)
    (hGet : s.fail (.GetActivateAccountToken token) = none)
    (hFound : s.db.tokens.find? (fun r => token == some r.id) = some r)
    (hBad : r.used = true ∨ r.expires_at < s.now) :
    (application.Activation s token).result = .error ErrTokenIsNotValid ∧
    (application.Activation s token).writes = [] ∧
    (application.Activation s token).db = s.db := by
  apply application_Activation_paths s token
  all_goals intros
  all_goals rename_i heq
  all_goals simp_all [Outcome.calls, Outcome.writes, Call.isMutation]
  all_goals linarith

/-- The part of C2 that holds, role based variant. -/
theorem internal_Activation_used_or_expired (s : Sys) (token : Option UUID) (r : TokenRow)
    (hOpen : s.fail .NewTransaction = none)
    (hGet : s.fail (.GetActivateAccountToken token) = none)
    (hFound : s.db.tokens.find? (fun r => token == some r.id) = some r)
    (hBad : r.used = true ∨ r.expires_at < s.now) :
    (internal.Activation s token).result = .error ErrTokenIsNotValid ∧
    (internal.Activation s token).writes = [] ∧
    (internal.Activation s token).db = s.db := by
  apply internal_Activation_paths s token
  all_goals intros
  all_goals rename_i heq
  all_goals simp_all [Outcome.calls, Outcome.writes, Call.isMutation]
  all_goals linarith

/-- The part of C2 on expiry: the token `CreateAccessToken` inserts at instant `s.now` expires
thirty minutes later, and the validity `GetActivateAccountToken` scans for it at an instant
`now` is true exactly up to and including that instant. -/
theorem CreateAccessToken_expiry (s : Sys) (t : Tx) (userID : Option UUID)
    (hOk : s.fail (.CreateAccessToken userID) = none) (now : Time) :
    ∃ row, (PGAuth.CreateAccessToken s t userID).2.2.view.tokens = t.view.tokens ++ [row] ∧
      (PGAuth.CreateAccessToken s t userID).1 = some row.id ∧
      row.used = false ∧
      row.expires_at = s.now + thirtyMinutes ∧
      (decide (row.expires_at ≥ now) = true ↔ now ≤ s.now + thirtyMinutes) := by
  simp [PGAuth.CreateAccessToken, exec, hOk, Tx.record]

/-- A second run of the role based `Activation` on a token whose row is marked used fails
without any write; it fails with `TokenNotValid` unless the driver fails first. -/
theorem internal_Activation_used (s : Sys) (token : Option UUID) (r : TokenRow)
    (hFound : s.db.tokens.find? (fun r => token == some r.id) = some r)
    (hUsed : r.used = true) :
    (internal.Activation s token).failed = true ∧
    (internal.Activation s token).writes = [] ∧
    (internal.Activation s token).db = s.db ∧
    (s.fail .NewTransaction = none → s.fail (.GetActivateAccountToken token) = none →
      (internal.Activation s token).result = .error ErrTokenIsNotValid) := by
  apply internal_Activation_paths s token
  all_goals intros
  all_goals simp_all [Outcome.failed, Outcome.calls, Outcome.writes, Call.isMutation]

/-- A second run of the flag based `Activation` on a token whose row is marked used fails
without any write; it fails with `TokenNotValid` unless the driver fails first. -/
theorem application_Activation_used (s : Sys) (token : Option UUID) (r : TokenRow)
    (hFound : s.db.tokens.find? (fun r => token == some r.id) = some r)
    (hUsed : r.used = true) :
    (application.Activation s token).failed = true ∧
    (application.Activation s token).writes = [] ∧
    (application.Activation s token).db = s.db ∧
    (s.fail .NewTransaction = none → s.fail (.GetActivateAccountToken token) = none →
      (application.Activation s token).result = .error ErrTokenIsNotValid) := by
  apply application_Activation_paths s token
  all_goals intros
  all_goals simp_all [Outcome.failed, Outcome.calls, Outcome.writes, Call.isMutation]

/-- After a successful run of the role based `Activation`, the lookup of the token in the
durable rows finds a row marked used. -/
theorem internal_Activation_marks (s : Sys) (token : Option UUID)
    (hOk : (internal.Activation s token).failed = false) :
    ∃ r, (internal.Activation s token).db.tokens.find? (fun r => token == some r.id) = some r ∧
      r.used = true := by
  revert hOk
  apply internal_Activation_paths s token
  all_goals intros
  all_goals simp_all [Outcome.failed]
  case hDone =>
    have ht := @find_token_id token _ _ (by assumption)
    rw [← ht]
    simp only [find_markUsed]
    simp_all [internal.addRoles, internal.removeRoles]

/-- After a successful run of the flag based `Activation`, the lookup of the token in the
durable rows finds a row marked used. -/
theorem application_Activation_marks (s : Sys) (token : Option UUID)
    (hOk : (application.Activation s token).failed = false) :
    ∃ r, (application.Activation s token).db.tokens.find? (fun r => token == some r.id) = some r ∧
      r.used = true := by
  revert hOk
  apply application_Activation_paths s token
  all_goals intros
  all_goals simp_all [Outcome.failed]
  case hDone =>
    simp only [find_markUsed]
    simp_all [setFlag]

/-- C3: `Activation` is exactly-once, in both variants.  Over the store in which
`MarkTokenAsUsed` sets the `used` column and `GetActivateAccountToken` reads it: when
`Activation(token)` succeeds on `s`, a second `Activation(token)` on any system `s2` that holds
the rows the first run left (whatever its instant, its failures and its helpers) returns an
error, issues no write and leaves the rows as the first run left them, so the role set changes
exactly once; the error is `TokenNotValid` unless opening the transaction or the token query
itself fails. -/
theorem Activation_exactly_once (s s2 : Sys) (token : Option UUID) :
    ((internal.Activation s token).failed = false →
      s2.db = (internal.Activation s token).db →
        (internal.Activation s2 token).failed = true ∧
        (internal.Activation s2 token).writes = [] ∧
        (internal.Activation s2 token).db = (internal.Activation s token).db ∧
        (s2.fail .NewTransaction = none → s2.fail (.GetActivateAccountToken token) = none →
          (internal.Activation s2 token).result = .error ErrTokenIsNotValid)) ∧
    ((application.Activation s token).failed = false →
      s2.db = (application.Activation s token).db →
        (application.Activation s2 token).failed = true ∧
        (application.Activation s2 token).writes = [] ∧
        (application.Activation s2 token).db = (application.Activation s token).db ∧
        (s2.fail .NewTransaction = none → s2.fail (.GetActivateAccountToken token) = none →
          (application.Activation s2 token).result = .error ErrTokenIsNotValid)) := by
  constructor
  · intro hOk hdb
    obtain ⟨r, hr, hu⟩ := internal_Activation_marks s token hOk
    rw [← hdb] at hr ⊢
    exact internal_Activation_used s2 token r hr hu
  · intro hOk hdb
    obtain ⟨r, hr, hu⟩ := application_Activation_marks s token hOk
    rw [← hdb] at hr ⊢
    exact application_Activation_used s2 token r hr hu

/-- Witness of C3: on `exSys` the first `Activation` of `exToken` succeeds in both variants and
the second one, run thirty minutes later, fails with `TokenNotValid`. -/
theorem Activation_exactly_once_witness :
    (internal.Activation exSys (some 1)).failed = false ∧
    (internal.Activation
        { exSys with db := (internal.Activation exSys (some 1)).db, now := thirtyMinutes }
        (some 1)).result = .error ErrTokenIsNotValid ∧
    (application.Activation exSys (some 1)).failed = false ∧
    (application.Activation
        { exSys with db := (application.Activation exSys (some 1)).db, now := thirtyMinutes }
        (some 1)).result = .error ErrTokenIsNotValid :=
  ⟨by decide,
   ((Activation_exactly_once exSys
      { exSys with db := (internal.Activation exSys (some 1)).db, now := thirtyMinutes }
      (some 1)).1 (by decide) rfl).2.2.2 rfl rfl,
   by decide,
   ((Activation_exactly_once exSys
      { exSys with db := (application.Activation exSys (some 1)).db, now := thirtyMinutes }
      (some 1)).2 (by decide) rfl).2.2.2 rfl rfl⟩

/-- C4, as stated, fails for the flag based `Activation`: in `exSysNoRole` the owner of the valid
unused token 1 holds neither `ReadActivationToken` nor any flag, and `Activation` succeeds: it
sets the flag, marks the token used and commits. -/
theorem Activation_without_role_succeeds :
    (∀ u ∈ exSysNoRole.db.users, Role.ReadActivationToken ∉ u.roles ∧ u.flag = 0) ∧
    (application.Activation exSysNoRole (some 1)).result = .ok () ∧
    (application.Activation exSysNoRole (some 1)).writes =
      [.FlagSet (some 7) 1, .MarkTokenAsUsed (some 1), .Commit] ∧
    (application.Activation exSysNoRole (some 1)).committed = true := by
  decide

/-- C4 (amended): `ReadActivationToken` is the authorization gate of the role based `Activation`
only.  For every valid unused token: in the role based variant, when the owning user lacks
`ReadActivationToken`, `Activation` fails with `ErrNotHavePermissionActiveAccount`, issues no
write and commits nothing; the flag based variant never returns that error, reads no role or
flag of the owner, and when no call fails it sets `FlagEnabledAccount`, marks the token used and
commits, whatever the roles and flags of the owner. -/
theorem Activation_role_gate (s : Sys) (token : Option UUID) (r : TokenRow) (u : UserRow)
    (hOpen : s.fail .NewTransaction = none)
    (hGet : s.fail (.GetActivateAccountToken token) = none)
    (hToken : s.db.tokens.find? (fun r => token == some r.id) = some r)
    (hUnused : r.used = false) (hValid : s.now ≤ r.expires_at) :
    (s.fail (.GetUser r.user_id none) = none →
      s.db.users.find? (internal.repoUser.cond r.user_id none) = some u →
      Role.ReadActivationToken ∉ u.roles →
        (internal.Activation s token).result = .error ErrNotHavePermissionActiveAccount ∧
        (internal.Activation s token).writes = [] ∧
        (internal.Activation s token).committed = false ∧
        (internal.Activation s token).db = s.db) ∧
    (application.Activation s token).result ≠ .error ErrNotHavePermissionActiveAccount ∧
    (s.fail (.UserGet r.user_id none) = none →
      s.db.users.find? (PGUser.cond r.user_id none) = some u →
      s.fail (.FlagSet (some u.id) s.FlagEnabledAccount) = none →
      s.fail (.MarkTokenAsUsed token) = none →
      s.fail .Commit = none →
        (application.Activation s token).result = .ok () ∧
        (application.Activation s token).writes =
          [.FlagSet (some u.id) s.FlagEnabledAccount, .MarkTokenAsUsed token, .Commit] ∧
        (application.Activation s token).committed = true) := by
  refine ⟨?_, ?_, ?_⟩
  · apply internal_Activation_paths s token
    all_goals intros
    all_goals simp_all [Outcome.committed, Outcome.calls, Outcome.writes, Call.isMutation]
  · apply application_Activation_paths s token
    all_goals intros
    all_goals simp_all [ErrNotHavePermissionActiveAccount, ErrTokenIsNotValid, ErrUserNotExists]
  · apply application_Activation_paths s token
    all_goals intros
    all_goals simp_all [Outcome.committed, Outcome.calls, Outcome.writes, Call.isMutation,
      find_cond_none]

/-- Witness of C4: in `exSysNoRole` the role based `Activation` of the valid unused token 1
fails with `ErrNotHavePermissionActiveAccount` and writes nothing. -/
theorem Activation_role_gate_witness :
    (internal.Activation exSysNoRole (some 1)).result =
      .error ErrNotHavePermissionActiveAccount ∧
    (internal.Activation exSysNoRole (some 1)).writes = [] ∧
    (internal.Activation exSysNoRole (some 1)).committed = false ∧
    (internal.Activation exSysNoRole (some 1)).db = exSysNoRole.db :=
  (Activation_role_gate exSysNoRole (some 1) exToken { exUser with roles := [] }
    (by decide) (by decide) (by decide) (by decide) (by decide)).1
    (by decide) (by decide) (by decide)

/-- C5, as stated, fails for the flag based `Login`: the only user of `exSysBlockedNoFlag`
exists, is active and is locked out, and `Login` returns `ErrNotHavePermissionLogin`, because
the check of `FlagEnabledAccount` comes before the lockout check. -/
theorem Login_blocked_without_flag :
    (∀ u ∈ exSysBlockedNoFlag.db.users,
      u.active = true ∧ blockedColumn u.attempts u.last_failure exSysBlockedNoFlag.now = some true) ∧
    (application.Login exSysBlockedNoFlag exLogin).result = .error ErrNotHavePermissionLogin ∧
    (application.Login exSysBlockedNoFlag exLogin).result ≠ .error ErrUserBlockedTemporarily := by
  decide

/-- C5 (amended): in the flag based `Login` the lockout check precedes the password comparison
and is independent of it.  For every existing, active user whose lockout flag is set, two runs
of the flag based `Login` for that user that differ in the supplied password (and in any other
field but the email) have the same outcome: the same result, the same durable rows and the same
call log, in which there is no password comparison, no write and no successful `Commit`.  When
no call fails the result is `ErrUserBlockedTemporarily` for a user that holds
`FlagEnabledAccount`; a user without that flag gets `ErrNotHavePermissionLogin`.  The role
based `Login` has the same guard, but `getUser` scans no column into `BlockedTemporarily`, so
the guard never fires: for such a user, when the transaction opens and the two reads do not
fail, the password is compared, and a failed comparison is counted and committed. -/
theorem Login_lockout_precedes_password (s : Sys) (u : UserRow)
    (hActive : u.active = true)
    (hBlocked : blockedColumn u.attempts u.last_failure s.now = some true) :
    (∀ inp inp2 : LoginInput, inp2.Email = inp.Email →
      s.db.users.find? (PGUser.cond none inp.Email) = some u →
        application.Login s inp2 = application.Login s inp ∧
        (∀ p, Call.ComparePasswords p ∉ (application.Login s inp).calls) ∧
        (application.Login s inp).writes = [] ∧
        (application.Login s inp).committed = false ∧
        (application.Login s inp).db = s.db ∧
        (s.fail .NewTransaction = none → s.fail (.UserGet none inp.Email) = none →
          (application.Login s inp).result =
            .error (if flagColumn u.flag s.FlagEnabledAccount then ErrUserBlockedTemporarily
                    else ErrNotHavePermissionLogin))) ∧
    (∀ (req : internal.LoginRequest) (e : String), req.Email = some e →
      s.db.users.find? (internal.repoUser.cond none req.Email) = some u →
      s.fail .NewTransaction = none → s.fail (.GetUser none req.Email) = none →
      s.fail (.RepoLogin req.Email) = none →
        ⟨.ComparePasswords req.Password,
          s.comparePasswords req.Password (some u.password) (some u.key)⟩ ∈
            (internal.Login s req).log ∧
        (∀ err, s.comparePasswords req.Password (some u.password) (some u.key) = some err →
          s.fail (.AddNumberFailedAttempts (some u.id)) = none → s.fail .Commit = none →
            (internal.Login s req).result = .error err ∧
            (internal.Login s req).writes = [.AddNumberFailedAttempts (some u.id), .Commit] ∧
            (internal.Login s req).committed = true)) := by
  constructor
  · intro inp inp2 hE hU
    have hU2 : s.db.users.find? (PGUser.cond none inp2.Email) = some u := by rw [hE]; exact hU
    refine ⟨?_, ?_⟩
    · apply application_Login_paths s inp
      all_goals intros
      all_goals apply application_Login_paths s inp2
      all_goals intros
      all_goals simp_all [find_cond_none]
    · apply application_Login_paths s inp
      all_goals intros
      all_goals simp_all [Outcome.committed, Outcome.calls, Outcome.writes, Call.isMutation,
        find_cond_none]
  · intro req e hE hU hOpen hGet hRepo
    apply internal_Login_paths s req
    all_goals intros
    all_goals simp_all [Outcome.committed, Outcome.calls, Outcome.writes, Call.isMutation]

/-- Witness of C5: the user of `exSysBlocked` is active and locked out.  The flag based `Login`
with the right and with a wrong password have the same outcome, `ErrUserBlockedTemporarily`;
the role based `Login` with a wrong password compares it, counts the failure and commits. -/
theorem Login_lockout_precedes_password_witness :
    (application.Login exSysBlocked exLoginWrong = application.Login exSysBlocked exLogin ∧
      (application.Login exSysBlocked exLogin).result = .error ErrUserBlockedTemporarily) ∧
    ((internal.Login exSysBlocked exLoginRequestWrong).result =
        .error ErrEmailOrPasswordIsNotValid ∧
      (internal.Login exSysBlocked exLoginRequestWrong).committed = true) :=
  have h := Login_lockout_precedes_password exSysBlocked exUserBlocked (by decide) (by decide)
  have k := (h.2 exLoginRequestWrong "a@x.com" rfl (by decide) (by decide) (by decide)
    (by decide)).2 ErrEmailOrPasswordIsNotValid (by decide) (by decide) (by decide)
  ⟨⟨(h.1 exLogin exLoginWrong rfl (by decide)).1,
    (h.1 exLogin exLoginWrong rfl (by decide)).2.2.2.2.2 (by decide) (by decide)⟩,
   ⟨k.1, k.2.2⟩⟩

/-! ## Login -/

/-- C6, as stated, fails: in `exSysBlocked` the supplied password is incorrect (the comparison
with the stored credential would fail), but the user is locked out, so `Login` returns before
the comparison: no write is issued and the attempt counter stays as it was. -/
theorem Login_wrong_password_not_counted :
    exSysBlocked.comparePasswords exLoginWrong.Password (some exUserBlocked.password)
      (some exUserBlocked.key) ≠ none ∧
    (application.Login exSysBlocked exLoginWrong).writes = [] ∧
    (application.Login exSysBlocked exLoginWrong).db = exSysBlocked.db := by
  decide

/-- C6 (amended): for every `Login` call that reaches the password comparison (the user row
exists, holds `FlagEnabledAccount`, is active and is not locked out) with an incorrect
password: `AddAttempts` is called exactly once for that user and no session is created; if
`AddAttempts` fails, or its `Commit` fails, that error is returned and nothing is persisted;
otherwise the call returns the error of the password comparison, the writes are `AddAttempts`
followed by one `Commit`, and the durable rows differ from those before the call only in that
user's row, whose `attempts` grew by one and whose `last_failure` is the instant of the call. -/
theorem Login_wrong_password (s : Sys) (inp : LoginInput) (u : UserRow) (err : Error)
    (hOpen : s.fail .NewTransaction = none)
    (hGet : s.fail (.UserGet none inp.Email) = none)
    (hUser : s.db.users.find? (PGUser.cond none inp.Email) = some u)
    (hFlag : flagColumn u.flag s.FlagEnabledAccount = true)
    (hActive : u.active = true)
    (hFree : blockedColumn u.attempts u.last_failure s.now ≠ some true)
    (hWrong : s.comparePasswords inp.Password (some u.password) (some u.key) = some err) :
    (application.Login s inp).calls.count (.AddAttempts (some u.id)) = 1 ∧
    (∀ c ∈ (application.Login s inp).calls, c.isMutation = true → c = .AddAttempts (some u.id)) ∧
    (∀ n, s.fail (.AddAttempts (some u.id)) = some n →
      (application.Login s inp).result = .error (.other n) ∧
      (application.Login s inp).committed = false ∧
      (application.Login s inp).db = s.db) ∧
    (∀ n, s.fail (.AddAttempts (some u.id)) = none → s.fail .Commit = some n →
      (application.Login s inp).result = .error (.other n) ∧
      (application.Login s inp).committed = false ∧
      (application.Login s inp).db = s.db) ∧
    (s.fail (.AddAttempts (some u.id)) = none → s.fail .Commit = none →
      (application.Login s inp).result = .error err ∧
      (application.Login s inp).writes = [.AddAttempts (some u.id), .Commit] ∧
      (application.Login s inp).db.users =
        s.db.users.map (fun r =>
          if u.id = r.id then { r with attempts := r.attempts + 1, last_failure := some s.now }
          else r) ∧
      (application.Login s inp).db.tokens = s.db.tokens ∧
      (application.Login s inp).db.sessions = s.db.sessions) := by
  apply application_Login_paths s inp
  all_goals intros
  all_goals simp_all [Outcome.committed, Outcome.calls, Outcome.writes, Call.isMutation,
    addAttempt, find_cond_none]

/-- Witness of C6: `Login` of the enabled user of `exSysActive` with a wrong password returns
the comparison error and persists one more failed attempt. -/
theorem Login_wrong_password_witness :
    (application.Login exSysActive exLoginWrong).result = .error ErrEmailOrPasswordIsNotValid ∧
    (application.Login exSysActive exLoginWrong).writes = [.AddAttempts (some 7), .Commit] ∧
    (application.Login exSysActive exLoginWrong).db.users.map UserRow.attempts = [1] :=
  have h := (Login_wrong_password exSysActive exLoginWrong
    { exUser with flag := 1, roles := [.ReadSession, .CreateSession, .DeleteSession] }
    ErrEmailOrPasswordIsNotValid (by decide) (by decide) (by decide) (by decide) (by decide)
    (by decide) (by decide)).2.2.2.2 (by decide) (by decide)
  ⟨h.1, h.2.1, by rw [h.2.2.1]; decide⟩

/-- C7, as stated, fails at the end of the window: with three attempts and a last failure at
instant 0, at the instant exactly five minutes later the `blocked` column is true, while the
elapsed time is not strictly below five minutes. -/
theorem blocked_at_window_end :
    blockedColumn 3 (some 0) fiveMinutes = some true ∧ ¬ specBlocked 3 0 fiveMinutes := by
  decide

/-- C7 (amended): the `blocked` flag that `PGUser.Get` scans for a row is the `blocked` column
of that row at the instant of the call, and the query leaves the rows as they are.  The column
is true if and only if `attempts ≥ 3` and the elapsed time since the last failure is at most
five minutes (the end of the window included); in particular it is true whenever the predicate
of the spec holds, it is false at every instant later than five minutes after the last failure,
and it is never true for a row without a last failure. -/
theorem blocked_iff (attempts : Nat) (last_failure now : Time) :
    (blockedColumn attempts (some last_failure) now = some true ↔
      attempts ≥ 3 ∧ now - last_failure ≤ fiveMinutes) ∧
    (specBlocked attempts last_failure now →
      blockedColumn attempts (some last_failure) now = some true) ∧
    (last_failure + fiveMinutes < now →
      blockedColumn attempts (some last_failure) now = some false) ∧
    blockedColumn attempts none now ≠ some true ∧
    (∀ (s : Sys) (t : Tx) (data : User) (r : UserRow),
      s.fail (.UserGet data.ID data.Email) = none →
      t.view.users.find? (PGUser.cond data.ID data.Email) = some r →
        (PGUser.Get s t data).2.1.Blocked = blockedColumn r.attempts r.last_failure s.now ∧
        (PGUser.Get s t data).2.2.view = t.view ∧
        (PGUser.Get s t data).2.2.durable = t.durable) := by
  refine ⟨?_, ?_, ?_, ?_, ?_⟩
  · simp only [blockedColumn, Option.some.injEq, Bool.and_eq_true, decide_eq_true_eq]
    constructor
    · rintro ⟨h1, h2⟩
      exact ⟨h1, by linarith⟩
    · rintro ⟨h1, h2⟩
      exact ⟨h1, by linarith⟩
  · rintro ⟨h1, h2⟩
    simp only [blockedColumn, Option.some.injEq, Bool.and_eq_true, decide_eq_true_eq]
    exact ⟨h1, by linarith⟩
  · intro h
    have : ¬ (last_failure + fiveMinutes ≥ now) := by linarith
    simp [blockedColumn, this]
  · simp only [blockedColumn]
    split <;> simp
  · intro s t data r hf hr
    have hne : ¬ (data.Email = none ∧ data.ID = none) := by
      rintro ⟨h1, h2⟩
      rw [h1, h2, find_cond_none] at hr
      cases hr
    simp [PGUser.Get, PGUser.scan, queryRow, hf, hr, hne, Tx.record]

/-- Witness of C7: a user with three attempts whose last failure is five minutes and one
microsecond old is not blocked. -/
theorem blocked_iff_witness :
    (0 : Time) + fiveMinutes < fiveMinutes + 1 ∧
    blockedColumn 3 (some 0) (fiveMinutes + 1) = some false :=
  ⟨by decide, (blocked_iff 3 0 (fiveMinutes + 1)).2.2.1 (by decide)⟩

/-- C8, as stated, fails: the only user of `exSysInactiveNoFlag` is inactive and `Login`
returns `ErrNotHavePermissionLogin`, not `ErrUserNotExists`, because the check of
`FlagEnabledAccount` comes before the check of the active column. -/
theorem Login_inactive_without_flag :
    (∀ u ∈ exSysInactiveNoFlag.db.users, u.active = false) ∧
    (application.Login exSysInactiveNoFlag exLogin).result = .error ErrNotHavePermissionLogin ∧
    (application.Login exSysInactiveNoFlag exLogin).result ≠ .error ErrUserNotExists := by
  decide

/-- C8 (amended): for every `Login` call of the flag based variant with an email, in which the
transaction opens and the user query does not fail: if no user row matches the email, `Login`
fails with `ErrUserNotExists`; if the matching user is inactive, `Login` fails with `ErrUserNotExists` when
the user holds `FlagEnabledAccount` and with `ErrNotHavePermissionLogin` when it does not;
in both cases whatever the lockout state and the supplied password, without comparing the
password, without any write and without committing. -/
theorem Login_absent_or_inactive (s : Sys) (inp : LoginInput)
    (hOpen : s.fail .NewTransaction = none)
    (hGet : s.fail (.UserGet none inp.Email) = none) (hEmail : inp.Email ≠ none) :
    (s.db.users.find? (PGUser.cond none inp.Email) = none →
      (application.Login s inp).result = .error ErrUserNotExists ∧
      (application.Login s inp).calls = [.NewTransaction, .UserGet none inp.Email, .Rollback] ∧
      (application.Login s inp).committed = false ∧
      (application.Login s inp).db = s.db) ∧
    (∀ u, s.db.users.find? (PGUser.cond none inp.Email) = some u → u.active = false →
      (application.Login s inp).result =
        .error (if flagColumn u.flag s.FlagEnabledAccount then ErrUserNotExists
                else ErrNotHavePermissionLogin) ∧
      (application.Login s inp).calls = [.NewTransaction, .UserGet none inp.Email, .Rollback] ∧
      (application.Login s inp).committed = false ∧
      (application.Login s inp).db = s.db) := by
  constructor
  · apply application_Login_paths s inp
    all_goals intros
    all_goals simp_all [Outcome.committed, Outcome.calls]
  · apply application_Login_paths s inp
    all_goals intros
    all_goals simp_all [Outcome.committed, Outcome.calls]

/-- Witness of C8: no user of `exSys` has the email `b@x.com`, and `Login` with it fails with
`ErrUserNotExists`. -/
theorem Login_absent_or_inactive_witness :
    (application.Login exSys { exLogin with Email := some "b@x.com" }).result =
      .error ErrUserNotExists :=
  ((Login_absent_or_inactive exSys { exLogin with Email := some "b@x.com" }
    (by decide) (by decide) (by decide)).1 (by decide)).1

/-- C9: in the flag based `Login`, for a user whose password comparison succeeded (the row
exists, holds `FlagEnabledAccount`, is active and not locked out): if the second factor is
configured and the validation of the supplied one-time code fails, `Login` returns
`ErrOTPTokenInvalid`, and the calls of the run are the user query, the password comparison and
the validation: `AddAttempts` is not called, no session is created, nothing is committed and
the durable rows are unchanged.  If the second factor is not configured, the one-time code is
never validated, in any run for that user. -/
theorem Login_otp (s : Sys) (inp : LoginInput) (u : UserRow)
    (hUser : s.db.users.find? (PGUser.cond none inp.Email) = some u) :
    (s.fail .NewTransaction = none → s.fail (.UserGet none inp.Email) = none →
      flagColumn u.flag s.FlagEnabledAccount = true → u.active = true →
      blockedColumn u.attempts u.last_failure s.now ≠ some true →
      s.comparePasswords inp.Password (some u.password) (some u.key) = none →
      (PGUser.scan s { User.empty with Email := inp.Email } u).OTPConfigured = true →
      s.validateToken u.otp inp.OTP ≠ none →
        (application.Login s inp).result = .error ErrOTPTokenInvalid ∧
        (application.Login s inp).calls =
          [.NewTransaction, .UserGet none inp.Email, .ComparePasswords inp.Password,
           .ValidateToken inp.OTP, .Rollback] ∧
        (application.Login s inp).writes = [] ∧
        (application.Login s inp).committed = false ∧
        (application.Login s inp).db = s.db) ∧
    ((PGUser.scan s { User.empty with Email := inp.Email } u).OTPConfigured = false →
      ∀ otp, Call.ValidateToken otp ∉ (application.Login s inp).calls) := by
  constructor
  · apply application_Login_paths s inp
    all_goals intros
    all_goals simp_all [Outcome.committed, Outcome.calls, Outcome.writes, Call.isMutation,
      User.OTPConfigured, PGUser.scan, find_cond_none]
  · apply application_Login_paths s inp
    all_goals intros
    all_goals simp_all [Outcome.calls, User.OTPConfigured, PGUser.scan, find_cond_none]

/-- Witness of C9: the user of `exSysOTP` has the second factor configured with secret
`123456`; `Login` with the right password and the code `000000` fails with
`ErrOTPTokenInvalid` and writes nothing. -/
theorem Login_otp_witness :
    (application.Login exSysOTP { exLogin with OTP := some "000000" }).result =
      .error ErrOTPTokenInvalid ∧
    (application.Login exSysOTP { exLogin with OTP := some "000000" }).writes = [] :=
  have h := (Login_otp exSysOTP { exLogin with OTP := some "000000" }
    { exUser with
      flag := 7, roles := [.ReadSession, .CreateSession, .DeleteSession], otp := some "123456" }
    (by decide)).1 (by decide) (by decide) (by decide) (by decide) (by decide) (by decide)
    (by decide) (by decide)
  ⟨h.1, h.2.2.1⟩

/-- C10: no session is created unless the transaction commits, in both variants of `Login`.
In every run that returns an error the durable session rows are those before the call, and if
the session row had been inserted in the transaction (the error came from the signing of the
token or from `Commit`) no `Commit` succeeded and no durable row changed.  In every run that
returns a session descriptor: the session steps of the run are one `Create` of the session for
the loaded user, one `NewUserAuthToken` issued for that user and the session id `Create`
returned, and one `Commit`, in that order; the `Commit` succeeded; the descriptor carries that
session id, the token the signer returned, and the id, email and names of the loaded user; and
the durable rows are the rows before the call plus that session row. -/
theorem Login_session (s : Sys) :
    (∀ inp : LoginInput,
      ((application.Login s inp).failed = true →
        (application.Login s inp).db.sessions = s.db.sessions ∧
        (∀ uid ip ua, ⟨.SessionCreate uid ip ua, none⟩ ∈ (application.Login s inp).log →
          (application.Login s inp).committed = false ∧ (application.Login s inp).db = s.db)) ∧
      (∀ d, (application.Login s inp).result = .ok d →
        ∃ u tok,
          s.db.users.find? (PGUser.cond none inp.Email) = some u ∧
          (application.Login s inp).sessionSteps =
            [.SessionCreate (some u.id) inp.ClientIP inp.UserAgent,
             .NewUserAuthToken (some u.id) d.SessionID, .Commit] ∧
          (application.Login s inp).committed = true ∧
          d.SessionID = some (s.newID (.SessionCreate (some u.id) inp.ClientIP inp.UserAgent)) ∧
          s.sign (PGUser.scan s { User.empty with Email := inp.Email } u) d.SessionID = .ok tok ∧
          d.Token = some tok ∧
          d.UserID = some u.id ∧ d.Email = some u.email ∧
          d.FirstName = some u.first_name ∧ d.LastName = some u.last_name ∧
          (application.Login s inp).db =
            { s.db with
              sessions := s.db.sessions ++
                [{ id := s.newID (.SessionCreate (some u.id) inp.ClientIP inp.UserAgent),
                   user_id := some u.id, client_ip := inp.ClientIP,
                   user_agent := inp.UserAgent, created_at := s.now }] })) ∧
    (∀ req : internal.LoginRequest,
      ((internal.Login s req).failed = true →
        (internal.Login s req).db.sessions = s.db.sessions ∧
        (∀ uid ip ua, ⟨.SessionCreate uid ip ua, none⟩ ∈ (internal.Login s req).log →
          (internal.Login s req).committed = false ∧ (internal.Login s req).db = s.db)) ∧
      (∀ d, (internal.Login s req).result = .ok d →
        ∃ u tok,
          s.db.users.find? (internal.repoUser.cond none req.Email) = some u ∧
          (internal.Login s req).sessionSteps =
            [.SessionCreate (some u.id) (some req.ClientIP) (some req.UserAgent),
             .NewUserAuthToken (some u.id) d.SessionID, .Commit] ∧
          (internal.Login s req).committed = true ∧
          d.SessionID =
            some (s.newID (.SessionCreate (some u.id) (some req.ClientIP) (some req.UserAgent))) ∧
          s.signLegacy
            (internal.repoUser.scan s { internal.LegacyUser.empty with Email := req.Email } u)
            d.SessionID = .ok tok ∧
          d.Token = some tok ∧
          d.UserID = some u.id ∧ d.Email = some u.email ∧
          d.FirstName = some u.first_name ∧ d.LastName = some u.last_name ∧
          (internal.Login s req).db =
            { s.db with
              sessions := s.db.sessions ++
                [{ id := s.newID
                     (.SessionCreate (some u.id) (some req.ClientIP) (some req.UserAgent)),
                   user_id := some u.id, client_ip := some req.ClientIP,
                   user_agent := some req.UserAgent, created_at := s.now }] })) := by
  refine ⟨fun inp => ⟨?_, ?_⟩, fun req => ⟨?_, ?_⟩⟩
  · apply application_Login_paths s inp
    all_goals intros
    all_goals simp_all [Outcome.failed, Outcome.committed, addAttempt]
  · apply application_Login_paths s inp
    all_goals intros
    all_goals simp_all [Outcome.committed, Outcome.calls, Outcome.sessionSteps,
      Call.isSessionStep]
    all_goals subst_vars
    all_goals simp_all
  · apply internal_Login_paths s req
    all_goals intros
    all_goals simp_all [Outcome.failed, Outcome.committed, addAttempt]
  · apply internal_Login_paths s req
    all_goals intros
    all_goals simp_all [Outcome.committed, Outcome.calls, Outcome.sessionSteps,
      Call.isSessionStep]
    all_goals subst_vars
    all_goals simp_all

/-- Witness of C10: `Login` of the enabled user of `exSysActive` with the right password
returns a descriptor, in both variants, and the durable rows hold the session it names. -/
theorem Login_session_witness :
    (∃ d, (application.Login exSysActive exLogin).result = .ok d ∧
      (application.Login exSysActive exLogin).sessionSteps =
        [.SessionCreate (some 7) (some "10.0.0.1") (some "agent"),
         .NewUserAuthToken (some 7) d.SessionID, .Commit] ∧
      (application.Login exSysActive exLogin).db.sessions.map SessionRow.id = [9] ∧
      d.SessionID = some 9 ∧ d.Token = some "signed" ∧ d.UserID = some 7) ∧
    (∃ d, (internal.Login exSysActive exLoginRequest).result = .ok d ∧
      (internal.Login exSysActive exLoginRequest).sessionSteps =
        [.SessionCreate (some 7) (some "10.0.0.1") (some "agent"),
         .NewUserAuthToken (some 7) d.SessionID, .Commit] ∧
      d.SessionID = some 9 ∧ d.Token = some "signed" ∧ d.UserID = some 7) := by
  have ha : ∃ d, (application.Login exSysActive exLogin).result = .ok d := ⟨_, rfl⟩
  have hi : ∃ d, (internal.Login exSysActive exLoginRequest).result = .ok d := ⟨_, rfl⟩
  obtain ⟨d, hd⟩ := ha
  obtain ⟨e, he⟩ := hi
  obtain ⟨u, tok, hu, h1, _, h3, h4, h5, h6, _, _, _, h10⟩ :=
    ((Login_session exSysActive).1 exLogin).2 d hd
  obtain ⟨v, tok2, hv, k1, _, k3, k4, k5, k6, _⟩ :=
    ((Login_session exSysActive).2 exLoginRequest).2 e he
  have hu7 : u = { exUser with flag := 1, roles := [.ReadSession, .CreateSession, .DeleteSession] } := by
    have : exSysActive.db.users.find? (PGUser.cond none exLogin.Email) =
        some { exUser with flag := 1, roles := [.ReadSession, .CreateSession, .DeleteSession] } := by
      decide
    rw [this] at hu
    exact (Option.some.inj hu).symm
  have hv7 : v = { exUser with flag := 1, roles := [.ReadSession, .CreateSession, .DeleteSession] } := by
    have : exSysActive.db.users.find? (internal.repoUser.cond none exLoginRequest.Email) =
        some { exUser with flag := 1, roles := [.ReadSession, .CreateSession, .DeleteSession] } := by
      decide
    rw [this] at hv
    exact (Option.some.inj hv).symm
  subst hu7 hv7
  refine ⟨⟨d, hd, h1, ?_, h3, ?_, h6⟩, ⟨e, he, k1, k3, ?_, k6⟩⟩
  · rw [h10]; rfl
  · rw [h5]
    have : exSysActive.sign
        (PGUser.scan exSysActive { User.empty with Email := exLogin.Email }
          { exUser with flag := 1, roles := [.ReadSession, .CreateSession, .DeleteSession] })
        d.SessionID = .ok "signed" := rfl
    rw [this] at h4
    cases h4
    rfl
  · rw [k5]
    have : exSysActive.signLegacy
        (internal.repoUser.scan exSysActive
          { internal.LegacyUser.empty with Email := exLoginRequest.Email }
          { exUser with flag := 1, roles := [.ReadSession, .CreateSession, .DeleteSession] })
        e.SessionID = .ok "signed" := rfl
    rw [this] at k4
    cases k4
    rfl

/-! ## Registration -/

/-- C11: for a registration input that passes `Prepare`, in both variants: when a user
with the prepared email exists, the run fails, issues no user insert, no token insert, no email
and no `Commit`, leaves the rows as they were, and returns `ErrUserExists` whenever the
transaction opens and the existence query runs; when no user has that email the run never
returns `ErrUserExists`, and whenever the transaction opens and the existence query runs it
goes on to the step after the check. -/
theorem Register_existing_email (s : Sys) (inp inp1 : CreateAccount)
    (req req1 : RegisterRequest) (hp : s.prepare inp = .ok inp1)
    (hq : s.prepareRequest req = .ok req1) :
    (emailTaken s.db inp1.Email = true →
      (application.CreateAccount s inp).failed = true ∧
      (application.CreateAccount s inp).registrationSteps = [] ∧
      (application.CreateAccount s inp).db = s.db ∧
      (s.fail .NewTransaction = none → s.fail (.Exist inp1.Email) = none →
        (application.CreateAccount s inp).result = .error ErrUserExists)) ∧
    (emailTaken s.db inp1.Email = false →
      (application.CreateAccount s inp).result ≠ .error ErrUserExists ∧
      (s.fail .NewTransaction = none → s.fail (.Exist inp1.Email) = none →
        ⟨.Exist inp1.Email, none⟩ ∈ (application.CreateAccount s inp).log ∧
        .FormatValuesInUp ∈ (application.CreateAccount s inp).calls)) ∧
    (emailTaken s.db req1.Email = true →
      (internal.Register s req).failed = true ∧
      (internal.Register s req).registrationSteps = [] ∧
      (internal.Register s req).db = s.db ∧
      (s.fail .NewTransaction = none → s.fail (.FindByEmailUserExists req1.Email) = none →
        (internal.Register s req).result = .error ErrUserExists)) ∧
    (emailTaken s.db req1.Email = false →
      (internal.Register s req).result ≠ .error ErrUserExists ∧
      (s.fail .NewTransaction = none → s.fail (.FindByEmailUserExists req1.Email) = none →
        ⟨.FindByEmailUserExists req1.Email, none⟩ ∈ (internal.Register s req).log ∧
        .TypeConverter ∈ (internal.Register s req).calls)) := by
  refine ⟨?_, ?_, ?_, ?_⟩
  · intro h
    apply application_CreateAccount_paths s inp
    all_goals intros
    all_goals simp_all [Outcome.failed, Outcome.registrationSteps, Outcome.calls,
      Call.isRegistrationStep]
  · intro h
    apply application_CreateAccount_paths s inp
    all_goals intros
    all_goals simp_all [Outcome.calls, ErrUserExists]
  · intro h
    apply internal_Register_paths s req
    all_goals intros
    all_goals simp_all [Outcome.failed, Outcome.registrationSteps, Outcome.calls,
      Call.isRegistrationStep]
  · intro h
    apply internal_Register_paths s req
    all_goals intros
    all_goals simp_all [Outcome.calls, ErrUserExists]

/-- Witness of C11: on `exSys` the email of `exUser` is taken and both variants return
`ErrUserExists`. -/
theorem Register_existing_email_witness :
    (application.CreateAccount exSys exCreateAccountTaken).result = .error ErrUserExists ∧
    (internal.Register exSys exRegisterRequestTaken).result = .error ErrUserExists :=
  ⟨((Register_existing_email exSys exCreateAccountTaken exCreateAccountTaken
      exRegisterRequestTaken exRegisterRequestTaken (by decide) (by decide)).1
      (by decide)).2.2.2 (by decide) (by decide),
   ((Register_existing_email exSys exCreateAccountTaken exCreateAccountTaken
      exRegisterRequestTaken exRegisterRequestTaken (by decide) (by decide)).2.2.1
      (by decide)).2.2.2 (by decide) (by decide)⟩

/-- C12: in both variants, a run in which a call other than `Commit` returns an error
fails without calling `Commit`; a run that fails leaves the rows as they were and calls `Commit`
only when `Commit` is the call that fails; and a run that returns success passed `Prepare`, logged no error, and issued exactly the user insert, the token
insert for the id that insert returned, the email to the prepared address with the id of that
token, and one `Commit`, in that order, the rows growing by that one user and that one token. -/
theorem Register_all_or_nothing (s : Sys) (inp : CreateAccount) (req : RegisterRequest) :
    ((∀ c e, ⟨c, some e⟩ ∈ (application.CreateAccount s inp).log → c ≠ .Commit →
        (application.CreateAccount s inp).failed = true ∧
        .Commit ∉ (application.CreateAccount s inp).calls) ∧
      ((application.CreateAccount s inp).failed = true →
        (application.CreateAccount s inp).db = s.db ∧
        (s.fail .Commit = none → .Commit ∉ (application.CreateAccount s inp).calls)) ∧
      ((application.CreateAccount s inp).result = .ok () →
        ∃ inp1 row, s.prepare inp = .ok inp1 ∧ s.userRow inp1 = .ok row ∧
          emailTaken s.db inp1.Email = false ∧
          (∀ ev ∈ (application.CreateAccount s inp).log, ev.err = none) ∧
          (application.CreateAccount s inp).registrationSteps =
            [.CreateAccount inp1.Email,
             .CreateAccessToken (some (s.newID (.CreateAccount inp1.Email))),
             .SendMailActivationAccount inp1.Email
               (some (s.newID (.CreateAccessToken (some (s.newID (.CreateAccount inp1.Email)))))),
             .Commit] ∧
          (application.CreateAccount s inp).db =
            { s.db with
              users := s.db.users ++ [{ row with id := s.newID (.CreateAccount inp1.Email) }],
              tokens := s.db.tokens ++
                [{ id := s.newID (.CreateAccessToken (some (s.newID (.CreateAccount inp1.Email)))),
                   user_id := some (s.newID (.CreateAccount inp1.Email)), used := false,
                   expires_at := s.now + thirtyMinutes, created_at := s.now }] })) ∧
    ((∀ c e, ⟨c, some e⟩ ∈ (internal.Register s req).log → c ≠ .Commit →
        (internal.Register s req).failed = true ∧
        .Commit ∉ (internal.Register s req).calls) ∧
      ((internal.Register s req).failed = true →
        (internal.Register s req).db = s.db ∧
        (s.fail .Commit = none → .Commit ∉ (internal.Register s req).calls)) ∧
      ((internal.Register s req).result = .ok () →
        ∃ req1, s.prepareRequest req = .ok req1 ∧
          emailTaken s.db req1.Email = false ∧
          (∀ ev ∈ (internal.Register s req).log, ev.err = none) ∧
          (internal.Register s req).registrationSteps =
            [.Register req1.Email,
             .CreateAccessToken (some (s.newID (.Register req1.Email))),
             .SendMailActivationAccount req1.Email
               (some (s.newID (.CreateAccessToken (some (s.newID (.Register req1.Email)))))),
             .Commit] ∧
          (internal.Register s req).db =
            { s.db with
              users := s.db.users ++
                [{ s.requestRow req1 with
                   id := s.newID (.Register req1.Email), roles := internal.Register.roles req1 }],
              tokens := s.db.tokens ++
                [{ id := s.newID (.CreateAccessToken (some (s.newID (.Register req1.Email)))),
                   user_id := some (s.newID (.Register req1.Email)), used := false,
                   expires_at := s.now + thirtyMinutes, created_at := s.now }] })) := by
  refine ⟨⟨?_, ?_, ?_⟩, ⟨?_, ?_, ?_⟩⟩
  · apply application_CreateAccount_paths s inp
    all_goals intros
    all_goals simp_all [Outcome.failed, Outcome.calls]
  · apply application_CreateAccount_paths s inp
    all_goals intros
    all_goals simp_all [Outcome.failed, Outcome.calls]
  · apply application_CreateAccount_paths s inp
    all_goals intros
    all_goals simp_all [Outcome.registrationSteps, Outcome.calls, Call.isRegistrationStep]
  · apply internal_Register_paths s req
    all_goals intros
    all_goals simp_all [Outcome.failed, Outcome.calls]
  · apply internal_Register_paths s req
    all_goals intros
    all_goals simp_all [Outcome.failed, Outcome.calls]
  · apply internal_Register_paths s req
    all_goals intros
    all_goals simp_all [Outcome.registrationSteps, Outcome.calls, Call.isRegistrationStep]

/-- Witness of C12: on `exSysMailFails` the mail gateway fails; the run fails without a
`Commit` and the rows are unchanged. -/
theorem Register_all_or_nothing_witness :
    (application.CreateAccount exSysMailFails exCreateAccount).failed = true ∧
    .Commit ∉ (application.CreateAccount exSysMailFails exCreateAccount).calls ∧
    (application.CreateAccount exSysMailFails exCreateAccount).db = exSysMailFails.db :=
  ⟨((Register_all_or_nothing exSysMailFails exCreateAccount exRegisterRequest).1.1
      (.SendMailActivationAccount (some "b@y.com") (some 9)) (.other 1) (by decide)
      (by decide)).1,
   ((Register_all_or_nothing exSysMailFails exCreateAccount exRegisterRequest).1.1
      (.SendMailActivationAccount (some "b@y.com") (some 9)) (.other 1) (by decide)
      (by decide)).2,
   ((Register_all_or_nothing exSysMailFails exCreateAccount exRegisterRequest).1.2.1
     (by decide)).1⟩

/-! ## Disabling a user -/

/-- After the update of `Disable` no row with that id is active: a second update finds no row. -/
theorem disabled_disable (now : Time) (userUUID : Option UUID) (d : DB) :
    disabled userUUID (disable now userUUID d) = [] := by
  simp only [disabled, disable, List.map_eq_nil_iff, List.filter_eq_nil_iff, List.mem_map]
  rintro r ⟨a, -, rfl⟩
  by_cases h : (userUUID == some a.id && a.active) = true
  · rw [if_pos h]; simp
  · rw [if_neg h]; exact h

/-- The update of `Disable` changes no row when every row with that id is inactive. -/
theorem disable_inactive (now : Time) (userUUID : Option UUID) (d : DB)
    (h : ∀ r ∈ d.users, userUUID = some r.id → r.active = false) :
    disable now userUUID d = d ∧ disabled userUUID d = [] := by
  constructor
  · simp only [disable]
    have : d.users.map (fun r =>
        if userUUID == some r.id && r.active then
          { r with active := false, updated_at := some now } else r) = d.users := by
      conv_rhs => rw [← List.map_id d.users]
      apply List.map_congr_left
      intro r hr
      by_cases h1 : userUUID = some r.id
      · simp [h r hr h1]
      · simp [h1]
    rw [this]
  · simp only [disabled, List.map_eq_nil_iff, List.filter_eq_nil_iff]
    intro r hr
    by_cases h1 : userUUID = some r.id
    · simp [h r hr h1]
    · simp [h1]

/-- The update of `Disable` leaves no active row with that id. -/
theorem disable_all_inactive (now : Time) (userUUID : Option UUID) (d : DB) :
    ∀ r ∈ (disable now userUUID d).users, userUUID = some r.id → r.active = false := by
  simp only [disable, List.mem_map]
  rintro r ⟨a, -, rfl⟩ h
  by_cases h1 : (userUUID == some a.id && a.active) = true
  · simp [h1]
  · simp only [h1]
    simp_all

/-- C13, as stated, fails: `PGUser.Disable` on the id of an inactive user returns the wrapped
`sql.ErrNoRows`, not ok. -/
theorem Disable_inactive_returns_error :
    (PGUser.Disable exSysInactiveNoFlag exTxInactive (some 7)).1 = some (oops.Err .errNoRows) := by
  decide

/-- C13 (amended): when the driver does not fail, `PGUser.Disable` on a user id whose rows
are all inactive (or absent) returns the wrapped `sql.ErrNoRows` and leaves the rows unchanged;
on an id with an active row it returns ok, and a second `Disable` of that id, at any later
instant, returns the wrapped `sql.ErrNoRows` and leaves the rows as the first call left them. -/
theorem Disable_twice (s s2 : Sys) (t : Tx) (id : UUID)
    (hf : s.fail (.Disable (some id)) = none) (hf2 : s2.fail (.Disable (some id)) = none) :
    ((∀ r ∈ t.view.users, r.id = id → r.active = false) →
      (PGUser.Disable s t (some id)).1 = some (oops.Err .errNoRows) ∧
      (PGUser.Disable s t (some id)).2.view = t.view) ∧
    ((∃ r ∈ t.view.users, r.id = id ∧ r.active = true) →
      (PGUser.Disable s t (some id)).1 = none ∧
      (PGUser.Disable s t (some id)).2.view = disable s.now (some id) t.view ∧
      (PGUser.Disable s2 (PGUser.Disable s t (some id)).2 (some id)).1 =
        some (oops.Err .errNoRows) ∧
      (PGUser.Disable s2 (PGUser.Disable s t (some id)).2 (some id)).2.view =
        (PGUser.Disable s t (some id)).2.view) := by
  constructor
  · intro h
    obtain ⟨h1, h2⟩ := disable_inactive s.now (some id) t.view
      (fun r hr hid => h r hr (Option.some.inj hid).symm)
    simp [PGUser.Disable, hf, h1, h2, Tx.record]
  · rintro ⟨r, hr, hid, hact⟩
    obtain ⟨x, hx⟩ : ∃ x, (disabled (some id) t.view).head? = some x := by
      cases hd : (disabled (some id) t.view).head? with
      | some x => exact ⟨x, rfl⟩
      | none =>
        rw [List.head?_eq_none_iff] at hd
        simp only [disabled, List.map_eq_nil_iff, List.filter_eq_nil_iff] at hd
        have := hd r hr
        simp [hid, hact] at this
    have h1 : PGUser.Disable s t (some id) =
        (none,
         { t.record (.Disable (some id)) none with view := disable s.now (some id) t.view }) := by
      simp [PGUser.Disable, hf, hx]
    obtain ⟨h2, h3⟩ := disable_inactive s2.now (some id) (disable s.now (some id) t.view)
      (disable_all_inactive s.now (some id) t.view)
    rw [h1]
    simp [PGUser.Disable, hf2, h2, h3, Tx.record]

/-- Witness of C13: the user of `exSys` is active; the first `Disable` returns ok, the second
the wrapped `sql.ErrNoRows`. -/
theorem Disable_twice_witness :
    exSys.fail (.Disable (some 7)) = none ∧
    (PGUser.Disable exSys exTx (some 7)).1 = none ∧
    (PGUser.Disable exSys (PGUser.Disable exSys exTx (some 7)).2 (some 7)).1 =
      some (oops.Err .errNoRows) :=
  ⟨by decide,
   ((Disable_twice exSys exSys exTx 7 (by decide) (by decide)).2
      ⟨exUser, by decide, by decide, by decide⟩).1,
   ((Disable_twice exSys exSys exTx 7 (by decide) (by decide)).2
      ⟨exUser, by decide, by decide, by decide⟩).2.2.1⟩

/-! ## The lookup of the activation token -/

/-- C14: `GetActivateAccountToken` returns the bare `sql.ErrNoRows`, with `data` as it was,
exactly when the read does not fail and no row has the id; it returns no error when a row has
the id, expired or not, and the wrapped error of the driver, never `sql.ErrNoRows`, when the
read fails.  For `Activation` of both variants a missing token gives `sql.ErrNoRows` and a token
that is present but expired gives `ErrTokenIsNotValid`, two different error values. -/
theorem GetActivateAccountToken_not_found (s : Sys) (t : Tx) (data : ActivateAccount)
    (token : Option UUID) :
    (s.fail (.GetActivateAccountToken data.ID) = none →
      t.view.tokens.find? (fun r => data.ID == some r.id) = none →
      (PGAuth.GetActivateAccountToken s t data).1 = some .errNoRows ∧
      (PGAuth.GetActivateAccountToken s t data).2.1 = data) ∧
    (s.fail (.GetActivateAccountToken data.ID) = none →
      ∀ r, t.view.tokens.find? (fun r => data.ID == some r.id) = some r →
      (PGAuth.GetActivateAccountToken s t data).1 = none ∧
      (PGAuth.GetActivateAccountToken s t data).2.1.Valid = some (decide (r.expires_at ≥ s.now))) ∧
    (∀ n, s.fail (.GetActivateAccountToken data.ID) = some n →
      (PGAuth.GetActivateAccountToken s t data).1 = some (oops.Err (.other n)) ∧
      (PGAuth.GetActivateAccountToken s t data).1 ≠ some .errNoRows) ∧
    (s.fail .NewTransaction = none → s.fail (.GetActivateAccountToken token) = none →
      (s.db.tokens.find? (fun r => token == some r.id) = none →
        (application.Activation s token).result = .error .errNoRows ∧
        (internal.Activation s token).result = .error .errNoRows) ∧
      (∀ r, s.db.tokens.find? (fun r => token == some r.id) = some r → r.used = false →
        r.expires_at < s.now →
        (application.Activation s token).result = .error ErrTokenIsNotValid ∧
        (internal.Activation s token).result = .error ErrTokenIsNotValid)) ∧
    Error.errNoRows ≠ ErrTokenIsNotValid := by
  refine ⟨?_, ?_, ?_, ?_, by decide⟩
  · intro hf hrow
    simp [PGAuth.GetActivateAccountToken, queryRow, hf, hrow]
  · intro hf r hrow
    simp [PGAuth.GetActivateAccountToken, queryRow, hf, hrow]
  · intro n hf
    simp [PGAuth.GetActivateAccountToken, queryRow, hf, oops.Err]
  · intro h0 hf
    constructor
    · intro hrow
      constructor
      · apply application_Activation_paths s token
        all_goals intros
        all_goals simp_all
      · apply internal_Activation_paths s token
        all_goals intros
        all_goals simp_all
    · intro r hrow hused hexp
      constructor
      · apply application_Activation_paths s token
        all_goals intros
        all_goals simp_all
        all_goals exfalso; linarith
      · apply internal_Activation_paths s token
        all_goals intros
        all_goals simp_all
        all_goals exfalso; linarith

/-- Witness of C14: on `exSys` the token id 2 has no row and the read returns
`sql.ErrNoRows`. -/
theorem GetActivateAccountToken_not_found_witness :
    (PGAuth.GetActivateAccountToken exSys exTx
      { ID := some 2, UserID := none, Used := none, Valid := none, ExpiresAt := none,
        CreatedAt := none }).1 = some .errNoRows :=
  ((GetActivateAccountToken_not_found exSys exTx
      { ID := some 2, UserID := none, Used := none, Valid := none, ExpiresAt := none,
        CreatedAt := none } (some 2)).1 (by decide) (by decide)).1

/-! ## Error codes -/

/-- C15, as stated, fails: the not-valid error and the permission-denied error of `Login`
carry the same code, 400. -/
theorem not_valid_and_permission_denied_share_code :
    ErrTokenIsNotValid.code = ErrNotHavePermissionLogin.code := by
  decide

/-- C15 (amended): the five error values are pairwise distinct, and their codes separate
not-found (404) and blocked (403) from each other and from the rest; not-valid and the two
permission-denied errors all carry 400 and differ in the message key only. -/
theorem domain_error_codes :
    [ErrUserNotExists, ErrTokenIsNotValid, ErrUserBlockedTemporarily, ErrNotHavePermissionLogin,
      ErrNotHavePermissionActiveAccount].Nodup ∧
    ErrUserNotExists.code = some 404 ∧ ErrUserBlockedTemporarily.code = some 403 ∧
    ErrTokenIsNotValid.code = some 400 ∧ ErrNotHavePermissionLogin.code = some 400 ∧
    ErrNotHavePermissionActiveAccount.code = some 400 := by
  decide

/-- Witness of C15: the codes of the not-found and of the blocked error. -/
theorem domain_error_codes_witness :
    ErrUserNotExists.code = some 404 ∧ ErrUserBlockedTemporarily.code = some 403 :=
  ⟨domain_error_codes.2.1, domain_error_codes.2.2.1⟩

/-! ## The attempts counter -/

/-- The lookup by email after the update of `AddAttempts`: the row found before, updated. -/
theorem find_addAttempt (now : Time) (userID : Option UUID) (d : DB) (e : Option String) :
    (addAttempt now userID d).users.find? (PGUser.cond none e) =
      (d.users.find? (PGUser.cond none e)).map (fun r =>
        if userID == some r.id then { r with attempts := r.attempts + 1, last_failure := some now }
        else r) := by
  simp only [addAttempt, List.find?_map]
  congr 2
  funext r
  cases e <;> simp only [Function.comp, PGUser.cond] <;> split <;> rfl

/-- One `Login` call: the rows of `users` are left as they were, or the comparison failed and
the update of `AddAttempts` for the row found was committed. -/
theorem application_Login_users (s : Sys) (inp : LoginInput) :
    ((application.Login s inp).db.users = s.db.users ∧
      ¬ ((∃ e, ⟨.ComparePasswords inp.Password, some e⟩ ∈ (application.Login s inp).log) ∧
         (application.Login s inp).committed = true)) ∨
    (∃ u err, s.db.users.find? (PGUser.cond none inp.Email) = some u ∧
      flagColumn u.flag s.FlagEnabledAccount = true ∧ u.active = true ∧
      s.comparePasswords inp.Password (some u.password) (some u.key) = some err ∧
      (application.Login s inp).result = .error err ∧
      (application.Login s inp).committed = true ∧
      ⟨.ComparePasswords inp.Password, some err⟩ ∈ (application.Login s inp).log ∧
      (application.Login s inp).db = addAttempt s.now (some u.id) s.db) := by
  apply application_Login_paths s inp
  all_goals intros
  all_goals simp_all [Outcome.committed]

/-- Relations that hold row by row compose. -/
theorem forall2_trans {R : UserRow → UserRow → Prop} (hR : ∀ a b c, R a b → R b c → R a c) :
    ∀ {l1 l2 l3 : List UserRow}, List.Forall₂ R l1 l2 → List.Forall₂ R l2 l3 →
      List.Forall₂ R l1 l3 := by
  intro l1 l2 l3 h1
  induction h1 generalizing l3 with
  | nil => intro h2; cases h2; exact List.Forall₂.nil
  | cons hab _ ih =>
    intro h2
    cases h2 with
    | cons hbc h2 => exact List.Forall₂.cons (hR _ _ _ hab hbc) (ih h2)

/-- The update of `AddAttempts` keeps the ids and lowers no counter. -/
theorem addAttempt_rows (now : Time) (userID : Option UUID) (d : DB) :
    List.Forall₂ (fun r r1 => r1.id = r.id ∧ r.attempts ≤ r1.attempts) d.users
      (addAttempt now userID d).users := by
  simp only [addAttempt, List.forall₂_map_right_iff]
  apply List.forall₂_same.mpr
  intro r _
  split <;> simp

/-- One `Login` call keeps the ids and lowers no counter. -/
theorem application_Login_rows (s : Sys) (inp : LoginInput) :
    List.Forall₂ (fun r r1 => r1.id = r.id ∧ r.attempts ≤ r1.attempts) s.db.users
      (application.Login s inp).db.users := by
  rcases application_Login_users s inp with ⟨h, -⟩ | ⟨u, err, -, -, -, -, -, -, -, h⟩
  · rw [h]
    exact List.forall₂_same.mpr (fun r _ => ⟨rfl, le_refl _⟩)
  · rw [h]
    exact addAttempt_rows s.now (some u.id) s.db

/-- A sequence of `Login` calls keeps the ids and lowers no counter. -/
theorem LoginSeq_rows (calls : List (Sys × LoginInput)) :
    ∀ d : DB, List.Forall₂ (fun r r1 => r1.id = r.id ∧ r.attempts ≤ r1.attempts) d.users
      (application.LoginSeq d calls).users := by
  induction calls with
  | nil =>
    intro d
    exact List.forall₂_same.mpr (fun r _ => ⟨rfl, le_refl _⟩)
  | cons c rest ih =>
    intro d
    obtain ⟨s, inp⟩ := c
    simp only [application.LoginSeq]
    exact forall2_trans (fun a b c h1 h2 => ⟨h2.1.trans h1.1, le_trans h1.2 h2.2⟩)
      (application_Login_rows { s with db := d } inp) (ih _)

/-- C16: over every sequence of `Login` calls the rows of `users` keep their ids and no
`attempts` value decreases.  For each call: when the comparison failed and the run committed,
the row found by the email has `attempts` raised by one and `last_failure` set to the instant
of the call, and the other rows are as they were; the run commits whenever the comparison
failed and neither `AddAttempts` nor `Commit` fails; every other call, a successful login
included, leaves the rows of `users` as they were.  After a counted failure on a row with
`attempts` at least two, three included, a `Login` for the same email at any instant up to five
minutes later returns `ErrUserBlockedTemporarily`, whatever the password. -/
theorem Login_attempts_never_reset (d : DB) (calls : List (Sys × LoginInput)) (s s2 : Sys)
    (inp inp2 : LoginInput) :
    List.Forall₂ (fun r r1 => r1.id = r.id ∧ r.attempts ≤ r1.attempts) d.users
      (application.LoginSeq d calls).users ∧
    (∀ u, s.db.users.find? (PGUser.cond none inp.Email) = some u →
      (∃ e, ⟨.ComparePasswords inp.Password, some e⟩ ∈ (application.Login s inp).log) →
      ((application.Login s inp).committed = true →
        (application.Login s inp).db.users = s.db.users.map (fun r =>
          if u.id = r.id then { r with attempts := r.attempts + 1, last_failure := some s.now }
          else r)) ∧
      (s.fail (.AddAttempts (some u.id)) = none → s.fail .Commit = none →
        (application.Login s inp).committed = true)) ∧
    (¬ ((∃ e, ⟨.ComparePasswords inp.Password, some e⟩ ∈ (application.Login s inp).log) ∧
        (application.Login s inp).committed = true) →
      (application.Login s inp).db.users = s.db.users) ∧
    (∀ a, (application.Login s inp).result = .ok a →
      (application.Login s inp).db.users = s.db.users) ∧
    (∀ u, s.db.users.find? (PGUser.cond none inp.Email) = some u →
      (∃ e, ⟨.ComparePasswords inp.Password, some e⟩ ∈ (application.Login s inp).log) →
      (application.Login s inp).committed = true → 2 ≤ u.attempts →
      s2.db = (application.Login s inp).db → s2.FlagEnabledAccount = s.FlagEnabledAccount →
      s2.now ≤ s.now + fiveMinutes → s2.fail .NewTransaction = none →
      s2.fail (.UserGet none inp.Email) = none → inp2.Email = inp.Email →
      (application.Login s2 inp2).result = .error ErrUserBlockedTemporarily) := by
  refine ⟨LoginSeq_rows calls d, ?_, ?_, ?_, ?_⟩
  · intro u hu hcmp
    constructor
    · intro hc
      rcases application_Login_users s inp with ⟨-, h⟩ | ⟨u1, err, h1, -, -, -, -, -, -, h⟩
      · exact absurd ⟨hcmp, hc⟩ h
      · rw [hu] at h1
        cases h1
        rw [h]
        simp [addAttempt]
    · apply application_Login_paths s inp
      all_goals intros
      all_goals simp_all [Outcome.committed]
  · intro hn
    rcases application_Login_users s inp with ⟨h, -⟩ | ⟨u1, err, -, -, -, -, -, hc, hl, -⟩
    · exact h
    · exact absurd ⟨⟨err, hl⟩, hc⟩ hn
  · intro a ha
    rcases application_Login_users s inp with ⟨h, -⟩ | ⟨u1, err, -, -, -, -, hr, -, -, -⟩
    · exact h
    · rw [hr] at ha
      cases ha
  · intro u hu hcmp hc hatt hdb hflag hnow hnt hget hmail
    rcases application_Login_users s inp with ⟨-, h⟩ | ⟨u1, err, h1, hfl, hact, -, -, -, -, h⟩
    · exact absurd ⟨hcmp, hc⟩ h
    · rw [hu] at h1
      cases h1
      have hfind : s2.db.users.find? (PGUser.cond none inp2.Email) =
          some { u with attempts := u.attempts + 1, last_failure := some s.now } := by
        rw [hdb, h, hmail, find_addAttempt, hu]
        simp
      have hblk : blockedColumn (u.attempts + 1) (some s.now) s2.now = some true := by
        simp only [blockedColumn, Option.some.injEq, Bool.and_eq_true, decide_eq_true_eq]
        exact ⟨by omega, hnow⟩
      rw [← hmail] at hget
      have hne : inp2.Email ≠ none := by
        intro h0
        rw [h0, find_cond_none] at hfind
        cases hfind
      apply application_Login_paths s2 inp2
      all_goals intros
      all_goals simp_all
      all_goals subst_vars
      all_goals simp_all

/-- Witness of C16: the user of `exSysLapsed` has three attempts and the window has elapsed; a
`Login` with a wrong password is counted, and five minutes later `Login` with the right password
returns `ErrUserBlockedTemporarily`. -/
theorem Login_attempts_never_reset_witness :
    (application.Login exSysLapsed exLoginWrong).committed = true ∧
    (application.Login exSysRearmed exLogin).result = .error ErrUserBlockedTemporarily :=
  ⟨by decide,
   (Login_attempts_never_reset exSys.db [] exSysLapsed exSysRearmed exLoginWrong
      exLogin).2.2.2.2 exUserBlocked (by decide) ⟨ErrEmailOrPasswordIsNotValid, by decide⟩
      (by decide) (by decide) rfl rfl (by decide) (by decide) (by decide) rfl⟩

end SSO
